import Mathlib

/-!
Item collision hooks of `k_collide.c` and the fixed-capacity vector of
`core/static_vec.hpp`

A shallow embedding of the collision handlers of `src/k_collide.c` (namespace
`KCollide`) and of the class template `srb2::StaticVec` of
`src/core/static_vec.hpp` (namespace `srb2`).

* Objects (`mobj_t`) live in a heap indexed by natural numbers; a C pointer to
  an object is its index, a nullable pointer is an `Option Nat`.
* Every call to a collaborator that is defined outside `k_collide.c`
  (`P_DamageMobj`, `P_KillMobj`, `P_InstaThrust`, ...) is recorded, in program
  order, in the `trace` of the world.  What such a call does to the objects is
  not known here, so it is an arbitrary heap transformer `Env.call` supplied by
  the environment.  Sounds and freshly spawned cosmetic objects are recorded
  only.
* Constants, macros and helper functions that come from headers which are not
  part of the sources at hand are fields of the environment `Env`; theorems
  hold for every environment, `sampleEnv` is one to compute with.
* A handler returns its C result together with the new world.  Where the C
  code would dereference a `NULL` pointer after a collaborator call, or divide
  by zero, the result is `none` (`K_PvPTouchDamage`, `K_DropTargetCollide`).
* Signed arithmetic is exact integer arithmetic (signed overflow is undefined
  in C); `angle_t` arithmetic wraps modulo `2^32`.  The momentum that
  `K_BubbleShieldCollide` multiplies by `-4` is computed in `INT32` arithmetic
  modulo `2^32` (`wrapINT32`).
* A `StaticVec<T, Limit>` is its backing array `Fin Limit → T` and its element
  count; a member function ends in an `Outcome`: a normal return, the
  exception `std::length_error`, or undefined behaviour (an access outside the
  backing array).
-/

namespace KCollide

/-! ## Data model -/

/-- The object types (`mobjtype_t`) that `k_collide.c` names. -/
inductive mobjtype_t where
  | MT_PLAYER
  | MT_BANANA
  | MT_BANANA_SHIELD
  | MT_ORBINAUT
  | MT_ORBINAUT_SHIELD
  | MT_JAWZ
  | MT_JAWZ_SHIELD
  | MT_BALLHOG
  | MT_GACHABOM
  | MT_SSMINE
  | MT_SSMINE_SHIELD
  | MT_LANDMINE
  | MT_ITEMCLASH
  | MT_RANDOMITEM
  | MT_EGGMANITEM
  | MT_EGGMANITEM_SHIELD
  | MT_DROPTARGET
  | MT_DROPTARGET_SHIELD
  | MT_SPB
  | MT_BATTLEBUMPER_BLAST
  | MT_FALLINGROCK
  | MT_OTHER (n : Nat)
  deriving DecidableEq, Repr

/-- The sound ids (`sfxenum_t`) that `k_collide.c` names. -/
inductive sfxenum_t where
  | sfx_bsnipe
  | sfx_s3k43
  | sfx_s3k44
  | sfx_kdtrg1
  | sfx_kdtrg2
  | sfx_kdtrg3
  | sfx_other (n : Nat)
  deriving DecidableEq, Repr

/-- The fields of `player_t` used by `k_collide.c`.  `slot` is the index of
the player in `players[]`, which the C code obtains as `player - players`. -/
structure player_t where
  flashing : Int := 0
  flamedash : Int := 0
  itemtype : Int := 0
  invincibilitytimer : Int := 0
  curshield : Int := 0
  sneakertimer : Int := 0
  rings : Int := 0
  hyudorotimer : Int := 0
  justbumped : Int := 0
  spectator : Bool := false
  timeshit : Int := 0
  timeshitprev : Int := 0
  eggmanblame : Int := 0
  pflags : Nat := 0
  slot : Int := 0
  deriving DecidableEq, Repr

/-- The fields of `mobjinfo_t` read through `mobj->info`. -/
structure mobjinfo_t where
  deathsound : sfxenum_t := sfxenum_t.sfx_other 0
  deathstate : Nat := 0
  deriving DecidableEq, Repr

/-- The fields of `mobj_t` used by `k_collide.c`.  `fixed_t` and `INT32` fields
are integers, `angle_t` and the flag words are naturals (32 bit, unsigned),
pointers to other objects are optional heap indices, `state` is the index of
the current state in `states[]`. -/
structure mobj_t where
  x : Int := 0
  y : Int := 0
  z : Int := 0
  momx : Int := 0
  momy : Int := 0
  momz : Int := 0
  angle : Nat := 0
  old_angle : Nat := 0
  type : mobjtype_t := mobjtype_t.MT_OTHER 0
  flags : Nat := 0
  flags2 : Nat := 0
  eflags : Nat := 0
  renderflags : Nat := 0
  health : Int := 0
  threshold : Int := 0
  hitlag : Int := 0
  reactiontime : Int := 0
  scale : Int := 0
  destscale : Int := 0
  scalespeed : Int := 0
  fuse : Int := 0
  height : Int := 0
  radius : Int := 0
  color : Int := 0
  spritexscale : Int := 0
  spriteyscale : Int := 0
  target : Option Nat := none
  tracer : Option Nat := none
  hnext : Option Nat := none
  player : Option player_t := none
  state : Nat := 0
  info : mobjinfo_t := {}
  deriving DecidableEq

/-- Return values of a blockmap visitor (`BlockItReturn_t`). -/
inductive BlockItReturn_t where
  | BMIT_CONTINUE
  | BMIT_ABORT
  deriving DecidableEq, Repr

/-- One call to a collaborator outside `k_collide.c`, with its arguments. -/
inductive Effect where
  | S_StartSound (origin : Option Nat) (sfx : sfxenum_t)
  | P_SpawnMobj (x y z : Int) (type : mobjtype_t)
  | P_DamageMobj (target : Nat) (inflictor source : Option Nat) (damage : Int) (damagetype : Nat)
  | P_KillMobj (target : Nat) (inflictor source : Option Nat) (damagetype : Nat)
  | P_SetObjectMomZ (mo : Nat) (value : Int) (relative : Bool)
  | P_InstaThrust (mo : Nat) (angle : Nat) (move : Int)
  | K_PuntMine (mine punter : Nat)
  | K_SetHitLagForObjects (victim inflictor : Nat) (tics : Int) (fromDamage : Bool)
  | P_SetMobjState (mo : Nat) (state : Nat)
  | Obj_SpawnBrolyKi (source : Nat) (duration : Int)
  | K_DoPowerClash (t1 t2 : Nat)
  | K_StumblePlayer (mo : Nat)
  | P_PlayerRingBurst (mo : Nat) (num : Int)
  | P_Thrust (mo : Nat) (angle : Nat) (move : Int)
  | K_KartBouncing (mobj1 mobj2 : Nat)
  | K_AddHitLag (mo : Option Nat) (tics : Int) (fromDamage : Bool)
  | P_SpawnGhostMobj (mobj : Nat)
  | P_SetScale (mo : Nat) (newscale : Int)
  | P_SpawnMobjFromMobj (mobj : Nat) (xofs yofs zofs : Int) (type : mobjtype_t)
  | P_SetTarget_tracer (mo : Nat) (targ : Option Nat)
  | K_DropHnextList (mo : Nat) (orbit : Bool)
  | HU_SetCEchoFlags (flags : Int)
  | HU_SetCEchoDuration (duration : Int)
  | HU_DoCEcho (victim : Nat)
  | I_OutputMsg (victim : Nat)
  | K_StartEggmanRoulette (mo : Nat)
  | Obj_SpawnItemDebrisEffects (collectible collector : Nat)
  | P_SetTarget_hnext (mo : Nat) (targ : Option Nat)
  | P_RemoveMobj (mo : Nat)
  | K_KartSolidBounce (bounceMobj solidMobj : Nat)
  deriving DecidableEq, Repr

/-- The object heap. -/
abbrev Heap := Nat → mobj_t

/-- Everything `k_collide.c` takes from other translation units: constants of
the headers, pure helper functions, the blockmap, the effect `call` of each
recorded collaborator call on the object heap, and the object pointer `ret`
that a spawning call returns (given the heap before the call). -/
structure Env where
  FRACUNIT : Int
  ANGLE_90 : Nat
  ANGLE_180 : Nat
  ANGLE_45 : Nat
  ANG10 : Nat
  MAXRADIUS : Int
  MF_SOLID : Nat
  MF_SHOOTABLE : Nat
  MF_PAPERCOLLISION : Nat
  MF_BOSS : Nat
  MF_ENEMY : Nat
  MF_SCENERY : Nat
  MF_NOHITLAGFORME : Nat
  MF2_DEBRIS : Nat
  MFE_VERTICALFLIP : Nat
  MFE_DAMAGEHITLAG : Nat
  RF_FULLDARK : Nat
  PF_EGGMANOUT : Nat
  GTR_BUMPERS : Nat
  DMG_NORMAL : Nat
  DMG_WIPEOUT : Nat
  DMG_EXPLODE : Nat
  DMG_TUMBLE : Nat
  DMG_STING : Nat
  DMG_STEAL : Nat
  DMG_WOMBO : Nat
  DMG_INSTAKILL : Nat
  DMG_VOLTAGE : Nat
  DMG_CANTHURTSELF : Nat
  SKINCOLOR_GOLD : Int
  SKINCOLOR_CRIMSON : Int
  KITEM_FLAMESHIELD : Int
  KSHIELD_NONE : Int
  KSHIELD_TOP : Int
  S_SSMINE1 : Nat
  S_SSMINE4 : Nat
  S_SSMINE_DEPLOY8 : Nat
  S_SSMINE_EXPLODE2 : Nat
  MAPBLOCKSHIFT : Nat
  bmaporgx : Int
  bmaporgy : Int
  gametyperules : Nat
  K_PodiumSequence : Bool
  R_PointToAngle2 : Int → Int → Int → Int → Nat
  P_AproxDistance : Int → Int → Int
  FixedMul : Int → Int → Int
  FixedDiv : Int → Int → Int
  FixedHypot : Int → Int → Int
  InvAngle : Nat → Nat
  P_ReturnThrustX : mobj_t → Nat → Int → Int
  P_ReturnThrustY : mobj_t → Nat → Int → Int
  P_CheckSight : mobj_t → mobj_t → Bool
  P_MobjWasRemoved : mobj_t → Bool
  K_IsBigger : mobj_t → mobj_t → Bool
  K_IsRidingFloatingTop : player_t → Bool
  K_IsHoldingDownTop : player_t → Bool
  P_PlayerInPain : player_t → Bool
  P_CanPickupItem : player_t → Int → Bool
  P_MobjFlip : mobj_t → Int
  K_GetShieldFromItem : Int → Int
  BMBOUNDFIX : Int × Int × Int × Int → Int × Int × Int × Int
  blocklinks : Int → Int → List Nat
  call : Effect → Heap → Heap
  ret : Effect → Heap → Nat

/-- The state `k_collide.c` works on: the object heap, the record of the
collaborator calls made so far, and the file-scope statics of the mine code
and of the lightning shield code. -/
structure World where
  mobj : Heap
  trace : List Effect := []
  grenade : Option Nat := none
  explodedist : Int := 0
  explodespin : Bool := false
  minehitlag : Int := 0
  lightningSource : Option Nat := none
  lightningDist : Int := 0

/-- A collaborator call that may change objects: recorded, and applied to the
heap through `Env.call`. -/
def World.emit (E : Env) (e : Effect) (w : World) : World :=
  { w with mobj := E.call e w.mobj, trace := w.trace ++ [e] }

/-- A collaborator call that changes no existing object (a sound, a freshly
spawned cosmetic object): recorded only. -/
def World.log (e : Effect) (w : World) : World :=
  { w with trace := w.trace ++ [e] }

/-- Replace the object at `p`. -/
def World.set (w : World) (p : Nat) (m : mobj_t) : World :=
  { w with mobj := Function.update w.mobj p m }

/-- Arithmetic of `angle_t` (`UINT32`) wraps modulo `2^32`. -/
def angle_t (n : Nat) : Nat := n % 2 ^ 32

/-- The `x & ~mask` of C on a flag word: the bits of `mask` are cleared. -/
def clearBits (x mask : Nat) : Nat := x ^^^ (x &&& mask)

/-! ## `K_GetCollideAngle` (lines 18-40) -/

/-- `angle_t K_GetCollideAngle(mobj_t *t1, mobj_t *t2)`. -/
def K_GetCollideAngle (E : Env) (t1 t2 : mobj_t) : Nat :=
  if t1.flags &&& E.MF_PAPERCOLLISION = 0 then
    angle_t (E.R_PointToAngle2 t1.x t1.y t2.x t2.y + E.ANGLE_90)
  else
    let test0 := angle_t (angle_t (E.R_PointToAngle2 0 0 t2.momx t2.momy + E.ANGLE_90)
      + (2 ^ 32 - angle_t t1.angle))
    let test := if test0 > E.ANGLE_180 then angle_t (t1.angle + E.ANGLE_180) else angle_t t1.angle
    -- intentional way around - sine...
    let momuy0 := E.P_AproxDistance t2.momx t2.momy
    let momux := t2.momx - E.P_ReturnThrustY t2 test (2 * momuy0)
    let momuy := t2.momy - E.P_ReturnThrustX t2 test (2 * momuy0)
    angle_t (E.R_PointToAngle2 0 0 momux momuy)

/-! ## `K_BananaBallhogCollide` (lines 42-129) -/

/-- Lines 116-128 of `K_BananaBallhogCollide`: `if (damageitem) { This Item
Damage }`, then `return true`. -/
def K_BananaBallhogCollide_thisItem (E : Env) (t1 t2 : Nat) (damageitem : Bool) (w : World) :
    Bool × World :=
  if damageitem then
    let bounceangle := K_GetCollideAngle E (w.mobj t2) (w.mobj t1)
    let w := w.log (Effect.S_StartSound (some t1) (w.mobj t1).info.deathsound)
    let w := w.emit E (Effect.P_KillMobj t1 (some t2) (some t2) E.DMG_NORMAL)
    let w := w.emit E (Effect.P_SetObjectMomZ t1 (24 * E.FRACUNIT) false)
    let w := w.emit E (Effect.P_InstaThrust t1 bounceangle (16 * E.FRACUNIT))
    (true, w)
  else
    (true, w)

/-- `boolean K_BananaBallhogCollide(mobj_t *t1, mobj_t *t2)`. -/
def K_BananaBallhogCollide (E : Env) (t1 t2 : Nat) (w : World) : Bool × World :=
  if ((w.mobj t1).target = some t2
        ∨ ((w.mobj t2).flags &&& (E.MF_ENEMY ||| E.MF_BOSS) = 0
            ∧ (w.mobj t1).target = (w.mobj t2).target))
      ∧ ((w.mobj t1).threshold > 0
        ∨ ((w.mobj t2).type ≠ mobjtype_t.MT_PLAYER ∧ (w.mobj t2).threshold > 0)) then
    (true, w)
  else if (w.mobj t1).health ≤ 0 ∨ (w.mobj t2).health ≤ 0 then
    (true, w)
  else if ((w.mobj t1).type = mobjtype_t.MT_BANANA_SHIELD
        ∧ (w.mobj t2).type = mobjtype_t.MT_BANANA_SHIELD)
      ∧ (w.mobj t1).target = (w.mobj t2).target then
    -- Don't hit each other if you have the same target
    (true, w)
  else if (w.mobj t1).type = mobjtype_t.MT_BALLHOG ∧ (w.mobj t2).type = mobjtype_t.MT_BALLHOG then
    -- Ballhogs don't collide with eachother
    (true, w)
  else
    match (w.mobj t2).player with
    | some p2 =>
      if p2.flashing > 0 ∧ (w.mobj t2).hitlag = 0 then
        (true, w)
      else
        -- Banana snipe!
        let w := if (w.mobj t1).type = mobjtype_t.MT_BANANA ∧ (w.mobj t1).health > 1
          then w.log (Effect.S_StartSound (some t2) sfxenum_t.sfx_bsnipe) else w
        if p2.flamedash ≠ 0 ∧ p2.itemtype = E.KITEM_FLAMESHIELD then
          -- Melt item
          let w := w.log (Effect.S_StartSound (some t2) sfxenum_t.sfx_s3k43)
          K_BananaBallhogCollide_thisItem E t1 t2 true w
        else if E.K_IsRidingFloatingTop p2 then
          -- Float over silly banana
          K_BananaBallhogCollide_thisItem E t1 t2 false w
        else
          let w := w.emit E (Effect.P_DamageMobj t2 (some t1) (w.mobj t1).target 1
            (E.DMG_NORMAL ||| E.DMG_WOMBO))
          K_BananaBallhogCollide_thisItem E t1 t2 true w
    | none =>
      if (w.mobj t2).type = mobjtype_t.MT_BANANA ∨ (w.mobj t2).type = mobjtype_t.MT_BANANA_SHIELD
          ∨ (w.mobj t2).type = mobjtype_t.MT_ORBINAUT
          ∨ (w.mobj t2).type = mobjtype_t.MT_ORBINAUT_SHIELD
          ∨ (w.mobj t2).type = mobjtype_t.MT_JAWZ ∨ (w.mobj t2).type = mobjtype_t.MT_JAWZ_SHIELD
          ∨ (w.mobj t2).type = mobjtype_t.MT_BALLHOG ∨ (w.mobj t2).type = mobjtype_t.MT_GACHABOM then
        -- Other Item Damage
        let bounceangle := K_GetCollideAngle E (w.mobj t1) (w.mobj t2)
        let w := w.log (Effect.S_StartSound (some t2) (w.mobj t2).info.deathsound)
        let w := w.emit E (Effect.P_KillMobj t2 (some t1) (some t1) E.DMG_NORMAL)
        let w := w.emit E (Effect.P_SetObjectMomZ t2 (24 * E.FRACUNIT) false)
        let w := w.emit E (Effect.P_InstaThrust t2 bounceangle (16 * E.FRACUNIT))
        let w := w.log (Effect.P_SpawnMobj
          (Int.tdiv (w.mobj t2).x 2 + Int.tdiv (w.mobj t1).x 2)
          (Int.tdiv (w.mobj t2).y 2 + Int.tdiv (w.mobj t1).y 2)
          (Int.tdiv (w.mobj t2).z 2 + Int.tdiv (w.mobj t1).z 2) mobjtype_t.MT_ITEMCLASH)
        K_BananaBallhogCollide_thisItem E t1 t2 true w
      else if (w.mobj t2).type = mobjtype_t.MT_SSMINE_SHIELD ∨ (w.mobj t2).type = mobjtype_t.MT_SSMINE
          ∨ (w.mobj t2).type = mobjtype_t.MT_LANDMINE then
        -- Bomb death
        let w := w.emit E (Effect.P_KillMobj t2 (some t1) (some t1) E.DMG_NORMAL)
        K_BananaBallhogCollide_thisItem E t1 t2 true w
      else if (w.mobj t2).flags &&& E.MF_SHOOTABLE ≠ 0 then
        -- Shootable damage
        let w := w.emit E (Effect.P_DamageMobj t2 (some t1) (w.mobj t1).target 1 E.DMG_NORMAL)
        K_BananaBallhogCollide_thisItem E t1 t2 true w
      else
        K_BananaBallhogCollide_thisItem E t1 t2 false w

/-! ## `K_EggItemCollide` (lines 131-187) -/

/-- Lines 165-184 of `K_EggItemCollide`: the debris, the blame on the thrower
of the egg box, and the removal of the box.  The result is `none` where the C
code dereferences a `NULL` pointer after a collaborator call. -/
def K_EggItemCollide_collect (E : Env) (t1 t2 : Nat) (w : World) : Option (Bool × World) :=
  let w := w.emit E (Effect.Obj_SpawnItemDebrisEffects t1 t2)
  let blamed : Option World :=
    match (w.mobj t1).target with
    | none => some w
    | some tg =>
      match (w.mobj tg).player with
      | none => some w
      | some ptg =>
        match (w.mobj t2).player with
        | none => none
        | some p2 =>
          let w := w.set t2 { w.mobj t2 with player := some { p2 with eggmanblame := ptg.slot } }
          if (w.mobj tg).hnext = some t1 then
            let w := w.emit E (Effect.P_SetTarget_hnext tg none)
            match (w.mobj t1).target with
            | none => none
            | some tg =>
              match (w.mobj tg).player with
              | none => none
              | some ptg =>
                some (w.set tg { w.mobj tg with
                  player := some { ptg with pflags := clearBits ptg.pflags E.PF_EGGMANOUT } })
          else some w
  match blamed with
  | none => none
  | some w => some (true, w.emit E (Effect.P_RemoveMobj t1))

/-- `boolean K_EggItemCollide(mobj_t *t1, mobj_t *t2)`.  The eggbox snipe sound
is compiled out in the source (`#if 0`).  The result is `none` where the C code
dereferences a `NULL` `t2->player` after a collaborator call. -/
def K_EggItemCollide (E : Env) (t1 t2 : Nat) (w : World) : Option (Bool × World) :=
  -- Push fakes out of other item boxes
  if (w.mobj t2).type = mobjtype_t.MT_RANDOMITEM ∨ (w.mobj t2).type = mobjtype_t.MT_EGGMANITEM then
    some (true, w.emit E (Effect.P_InstaThrust t1
      (angle_t (E.R_PointToAngle2 (w.mobj t2).x (w.mobj t2).y (w.mobj t1).x (w.mobj t1).y))
      (Int.tdiv (w.mobj t2).radius 4)))
  else
    match (w.mobj t2).player with
    | none => some (true, w)
    | some p2 =>
      if ((w.mobj t1).target = some t2 ∨ (w.mobj t1).target = (w.mobj t2).target)
          ∧ (w.mobj t1).threshold > 0 then
        some (true, w)
      else if (w.mobj t1).health ≤ 0 ∨ (w.mobj t2).health ≤ 0 then
        some (true, w)
      else if E.P_CanPickupItem p2 2 = false then
        some (true, w)
      else
        let w := w.emit E (Effect.K_StartEggmanRoulette t2)
        match (w.mobj t2).player with
        | none => none
        | some p2 =>
          if p2.flamedash ≠ 0 ∧ p2.itemtype = E.KITEM_FLAMESHIELD then
            -- Melt item
            let w := w.log (Effect.S_StartSound (some t2) sfxenum_t.sfx_s3k43)
            some (true, w.emit E (Effect.P_KillMobj t1 (some t2) (some t2) E.DMG_NORMAL))
          else
            K_EggItemCollide_collect E t1 t2 w

/-! ## The mine searches (lines 189-327) -/

/-- `static inline boolean PIT_SSMineChecks(mobj_t *thing)`.  The file-scope
static `grenade` is dereferenced here; both callers have checked that it is
not `NULL` and pass its value as `g`. -/
def PIT_SSMineChecks (E : Env) (g thing : Nat) (w : World) : Bool :=
  if thing = g then
    -- Don't explode yourself! Endless loop!
    true
  else if (w.mobj thing).health ≤ 0 then
    true
  else if (w.mobj thing).flags &&& E.MF_SHOOTABLE = 0 ∨ (w.mobj thing).flags &&& E.MF_SCENERY ≠ 0 then
    true
  else if (match (w.mobj thing).player with
      | some p => p.spectator
      | none => false) = true then
    true
  else if E.P_AproxDistance
      (E.P_AproxDistance ((w.mobj thing).x - (w.mobj g).x) ((w.mobj thing).y - (w.mobj g).y))
      ((w.mobj thing).z - (w.mobj g).z) > w.explodedist then
    -- Too far away
    true
  else if E.P_CheckSight (w.mobj g) (w.mobj thing) = false then
    -- Not in sight
    true
  else
    false

/-- `static inline BlockItReturn_t PIT_SSMineSearch(mobj_t *thing)`. -/
def PIT_SSMineSearch (E : Env) (thing : Nat) (w : World) : BlockItReturn_t × World :=
  match w.grenade with
  | none => (BlockItReturn_t.BMIT_ABORT, w)
  | some g =>
    if E.P_MobjWasRemoved (w.mobj g) = true then
      (BlockItReturn_t.BMIT_ABORT, w)
    else if (w.mobj g).flags2 &&& E.MF2_DEBRIS ≠ 0 then
      -- don't explode twice
      (BlockItReturn_t.BMIT_ABORT, w)
    else if (w.mobj thing).type ≠ mobjtype_t.MT_PLAYER then
      -- Don't explode for anything but an actual player.
      (BlockItReturn_t.BMIT_CONTINUE, w)
    else if some thing = (w.mobj g).target ∧ (w.mobj g).threshold ≠ 0 then
      -- Don't blow up at your owner instantly.
      (BlockItReturn_t.BMIT_CONTINUE, w)
    else if PIT_SSMineChecks E g thing w = true then
      (BlockItReturn_t.BMIT_CONTINUE, w)
    else
      -- Explode!
      (BlockItReturn_t.BMIT_ABORT, w.emit E (Effect.P_SetMobjState g (w.mobj g).info.deathstate))

/-- `static inline BlockItReturn_t PIT_SSMineExplode(mobj_t *thing)`.  The
test of `MF2_DEBRIS` is compiled out in the source (`#if 0`). -/
def PIT_SSMineExplode (E : Env) (thing : Nat) (w : World) : BlockItReturn_t × World :=
  let oldhitlag := (w.mobj thing).hitlag
  match w.grenade with
  | none => (BlockItReturn_t.BMIT_ABORT, w)
  | some g =>
    if E.P_MobjWasRemoved (w.mobj g) = true then
      (BlockItReturn_t.BMIT_ABORT, w)
    else if PIT_SSMineChecks E g thing w = true then
      (BlockItReturn_t.BMIT_CONTINUE, w)
    else
      let w := w.emit E (Effect.P_DamageMobj thing (some g) (w.mobj g).target 1
        (if w.explodespin then E.DMG_NORMAL else E.DMG_EXPLODE))
      let lagadded := (w.mobj thing).hitlag - oldhitlag
      if lagadded > 0 then
        (BlockItReturn_t.BMIT_CONTINUE, { w with minehitlag := lagadded })
      else
        (BlockItReturn_t.BMIT_CONTINUE, w)

/-- Modelled from the spec: the blockmap walk `P_BlockThingsIterator` of
`p_maputl.c`, which is not part of the sources at hand.  It calls the visitor
on the objects linked in one block, in the order of the block list, and stops
at the first visitor that answers abort (result `false`); otherwise the
result is `true`. -/
def P_BlockThingsIterator (func : Nat → World → BlockItReturn_t × World) :
    List Nat → World → Bool × World
  | [], w => (true, w)
  | thing :: rest, w =>
    match func thing w with
    | (BlockItReturn_t.BMIT_ABORT, w) => (false, w)
    | (BlockItReturn_t.BMIT_CONTINUE, w) => P_BlockThingsIterator func rest w

/-- Conversion of an unsigned 32 bit value to `INT32`. -/
def INT32_of (n : Nat) : Int :=
  if n % 2 ^ 32 < 2 ^ 31 then ((n % 2 ^ 32 : Nat) : Int) else ((n % 2 ^ 32 : Nat) : Int) - 2 ^ 32

/-- The value an `INT32` (`fixed_t`) holds after the arithmetic result `v`:
`v` modulo `2^32`, read as a signed 32 bit number. -/
def wrapINT32 (v : Int) : Int := INT32_of (v % 2 ^ 32).toNat

/-- The block coordinate `(unsigned)(v)>>MAPBLOCKSHIFT`, stored in an `INT32`. -/
def blockCoord (E : Env) (v : Int) : Int :=
  INT32_of ((v % 2 ^ 32).toNat >>> E.MAPBLOCKSHIFT)

/-- The values of `for (i = lo; i <= hi; i++)`. -/
def forRange (lo hi : Int) : List Int :=
  (List.range (hi + 1 - lo).toNat).map (fun i => lo + (i : Int))

/-- The double loop `for (by = yl; by <= yh; by++) for (bx = xl; bx <= xh;
bx++) P_BlockThingsIterator(bx, by, func);` over the blocks of the map. -/
def blockLoop (E : Env) (func : Nat → World → BlockItReturn_t × World)
    (xl xh yl yh : Int) (w : World) : World :=
  (forRange yl yh).foldl
    (fun w by_ => (forRange xl xh).foldl
      (fun w bx => (P_BlockThingsIterator func (E.blocklinks bx by_) w).2) w) w

/-- `tic_t K_MineExplodeAttack(mobj_t *actor, fixed_t size, boolean spin)`. -/
def K_MineExplodeAttack (E : Env) (actor : Nat) (size : Int) (spin : Bool) (w : World) :
    Nat × World :=
  let w := { w with explodespin := spin }
  let w := { w with explodedist := E.FixedMul size (w.mobj actor).scale }
  let w := { w with grenade := some actor }
  let w := { w with minehitlag := 0 }
  -- Use blockmap to check for nearby shootables
  let yh := blockCoord E ((w.mobj actor).y + w.explodedist - E.bmaporgy)
  let yl := blockCoord E ((w.mobj actor).y - w.explodedist - E.bmaporgy)
  let xh := blockCoord E ((w.mobj actor).x + w.explodedist - E.bmaporgx)
  let xl := blockCoord E ((w.mobj actor).x - w.explodedist - E.bmaporgx)
  match E.BMBOUNDFIX (xl, xh, yl, yh) with
  | (xl, xh, yl, yh) =>
    let w := blockLoop E (PIT_SSMineExplode E) xl xh yl yh w
    -- Set this flag to ensure that the inital action won't be triggered twice.
    let w := w.set actor { w.mobj actor with flags2 := (w.mobj actor).flags2 ||| E.MF2_DEBRIS }
    -- Set this flag to ensure the hitbox timer doesn't get extended with every player hit
    let w := w.set actor { w.mobj actor with flags := (w.mobj actor).flags ||| E.MF_NOHITLAGFORME }
    let w := w.set actor { w.mobj actor with hitlag := 0 }
    if spin = false then
      let w := if w.minehitlag = 0 then { w with minehitlag := (w.mobj actor).hitlag } else w
      let w := w.emit E (Effect.Obj_SpawnBrolyKi actor w.minehitlag)
      ((w.minehitlag % 2 ^ 32).toNat, w)
    else
      (0, w)

/-- `void K_DoMineSearch(mobj_t *actor, fixed_t size)` (lines 239-256). -/
def K_DoMineSearch (E : Env) (actor : Nat) (size : Int) (w : World) : World :=
  let w := { w with explodedist := E.FixedMul size (w.mobj actor).scale }
  let w := { w with grenade := some actor }
  let yh := blockCoord E ((w.mobj actor).y + (w.explodedist + E.MAXRADIUS) - E.bmaporgy)
  let yl := blockCoord E ((w.mobj actor).y - (w.explodedist + E.MAXRADIUS) - E.bmaporgy)
  let xh := blockCoord E ((w.mobj actor).x + (w.explodedist + E.MAXRADIUS) - E.bmaporgx)
  let xl := blockCoord E ((w.mobj actor).x - (w.explodedist + E.MAXRADIUS) - E.bmaporgx)
  match E.BMBOUNDFIX (xl, xh, yl, yh) with
  | (xl, xh, yl, yh) => blockLoop E (PIT_SSMineSearch E) xl xh yl yh w

/-! ## `K_MineCollide` (lines 329-378) -/

/-- `boolean K_MineCollide(mobj_t *t1, mobj_t *t2)`. -/
def K_MineCollide (E : Env) (t1 t2 : Nat) (w : World) : Bool × World :=
  if ((w.mobj t1).target = some t2
        ∨ ((w.mobj t2).flags &&& (E.MF_ENEMY ||| E.MF_BOSS) = 0
            ∧ (w.mobj t1).target = (w.mobj t2).target))
      ∧ ((w.mobj t1).threshold > 0
        ∨ ((w.mobj t2).type ≠ mobjtype_t.MT_PLAYER ∧ (w.mobj t2).threshold > 0)) then
    (true, w)
  else if (w.mobj t1).health ≤ 0 ∨ (w.mobj t2).health ≤ 0 then
    (true, w)
  else
    match (w.mobj t2).player with
    | some p2 =>
      if p2.flashing > 0 ∧ (w.mobj t2).hitlag = 0 then
        (true, w)
      -- Bomb punting
      else if (E.S_SSMINE1 ≤ (w.mobj t1).state ∧ (w.mobj t1).state ≤ E.S_SSMINE4)
          ∨ (E.S_SSMINE_DEPLOY8 ≤ (w.mobj t1).state ∧ (w.mobj t1).state ≤ E.S_SSMINE_EXPLODE2) then
        (true, w.emit E (Effect.P_KillMobj t1 (some t2) (some t2) E.DMG_NORMAL))
      else
        (true, w.emit E (Effect.K_PuntMine t1 t2))
    | none =>
      if (w.mobj t2).type = mobjtype_t.MT_ORBINAUT ∨ (w.mobj t2).type = mobjtype_t.MT_JAWZ
          ∨ (w.mobj t2).type = mobjtype_t.MT_ORBINAUT_SHIELD
          ∨ (w.mobj t2).type = mobjtype_t.MT_JAWZ_SHIELD
          ∨ (w.mobj t2).type = mobjtype_t.MT_GACHABOM then
        -- Bomb death
        let bounceangle := K_GetCollideAngle E (w.mobj t1) (w.mobj t2)
        let w := w.emit E (Effect.P_KillMobj t1 (some t2) (some t2) E.DMG_NORMAL)
        -- Other Item Damage
        let w := w.log (Effect.S_StartSound (some t2) (w.mobj t2).info.deathsound)
        let w := w.emit E (Effect.P_KillMobj t2 (some t1) (some t1) E.DMG_NORMAL)
        let w := w.emit E (Effect.P_SetObjectMomZ t2 (24 * E.FRACUNIT) false)
        let w := w.emit E (Effect.P_InstaThrust t2 bounceangle (16 * E.FRACUNIT))
        (true, w)
      else if (w.mobj t2).flags &&& E.MF_SHOOTABLE ≠ 0 then
        -- Bomb death
        let w := w.emit E (Effect.P_KillMobj t1 (some t2) (some t2) E.DMG_NORMAL)
        -- Shootable damage
        let w := w.emit E (Effect.P_DamageMobj t2 (some t1) (w.mobj t1).target 1 E.DMG_NORMAL)
        (true, w)
      else
        (true, w)

/-! ## `K_LandMineCollide` (lines 380-454) -/

/-- `boolean K_LandMineCollide(mobj_t *t1, mobj_t *t2)`. -/
def K_LandMineCollide (E : Env) (t1 t2 : Nat) (w : World) : Bool × World :=
  if ((w.mobj t1).target = some t2
        ∨ ((w.mobj t2).flags &&& (E.MF_ENEMY ||| E.MF_BOSS) = 0
            ∧ (w.mobj t1).target = (w.mobj t2).target))
      ∧ ((w.mobj t1).threshold > 0
        ∨ ((w.mobj t2).type ≠ mobjtype_t.MT_PLAYER ∧ (w.mobj t2).threshold > 0)) then
    (true, w)
  else if (w.mobj t1).health ≤ 0 ∨ (w.mobj t2).health ≤ 0 then
    (true, w)
  else
    match (w.mobj t2).player with
    | some p2 =>
      let oldhitlag := (w.mobj t2).hitlag
      if p2.flashing ≠ 0 then
        (true, w)
      else
        -- Banana snipe!
        let w := if (w.mobj t1).health > 1
          then w.log (Effect.S_StartSound (some t2) sfxenum_t.sfx_bsnipe) else w
        let w :=
          if p2.flamedash ≠ 0 ∧ p2.itemtype = E.KITEM_FLAMESHIELD then
            -- Melt item
            let w := w.log (Effect.S_StartSound (some t2) sfxenum_t.sfx_s3k43)
            w.emit E (Effect.K_SetHitLagForObjects t2 t1 3 false)
          else
            -- Player Damage
            w.emit E (Effect.P_DamageMobj t2 (some t1) (w.mobj t1).target 1 E.DMG_TUMBLE)
        let w := w.set t1 { w.mobj t1 with reactiontime := (w.mobj t2).hitlag - oldhitlag }
        (true, w.emit E (Effect.P_KillMobj t1 (some t2) (some t2) E.DMG_NORMAL))
    | none =>
      if (w.mobj t2).type = mobjtype_t.MT_BANANA ∨ (w.mobj t2).type = mobjtype_t.MT_BANANA_SHIELD
          ∨ (w.mobj t2).type = mobjtype_t.MT_ORBINAUT
          ∨ (w.mobj t2).type = mobjtype_t.MT_ORBINAUT_SHIELD
          ∨ (w.mobj t2).type = mobjtype_t.MT_JAWZ ∨ (w.mobj t2).type = mobjtype_t.MT_JAWZ_SHIELD
          ∨ (w.mobj t2).type = mobjtype_t.MT_BALLHOG ∨ (w.mobj t2).type = mobjtype_t.MT_GACHABOM then
        -- Other Item Damage
        let bounceangle := K_GetCollideAngle E (w.mobj t1) (w.mobj t2)
        let w :=
          if (w.mobj t2).eflags &&& E.MFE_VERTICALFLIP ≠ 0 then
            w.set t2 { w.mobj t2 with z := (w.mobj t2).z - (w.mobj t2).height }
          else
            w.set t2 { w.mobj t2 with z := (w.mobj t2).z + (w.mobj t2).height }
        let w := w.log (Effect.S_StartSound (some t2) (w.mobj t2).info.deathsound)
        let w := w.emit E (Effect.P_KillMobj t2 (some t1) (some t1) E.DMG_NORMAL)
        let w := w.emit E (Effect.P_SetObjectMomZ t2 (24 * E.FRACUNIT) false)
        let w := w.emit E (Effect.P_InstaThrust t2 bounceangle (16 * E.FRACUNIT))
        let w := w.log (Effect.P_SpawnMobj
          (Int.tdiv (w.mobj t2).x 2 + Int.tdiv (w.mobj t1).x 2)
          (Int.tdiv (w.mobj t2).y 2 + Int.tdiv (w.mobj t1).y 2)
          (Int.tdiv (w.mobj t2).z 2 + Int.tdiv (w.mobj t1).z 2) mobjtype_t.MT_ITEMCLASH)
        let w := w.set t1 { w.mobj t1 with reactiontime := (w.mobj t2).hitlag }
        (true, w.emit E (Effect.P_KillMobj t1 (some t2) (some t2) E.DMG_NORMAL))
      else if (w.mobj t2).type = mobjtype_t.MT_SSMINE_SHIELD ∨ (w.mobj t2).type = mobjtype_t.MT_SSMINE
          ∨ (w.mobj t2).type = mobjtype_t.MT_LANDMINE then
        let w := w.emit E (Effect.P_KillMobj t1 (some t2) (some t2) E.DMG_NORMAL)
        -- Bomb death
        (true, w.emit E (Effect.P_KillMobj t2 (some t1) (some t1) E.DMG_NORMAL))
      else if (w.mobj t2).flags &&& E.MF_SHOOTABLE ≠ 0 then
        -- Shootable damage
        let w := w.emit E (Effect.P_DamageMobj t2 (some t1) (w.mobj t1).target 1 E.DMG_NORMAL)
        let w := w.set t1 { w.mobj t1 with reactiontime := (w.mobj t2).hitlag }
        (true, w.emit E (Effect.P_KillMobj t1 (some t2) (some t2) E.DMG_NORMAL))
      else
        (true, w)

/-! ## `K_DropTargetCollide` (lines 456-584) -/

/-- Lines 523-545 of `K_DropTargetCollide`, one round of the loop
`for (i = 0; i < 2; i++)`: a blast is spawned from `t1`, scaled and turned. -/
def K_DropTargetCollide_blast (E : Env) (t1 : Nat) (i : Nat) (w : World) : World :=
  let spawn := Effect.P_SpawnMobjFromMobj t1 0 0 (E.FixedDiv (w.mobj t1).height (w.mobj t1).scale)
    mobjtype_t.MT_BATTLEBUMPER_BLAST
  let blast := E.ret spawn w.mobj
  let w := w.emit E spawn
  let w := w.emit E (Effect.P_SetScale blast (Int.tdiv (5 * (w.mobj blast).scale) 2))
  let w := w.set blast { w.mobj blast with
    angle := angle_t (E.R_PointToAngle2 0 0 (w.mobj t1).momx (w.mobj t1).momy + E.ANGLE_45) }
  let w :=
    if i &&& 1 ≠ 0 then
      w.set blast { w.mobj blast with angle := angle_t ((w.mobj blast).angle + E.ANGLE_90) }
    else w
  w.set blast { w.mobj blast with destscale := (w.mobj blast).destscale * 10 }

/-- Lines 469-479 of `K_DropTargetCollide`: the thrust away from `t2` and
part 1 of the pass-through.  The result is `none` where the C code
dereferences a `NULL` `t1->target`. -/
def K_DropTargetCollide_thrust (E : Env) (t1 t2 : Nat) (draggeddroptarget : Option Nat)
    (w : World) : Option World :=
  -- Intensify bumps if already spinning...
  let w := w.emit E (Effect.P_Thrust t1
    (angle_t (E.R_PointToAngle2 (w.mobj t1).x (w.mobj t1).y (w.mobj t2).x (w.mobj t2).y))
    ((if (w.mobj t1).reactiontime ≠ 0 ∧ draggeddroptarget = none then 140 else 80)
      * (w.mobj t1).scale))
  match draggeddroptarget with
  | none => some w
  | some _ =>
    -- "Pass through" the shock of the impact, part 1.
    match (w.mobj t1).target with
    | none => none
    | some tg =>
      let w := w.set t1 { w.mobj t1 with momx := (w.mobj tg).momx }
      let w := w.set t1 { w.mobj t1 with momy := (w.mobj tg).momy }
      let w := w.set t1 { w.mobj t1 with momz := (w.mobj tg).momz }
      some w

/-- Lines 481-501 of `K_DropTargetCollide`: the bounce, the deflection of
`t2`, the new angle, reaction time and threshold of `t1`.  The result is
`none` where the C code divides by zero (`4 * t1->scale == 0`). -/
def K_DropTargetCollide_bounce (E : Env) (t1 t2 : Nat) (w : World) : Option World :=
  let t2angle := angle_t (E.R_PointToAngle2 (w.mobj t2).momx (w.mobj t2).momy 0 0)
  let w := w.emit E (Effect.K_KartBouncing t1 t2)
  let t1speed := E.FixedHypot (w.mobj t1).momx (w.mobj t1).momy
  let t2speed := E.FixedHypot (w.mobj t2).momx (w.mobj t2).momy
  let t2deflect := angle_t (t2angle
    + (2 ^ 32 - angle_t (E.R_PointToAngle2 0 0 (w.mobj t2).momx (w.mobj t2).momy)))
  let t2deflect := if t2deflect > E.ANGLE_180 then angle_t (E.InvAngle t2deflect) else t2deflect
  let w := if t2deflect < E.ANG10 then w.emit E (Effect.P_InstaThrust t2 t2angle t2speed) else w
  let newangle := angle_t (E.R_PointToAngle2 0 0 (w.mobj t1).momx (w.mobj t1).momy)
  let w := w.set t1 { w.mobj t1 with old_angle := newangle }
  let w := w.set t1 { w.mobj t1 with angle := newangle }
  if 4 * (w.mobj t1).scale = 0 then none
  else
    let w := w.set t1 { w.mobj t1 with
      reactiontime := Int.tdiv (7 * (t1speed + t2speed)) (4 * (w.mobj t1).scale) }
    let w := if (w.mobj t1).reactiontime < 10
      then w.set t1 { w.mobj t1 with reactiontime := 10 } else w
    some (w.set t1 { w.mobj t1 with threshold := 10 })

/-- Lines 503-521 of `K_DropTargetCollide`: the render flag, part 2 of the
pass-through, and the hit-lag of the participants. -/
def K_DropTargetCollide_hitlag (E : Env) (t1 t2 : Nat) (draggeddroptarget : Option Nat)
    (w : World) : World :=
  -- brightest on the bump
  let w := w.set t1 { w.mobj t1 with renderflags := clearBits (w.mobj t1).renderflags E.RF_FULLDARK }
  let w :=
    match draggeddroptarget with
    | none => w
    | some d =>
      -- "Pass through" the shock of the impact, part 2.
      let w := w.set d { w.mobj d with momx := (w.mobj t1).momx }
      let w := w.set d { w.mobj d with momy := (w.mobj t1).momy }
      let w := w.set d { w.mobj d with momz := (w.mobj t1).momz }
      -- Have the drop target travel between them.
      let w := w.set t1 { w.mobj t1 with
        momx := Int.tdiv ((w.mobj t1).momx + (w.mobj t2).momx) 2 }
      let w := w.set t1 { w.mobj t1 with
        momy := Int.tdiv ((w.mobj t1).momy + (w.mobj t2).momy) 2 }
      let w := w.set t1 { w.mobj t1 with
        momz := Int.tdiv ((w.mobj t1).momz + (w.mobj t2).momz) 2 }
      w.emit E (Effect.K_AddHitLag (w.mobj t1).target 6 false)
  let w := w.emit E (Effect.K_AddHitLag (some t1) 6 true)
  w.emit E (Effect.K_AddHitLag (some t2) 6 false)

/-- Lines 523-531 of `K_DropTargetCollide`: the ghost of `t1`. -/
def K_DropTargetCollide_ghost (E : Env) (t1 : Nat) (w : World) : World :=
  let ghost := E.ret (Effect.P_SpawnGhostMobj t1) w.mobj
  let w := w.emit E (Effect.P_SpawnGhostMobj t1)
  let w := w.emit E (Effect.P_SetScale ghost (Int.tdiv (3 * (w.mobj ghost).destscale) 2))
  let w := w.set ghost { w.mobj ghost with
    destscale := Int.tdiv (15 * (w.mobj ghost).destscale) 2 }
  let w := w.set ghost { w.mobj ghost with fuse := 10 }
  w.set ghost { w.mobj ghost with
    scalespeed := Int.tdiv ((w.mobj ghost).destscale - (w.mobj ghost).scale) (w.mobj ghost).fuse }

/-- Lines 547-556 of `K_DropTargetCollide`: the damage to the drop target
itself, its colour and its sprite scale. -/
def K_DropTargetCollide_damage (E : Env) (t1 t2 : Nat) (w : World) : World :=
  let w := w.set t1 { w.mobj t1 with flags := (w.mobj t1).flags ||| E.MF_SHOOTABLE }
  -- The following sets t1->target to t2, so draggeddroptarget keeps it persisting...
  let w := w.emit E (Effect.P_DamageMobj t1 (some t2)
    (match (w.mobj t2).target with
      | some tg => some tg
      | none => some t2) 1 E.DMG_NORMAL)
  let w := w.set t1 { w.mobj t1 with
    color := if (w.mobj t1).health > 1 then E.SKINCOLOR_GOLD else E.SKINCOLOR_CRIMSON }
  let w := w.set t1 { w.mobj t1 with flags := clearBits (w.mobj t1).flags E.MF_SHOOTABLE }
  let w := w.set t1 { w.mobj t1 with spritexscale := 3 * E.FRACUNIT }
  w.set t1 { w.mobj t1 with spriteyscale := Int.tdiv (3 * E.FRACUNIT) 2 }

/-- Lines 558-581 of `K_DropTargetCollide`: the turn of a non-player `t2`,
the sound, and the drop of the dragged list. -/
def K_DropTargetCollide_finish (E : Env) (t1 t2 : Nat) (draggeddroptarget : Option Nat)
    (w : World) : World :=
  let w : World :=
    match (w.mobj t2).player with
    | some _ => w
    | none =>
      let w := w.set t2 { w.mobj t2 with angle := angle_t ((w.mobj t2).angle + E.ANGLE_180) }
      let w := if (w.mobj t2).type = mobjtype_t.MT_JAWZ
        -- Back to the source!
        then w.emit E (Effect.P_SetTarget_tracer t2 (w.mobj t2).target) else w
      w.set t2 { w.mobj t2 with threshold := 10 }
  let w : World :=
    if (w.mobj t1).reactiontime > 1000 then
      w.log (Effect.S_StartSound (some t2) sfxenum_t.sfx_kdtrg3)
    else if (w.mobj t1).reactiontime > 500 then
      w.log (Effect.S_StartSound (some t2) sfxenum_t.sfx_kdtrg2)
    else
      w.log (Effect.S_StartSound (some t2) sfxenum_t.sfx_kdtrg1)
  match draggeddroptarget with
  | none => w
  | some d =>
    match (w.mobj d).player with
    | none => w
    -- The following removes t1, be warned
    | some _ => w.emit E (Effect.K_DropHnextList d true)

/-- Lines 469-583 of `K_DropTargetCollide`: the bump itself, after the three
guards. -/
def K_DropTargetCollide_bump (E : Env) (t1 t2 : Nat) (draggeddroptarget : Option Nat)
    (w : World) : Option (Bool × World) :=
  match K_DropTargetCollide_thrust E t1 t2 draggeddroptarget w with
  | none => none
  | some w =>
    match K_DropTargetCollide_bounce E t1 t2 w with
    | none => none
    | some w =>
      let w := K_DropTargetCollide_hitlag E t1 t2 draggeddroptarget w
      let w := K_DropTargetCollide_ghost E t1 w
      let w := K_DropTargetCollide_blast E t1 0 w
      let w := K_DropTargetCollide_blast E t1 1 w
      let w := K_DropTargetCollide_damage E t1 t2 w
      some (true, K_DropTargetCollide_finish E t1 t2 draggeddroptarget w)

/-- `boolean K_DropTargetCollide(mobj_t *t1, mobj_t *t2)`. -/
def K_DropTargetCollide (E : Env) (t1 t2 : Nat) (w : World) : Option (Bool × World) :=
  let draggeddroptarget : Option Nat :=
    if (w.mobj t1).type = mobjtype_t.MT_DROPTARGET_SHIELD then (w.mobj t1).target else none
  if ((w.mobj t1).target = some t2 ∨ (w.mobj t1).target = (w.mobj t2).target)
      ∧ (((w.mobj t1).threshold > 0 ∧ (w.mobj t2).type = mobjtype_t.MT_PLAYER)
        ∨ ((w.mobj t2).type ≠ mobjtype_t.MT_PLAYER ∧ (w.mobj t2).threshold > 0)) then
    some (true, w)
  else if (w.mobj t1).health ≤ 0 ∨ (w.mobj t2).health ≤ 0 then
    some (true, w)
  else if (match (w.mobj t2).player with
      | some p => decide (p.hyudorotimer ≠ 0 ∨ p.justbumped ≠ 0)
      | none => false) = true then
    some (true, w)
  else
    K_DropTargetCollide_bump E t1 t2 draggeddroptarget w

/-! ## The lightning shield (lines 586-666) -/

/-- `static inline BlockItReturn_t PIT_LightningShieldAttack(mobj_t *thing)`.
A candidate handed over by the blockmap walk is never `NULL`. -/
def PIT_LightningShieldAttack (E : Env) (thing : Nat) (w : World) : BlockItReturn_t × World :=
  match w.lightningSource with
  | none => (BlockItReturn_t.BMIT_ABORT, w)
  | some src =>
    if E.P_MobjWasRemoved (w.mobj src) = true then
      -- Invalid?
      (BlockItReturn_t.BMIT_ABORT, w)
    else if E.P_MobjWasRemoved (w.mobj thing) = true then
      -- Invalid?
      (BlockItReturn_t.BMIT_ABORT, w)
    else if thing = src then
      -- Don't explode yourself!!
      (BlockItReturn_t.BMIT_CONTINUE, w)
    else if (w.mobj thing).health ≤ 0 then
      -- Dead
      (BlockItReturn_t.BMIT_CONTINUE, w)
    else if (w.mobj thing).type ≠ mobjtype_t.MT_SPB
        ∧ ((w.mobj thing).flags &&& E.MF_SHOOTABLE = 0 ∨ (w.mobj thing).flags &&& E.MF_SCENERY ≠ 0) then
      -- Not shootable
      (BlockItReturn_t.BMIT_CONTINUE, w)
    else if (match (w.mobj thing).player with
        | some p => p.spectator
        | none => false) = true then
      -- Spectator
      (BlockItReturn_t.BMIT_CONTINUE, w)
    else if E.P_AproxDistance ((w.mobj thing).x - (w.mobj src).x) ((w.mobj thing).y - (w.mobj src).y)
        > w.lightningDist + (w.mobj thing).radius then
      -- Too far away
      (BlockItReturn_t.BMIT_CONTINUE, w)
    else
      (BlockItReturn_t.BMIT_CONTINUE,
        w.emit E (Effect.P_DamageMobj thing (some src) (some src) 1
          (E.DMG_VOLTAGE ||| E.DMG_CANTHURTSELF ||| E.DMG_WOMBO)))

/-- `void K_LightningShieldAttack(mobj_t *actor, fixed_t size)`. -/
def K_LightningShieldAttack (E : Env) (actor : Nat) (size : Int) (w : World) : World :=
  let w := { w with lightningDist := E.FixedMul size (w.mobj actor).scale }
  let w := { w with lightningSource := some actor }
  -- Use blockmap to check for nearby shootables
  let yh := blockCoord E ((w.mobj actor).y + w.lightningDist - E.bmaporgy)
  let yl := blockCoord E ((w.mobj actor).y - w.lightningDist - E.bmaporgy)
  let xh := blockCoord E ((w.mobj actor).x + w.lightningDist - E.bmaporgx)
  let xl := blockCoord E ((w.mobj actor).x - w.lightningDist - E.bmaporgx)
  match E.BMBOUNDFIX (xl, xh, yl, yh) with
  | (xl, xh, yl, yh) => blockLoop E (PIT_LightningShieldAttack E) xl xh yl yh w

/-! ## `K_BubbleShieldCollide` (lines 668-732) -/

/-- `boolean K_BubbleShieldCollide(mobj_t *t1, mobj_t *t2)`.  The result is
`none` where the C code dereferences a `NULL` `t2->player`.  The momentum of
`t2` is computed in `fixed_t` (`INT32`) arithmetic: every product and sum
wraps modulo `2^32` (`wrapINT32`). -/
def K_BubbleShieldCollide (E : Env) (t1 t2 : Nat) (w : World) : Option (Bool × World) :=
  if (w.mobj t1).type = mobjtype_t.MT_PLAYER then
    -- Bubble Shield already has a hitbox
    some (true, w)
  else if (w.mobj t2).type = mobjtype_t.MT_PLAYER then
    match (w.mobj t2).player with
    | none => none
    | some p2 =>
      if E.P_PlayerInPain p2 = true ∨ p2.flashing ≠ 0 ∨ p2.hyudorotimer ≠ 0 ∨ p2.justbumped ≠ 0
          ∨ E.K_IsBigger (w.mobj t2) (w.mobj t1) = true then
        some (true, w)
      else
        -- Player Damage
        let w := w.emit E (Effect.P_DamageMobj t2 (w.mobj t1).target (some t1) 1
          (E.DMG_NORMAL ||| E.DMG_WOMBO))
        match (w.mobj t2).player with
        | none => none
        | some p2 =>
          if p2.timeshit > p2.timeshitprev then
            -- Don't play from t1 else it gets cut out... for some reason.
            some (true, w.log (Effect.S_StartSound (some t2) sfxenum_t.sfx_s3k44))
          else
            some (true, w)
  else if (w.mobj t2).threshold = 0 ∨ (w.mobj t2).type = mobjtype_t.MT_DROPTARGET then
    let w :=
      if (w.mobj t2).momx = 0 ∧ (w.mobj t2).momy = 0 then
        w.set t2 { w.mobj t2 with
          momz := wrapINT32 ((w.mobj t2).momz
            + wrapINT32 (wrapINT32 (24 * (w.mobj t2).scale) * E.P_MobjFlip (w.mobj t2))) }
      else
        let w := w.set t2 { w.mobj t2 with momx := wrapINT32 (-4 * (w.mobj t2).momx) }
        let w := w.set t2 { w.mobj t2 with momy := wrapINT32 (-4 * (w.mobj t2).momy) }
        let w := w.set t2 { w.mobj t2 with momz := wrapINT32 (-4 * (w.mobj t2).momz) }
        w.set t2 { w.mobj t2 with angle := angle_t ((w.mobj t2).angle + E.ANGLE_180) }
    let w := if (w.mobj t2).type = mobjtype_t.MT_JAWZ
      -- Back to the source!
      then w.emit E (Effect.P_SetTarget_tracer t2 (w.mobj t2).target) else w
    let w := w.set t2 { w.mobj t2 with threshold := 10 }
    some (true, w.log (Effect.S_StartSound (some t1) sfxenum_t.sfx_s3k44))
  else
    -- no interaction
    some (true, w)

/-! ## `K_KitchenSinkCollide` (lines 734-763) -/

/-- `boolean K_KitchenSinkCollide(mobj_t *t1, mobj_t *t2)`.  The two messages
name the player of `t2`; they are recorded with `t2`. -/
def K_KitchenSinkCollide (E : Env) (t1 t2 : Nat) (w : World) : Bool × World :=
  if ((w.mobj t1).target = some t2
        ∨ ((w.mobj t2).flags &&& (E.MF_ENEMY ||| E.MF_BOSS) = 0
            ∧ (w.mobj t1).target = (w.mobj t2).target))
      ∧ ((w.mobj t1).threshold > 0
        ∨ ((w.mobj t2).type ≠ mobjtype_t.MT_PLAYER ∧ (w.mobj t2).threshold > 0)) then
    (true, w)
  else
    match (w.mobj t2).player with
    | some p2 =>
      if p2.flashing > 0 ∧ (w.mobj t2).hitlag = 0 then
        (true, w)
      else
        -- let all players hear it.
        let w := w.log (Effect.S_StartSound none sfxenum_t.sfx_bsnipe)
        let w := w.log (Effect.HU_SetCEchoFlags 0)
        let w := w.log (Effect.HU_SetCEchoDuration 5)
        let w := w.log (Effect.HU_DoCEcho t2)
        let w := w.log (Effect.I_OutputMsg t2)
        let w := w.emit E (Effect.P_DamageMobj t2 (some t1) (w.mobj t1).target 1 E.DMG_INSTAKILL)
        (true, w.emit E (Effect.P_KillMobj t1 (some t2) (some t2) E.DMG_NORMAL))
    | none =>
      if (w.mobj t2).flags &&& E.MF_SHOOTABLE ≠ 0 then
        -- Shootable damage
        let w := w.emit E (Effect.P_KillMobj t2 (some t2) (w.mobj t1).target E.DMG_NORMAL)
        -- This item damage
        (true, w.emit E (Effect.P_KillMobj t1 (some t2) (some t2) E.DMG_NORMAL))
      else
        (true, w)

/-! ## `K_SMKIceBlockCollide` (lines 772-798) -/

/-- Lines 898-934 of `K_PvPTouchDamage`, the ring sting.  `p1` and `p2` are
`*t1->player` and `*t2->player` as read before the first collaborator call;
`t1->player` is read again after the calls made for `t2`, and the result is
`none` if that pointer has become `NULL`. -/
def K_PvPTouchDamage_sting (E : Env) (t1 t2 : Nat) (p1 p2 : player_t) (w : World) :
    Option (Bool × World) :=
  let t1Condition : Bool := decide (E.K_GetShieldFromItem p2.itemtype = E.KSHIELD_NONE)
  let t2Condition : Bool := decide (E.K_GetShieldFromItem p1.itemtype = E.KSHIELD_NONE)
  let stungT2 : Bool := t1Condition && decide (p2.rings ≤ 0)
  let w :=
    if t1Condition = true then
      let w := if p2.rings ≤ 0
        then w.emit E (Effect.P_DamageMobj t2 (some t1) (some t1) 1 (E.DMG_STING ||| E.DMG_WOMBO))
        else w
      w.emit E (Effect.P_PlayerRingBurst t2 1)
    else w
  let side1 : Option (Bool × World) :=
    if t2Condition = true then
      match (w.mobj t1).player with
      | none => none
      | some q1 =>
        let w := if q1.rings ≤ 0
          then w.emit E (Effect.P_DamageMobj t1 (some t2) (some t2) 1 (E.DMG_STING ||| E.DMG_WOMBO))
          else w
        some (decide (q1.rings ≤ 0), w.emit E (Effect.P_PlayerRingBurst t1 1))
    else some (false, w)
  match side1 with
  | none => none
  | some (stungT1, w) =>
    -- No damage hitlag for stinging.
    let w :=
      if stungT1 = true ∧ stungT2 = false then
        w.set t2 { w.mobj t2 with eflags := clearBits (w.mobj t2).eflags E.MFE_DAMAGEHITLAG }
      else if stungT2 = true ∧ stungT1 = false then
        w.set t1 { w.mobj t1 with eflags := clearBits (w.mobj t1).eflags E.MFE_DAMAGEHITLAG }
      else w
    some (stungT1 || stungT2, w)

/-- Lines 883-935 of `K_PvPTouchDamage`: the stumble on a scale difference,
then the ring sting. -/
def K_PvPTouchDamage_stumble (E : Env) (t1 t2 : Nat) (p1 p2 : player_t) (w : World) :
    Option (Bool × World) :=
  -- Cause stumble on scale difference
  let t1Condition : Bool := E.K_IsBigger (w.mobj t1) (w.mobj t2)
  let t2Condition : Bool := E.K_IsBigger (w.mobj t2) (w.mobj t1)
  if t1Condition = true ∧ t2Condition = false then
    some (true, w.emit E (Effect.K_StumblePlayer t2))
  else if t1Condition = false ∧ t2Condition = true then
    some (true, w.emit E (Effect.K_StumblePlayer t1))
  else
    -- Ring sting, this is a bit more unique
    K_PvPTouchDamage_sting E t1 t2 p1 p2 w

/-- `boolean K_PvPTouchDamage(mobj_t *t1, mobj_t *t2)`.  Both objects are
players; the result is `none` where the C code dereferences a `NULL`
`player`. -/
def K_PvPTouchDamage (E : Env) (t1 t2 : Nat) (w : World) : Option (Bool × World) :=
  if E.K_PodiumSequence = true then
    -- Always regular bumps, no ring toss.
    some (false, w)
  else
    match (w.mobj t1).player, (w.mobj t2).player with
    | some p1, some p2 =>
      -- Clash instead of damage if both parties have any of these conditions
      let t1Condition : Bool := (E.K_IsBigger (w.mobj t1) (w.mobj t2) == true)
        || decide (p1.invincibilitytimer > 0)
        || (decide (p1.flamedash > 0) && decide (p1.itemtype = E.KITEM_FLAMESHIELD))
        || (decide (p1.curshield = E.KSHIELD_TOP) && !E.K_IsHoldingDownTop p1)
      let t2Condition : Bool := (E.K_IsBigger (w.mobj t2) (w.mobj t1) == true)
        || decide (p2.invincibilitytimer > 0)
        || (decide (p2.flamedash > 0) && decide (p2.itemtype = E.KITEM_FLAMESHIELD))
        || (decide (p2.curshield = E.KSHIELD_TOP) && !E.K_IsHoldingDownTop p2)
      if t1Condition = true ∧ t2Condition = true then
        some (false, w.emit E (Effect.K_DoPowerClash t1 t2))
      else
      -- Cause tumble on invincibility
      let t1Condition : Bool := decide (p1.invincibilitytimer > 0)
      let t2Condition : Bool := decide (p2.invincibilitytimer > 0)
      if t1Condition = true ∧ t2Condition = false then
        some (true, w.emit E (Effect.P_DamageMobj t2 (some t1) (some t1) 1 E.DMG_TUMBLE))
      else if t1Condition = false ∧ t2Condition = true then
        some (true, w.emit E (Effect.P_DamageMobj t1 (some t2) (some t2) 1 E.DMG_TUMBLE))
      else
      -- Flame Shield dash damage
      let t1Condition : Bool := decide (p1.flamedash > 0) && decide (p1.itemtype = E.KITEM_FLAMESHIELD)
      let t2Condition : Bool := decide (p2.flamedash > 0) && decide (p2.itemtype = E.KITEM_FLAMESHIELD)
      if t1Condition = true ∧ t2Condition = false then
        some (true, w.emit E (Effect.P_DamageMobj t2 (some t1) (some t1) 1
          (E.DMG_WIPEOUT ||| E.DMG_WOMBO)))
      else if t1Condition = false ∧ t2Condition = true then
        some (true, w.emit E (Effect.P_DamageMobj t1 (some t2) (some t2) 1
          (E.DMG_WIPEOUT ||| E.DMG_WOMBO)))
      -- Battle Mode Sneaker damage
      -- (Pogo Spring damage is handled in head-stomping code)
      else if E.gametyperules &&& E.GTR_BUMPERS ≠ 0 then
        let t1Condition : Bool := decide (p1.sneakertimer > 0) && !E.P_PlayerInPain p1
          && decide (p1.flashing = 0)
        let t2Condition : Bool := decide (p2.sneakertimer > 0) && !E.P_PlayerInPain p2
          && decide (p2.flashing = 0)
        if t1Condition = true ∧ t2Condition = false then
          some (true, w.emit E (Effect.P_DamageMobj t2 (some t1) (some t1) 1
            (E.DMG_WIPEOUT ||| E.DMG_STEAL ||| E.DMG_WOMBO)))
        else if t1Condition = false ∧ t2Condition = true then
          some (true, w.emit E (Effect.P_DamageMobj t1 (some t2) (some t2) 1
            (E.DMG_WIPEOUT ||| E.DMG_STEAL ||| E.DMG_WOMBO)))
        else
          K_PvPTouchDamage_stumble E t1 t2 p1 p2 w
      else
        K_PvPTouchDamage_stumble E t1 t2 p1 p2 w
    | _, _ => none

/-! ## A concrete environment -/

/-- A concrete environment, used to run the handlers on examples.  The
constants are sample values in the style of the engine headers: `FRACUNIT` is
`1<<16`, a right angle is `0x40000000`, every flag is a single bit, the damage
kinds are small numbers and `DMG_STEAL`, `DMG_WOMBO` are separate high bits,
the flame shield is item `13`.  `P_AproxDistance` is the octagonal
approximation `dx + dy - min(dx, dy)/2` on absolute values, `FixedMul` is the
16.16 product, an object is bigger when its scale is larger, everything is in
sight, no object has been removed, every player can pick up items, an object
is flipped when it carries `MFE_VERTICALFLIP`, `BMBOUNDFIX` resets a lower block bound
that exceeds the upper one to `0`, the objects `things` are linked in block
`(0, 0)` and no other block holds an object, collaborator calls leave the
heap as it is, and spawned objects are the objects `100` (a ghost) and `101`. -/
def sampleEnv (things : List Nat) : Env where
  FRACUNIT := 65536
  ANGLE_90 := 0x40000000
  ANGLE_180 := 0x80000000
  ANGLE_45 := 0x20000000
  ANG10 := 0x071C71C7
  MAXRADIUS := 32 * 65536
  MF_SOLID := 2
  MF_SHOOTABLE := 4
  MF_PAPERCOLLISION := 32
  MF_BOSS := 128
  MF_ENEMY := 1048576
  MF_SCENERY := 2097152
  MF_NOHITLAGFORME := 2147483648
  MF2_DEBRIS := 1024
  MFE_VERTICALFLIP := 32
  MFE_DAMAGEHITLAG := 1024
  RF_FULLDARK := 0x00200000
  PF_EGGMANOUT := 0x00000200
  GTR_BUMPERS := 4
  DMG_NORMAL := 0
  DMG_WIPEOUT := 1
  DMG_EXPLODE := 2
  DMG_TUMBLE := 3
  DMG_STING := 4
  DMG_STEAL := 0x10000000
  DMG_WOMBO := 0x40000000
  DMG_INSTAKILL := 0x80
  DMG_VOLTAGE := 6
  DMG_CANTHURTSELF := 0x20000000
  SKINCOLOR_GOLD := 57
  SKINCOLOR_CRIMSON := 39
  KITEM_FLAMESHIELD := 13
  KSHIELD_NONE := 0
  KSHIELD_TOP := 4
  S_SSMINE1 := 100
  S_SSMINE4 := 103
  S_SSMINE_DEPLOY8 := 115
  S_SSMINE_EXPLODE2 := 125
  MAPBLOCKSHIFT := 23
  bmaporgx := 0
  bmaporgy := 0
  gametyperules := 0
  K_PodiumSequence := false
  R_PointToAngle2 := fun _ _ _ _ => 0
  P_AproxDistance := fun dx dy =>
    if dx.natAbs < dy.natAbs then (dx.natAbs : Int) + dy.natAbs - ((dx.natAbs / 2 : Nat) : Int)
    else (dx.natAbs : Int) + dy.natAbs - ((dy.natAbs / 2 : Nat) : Int)
  FixedMul := fun a b => (a * b) / 65536
  FixedDiv := fun a b => if b = 0 then 0 else (a * 65536) / b
  FixedHypot := fun x y =>
    if x.natAbs < y.natAbs then (x.natAbs : Int) + y.natAbs - ((x.natAbs / 2 : Nat) : Int)
    else (x.natAbs : Int) + y.natAbs - ((y.natAbs / 2 : Nat) : Int)
  InvAngle := fun a => (2 ^ 32 - a % 2 ^ 32) % 2 ^ 32
  P_ReturnThrustX := fun _ _ _ => 0
  P_ReturnThrustY := fun _ _ _ => 0
  P_CheckSight := fun _ _ => true
  P_MobjWasRemoved := fun _ => false
  K_IsBigger := fun a b => decide (a.scale > b.scale)
  K_IsRidingFloatingTop := fun _ => false
  K_IsHoldingDownTop := fun _ => false
  P_PlayerInPain := fun _ => false
  P_CanPickupItem := fun _ _ => true
  P_MobjFlip := fun m => if m.eflags &&& 32 ≠ 0 then -1 else 1
  K_GetShieldFromItem := fun i => if i = 13 then 3 else 0
  BMBOUNDFIX := fun b =>
    (if b.1 > b.2.1 then 0 else b.1, b.2.1, if b.2.2.1 > b.2.2.2 then 0 else b.2.2.1, b.2.2.2)
  blocklinks := fun bx by_ => if bx = 0 ∧ by_ = 0 then things else []
  call := fun _ h => h
  ret := fun e _ =>
    match e with
    | Effect.P_SpawnGhostMobj _ => 100
    | _ => 101

/-- A heap holding the listed objects at the indices `0, 1, 2, ...`. -/
def sampleHeap (objs : List mobj_t) : Heap := fun i => objs.getD i {}

/-- A world with the listed objects, an empty record and cleared statics. -/
def sampleWorld (objs : List mobj_t) : World := { mobj := sampleHeap objs }

/-- A banana (object `0`) thrown by the player that is object `1`, still in
its threshold window of 5 tics, overlapping that player. -/
def ownBananaWorld : World :=
  sampleWorld [
    { type := mobjtype_t.MT_BANANA, health := 1, threshold := 5, target := some 1 },
    { type := mobjtype_t.MT_PLAYER, health := 1, flags := 4, player := some {} } ]

/-- The heap after a sequence of collaborator calls. -/
def heapAfter (E : Env) (es : List Effect) (h : Heap) : Heap :=
  es.foldl (fun h e => E.call e h) h

/-- A banana (object `0`, thrown by object `2`) touching a player (object `1`)
who is flashing and has no hit-lag. -/
def flashingPlayerWorld : World :=
  sampleWorld [
    { type := mobjtype_t.MT_BANANA, health := 1, target := some 2 },
    { type := mobjtype_t.MT_PLAYER, health := 1, flags := 4, player := some { flashing := 1 } },
    { type := mobjtype_t.MT_PLAYER, health := 1, flags := 4, player := some {} } ]

/-- A banana (object `0`, thrown by object `2`) touching a player (object `1`)
who is dashing with the flame shield (item type 13 in `sampleEnv`). -/
def flameDashWorld : World :=
  sampleWorld [
    { type := mobjtype_t.MT_BANANA, health := 1, target := some 2 },
    { type := mobjtype_t.MT_PLAYER, health := 1, flags := 4,
      player := some { flamedash := 1, itemtype := 13 } },
    { type := mobjtype_t.MT_PLAYER, health := 1, flags := 4, player := some {} } ]

/-- A banana (object `0`, thrown by object `2`) touching an orbinaut (object
`1`, thrown by object `3`). -/
def bananaOrbinautWorld : World :=
  sampleWorld [
    { type := mobjtype_t.MT_BANANA, health := 1, target := some 2, x := 10, y := 20, z := 30 },
    { type := mobjtype_t.MT_ORBINAUT, health := 1, target := some 3, x := 13, y := -7, z := 31 } ]

/-- A mine (object `0`) at the origin with scale `FRACUNIT`, and four
shootable players at distance 100, 250, 400 and 300 map units along the x
axis (objects `1` to `4`). -/
def mineWorld : World :=
  sampleWorld [
    { type := mobjtype_t.MT_SSMINE, health := 1, scale := 65536 },
    { type := mobjtype_t.MT_PLAYER, health := 1, flags := 4, x := 100 * 65536, player := some {} },
    { type := mobjtype_t.MT_PLAYER, health := 1, flags := 4, x := 250 * 65536, player := some {} },
    { type := mobjtype_t.MT_PLAYER, health := 1, flags := 4, x := 400 * 65536, player := some {} },
    { type := mobjtype_t.MT_PLAYER, health := 1, flags := 4, x := 300 * 65536, player := some {} } ]

/-- The world `mineWorld` after a first detonation of the mine with size 300
units. -/
def detonatedMineWorld : World :=
  (K_MineExplodeAttack (sampleEnv [1, 2, 3, 4]) 0 (300 * 65536) false mineWorld).2

/-! ## Reference definitions for the player-versus-player touch -/

/-- The world after a sequence of collaborator calls that may change objects. -/
def emitAll (E : Env) (es : List Effect) (w : World) : World :=
  es.foldl (fun w e => w.emit E e) w

/-- A side is dominant: it is bigger than the other, or invincible, or dashing
with the flame shield, or carries the top shield without holding it down. -/
def dominant (E : Env) (m other : mobj_t) (p : player_t) : Bool :=
  E.K_IsBigger m other
    || decide (p.invincibilitytimer > 0)
    || (decide (p.flamedash > 0) && decide (p.itemtype = E.KITEM_FLAMESHIELD))
    || (decide (p.curshield = E.KSHIELD_TOP) && !E.K_IsHoldingDownTop p)

/-- The condition `c1` of the first side and `c2` of the second side hold for
exactly one side: the result is the pair (qualifying side, other side). -/
def oneSided (c1 c2 : Bool) (t1 t2 : Nat) : Option (Nat × Nat) :=
  if c1 = true ∧ c2 = false then some (t1, t2)
  else if c1 = false ∧ c2 = true then some (t2, t1)
  else none

/-- The ordered chain of one-sided rules as the specification words it: the
first rule whose condition holds for exactly one side gives the single call
that is made, on the other side. -/
def pvpChainReference (E : Env) (t1 t2 : Nat) (m1 m2 : mobj_t) (p1 p2 : player_t) :
    Option Effect :=
  match oneSided (decide (p1.invincibilitytimer > 0)) (decide (p2.invincibilitytimer > 0))
      t1 t2 with
  | some (a, b) => some (Effect.P_DamageMobj b (some a) (some a) 1 E.DMG_TUMBLE)
  | none =>
  match oneSided (decide (p1.flamedash > 0) && decide (p1.itemtype = E.KITEM_FLAMESHIELD))
      (decide (p2.flamedash > 0) && decide (p2.itemtype = E.KITEM_FLAMESHIELD)) t1 t2 with
  | some (a, b) => some (Effect.P_DamageMobj b (some a) (some a) 1 (E.DMG_WIPEOUT ||| E.DMG_WOMBO))
  | none =>
  match (if E.gametyperules &&& E.GTR_BUMPERS ≠ 0 then
      oneSided (decide (p1.sneakertimer > 0) && !E.P_PlayerInPain p1 && decide (p1.flashing = 0))
        (decide (p2.sneakertimer > 0) && !E.P_PlayerInPain p2 && decide (p2.flashing = 0)) t1 t2
      else none) with
  | some (a, b) =>
    some (Effect.P_DamageMobj b (some a) (some a) 1 (E.DMG_WIPEOUT ||| E.DMG_STEAL ||| E.DMG_WOMBO))
  | none =>
  match oneSided (E.K_IsBigger m1 m2) (E.K_IsBigger m2 m1) t1 t2 with
  | some (_, b) => some (Effect.K_StumblePlayer b)
  | none => none

/-- The damage kind of a `P_DamageMobj` call. -/
def Effect.damageKind : Effect → Option Nat
  | Effect.P_DamageMobj _ _ _ _ damagetype => some damagetype
  | _ => none

/-- The calls the ring sting makes for one side `s` with player state `p`,
touched by `o`: nothing if its item type maps to a shield; otherwise a sting
damage if its rings are used up, and a ring burst of one ring. -/
def stingCalls (E : Env) (s o : Nat) (p : player_t) : List Effect :=
  if E.K_GetShieldFromItem p.itemtype = E.KSHIELD_NONE then
    (if p.rings ≤ 0
      then [Effect.P_DamageMobj s (some o) (some o) 1 (E.DMG_STING ||| E.DMG_WOMBO)] else [])
    ++ [Effect.P_PlayerRingBurst s 1]
  else []

/-- A side is stung: it has no defensive item and its rings are used up. -/
def isStung (E : Env) (p : player_t) : Bool :=
  decide (E.K_GetShieldFromItem p.itemtype = E.KSHIELD_NONE) && decide (p.rings ≤ 0)

/-- Clear `MFE_DAMAGEHITLAG` on the object `c`, if any. -/
def clearDamageHitlag (E : Env) (c : Option Nat) (w : World) : World :=
  match c with
  | none => w
  | some o => w.set o { w.mobj o with eflags := clearBits (w.mobj o).eflags E.MFE_DAMAGEHITLAG }

/-- The same call with the two players of a power clash named in the other
order; every other call names its objects by role and is left as it is. -/
def Effect.mirror : Effect → Effect
  | Effect.K_DoPowerClash a b => Effect.K_DoPowerClash b a
  | e => e

/-- Frame condition on the collaborators: damaging one object, or bursting
its rings, leaves the ring count (and the presence) of the player state of
every other object as it was. -/
def RingsFrame (E : Env) : Prop :=
  (∀ (target : Nat) (inflictor source : Option Nat) (damage : Int) (damagetype : Nat)
      (h : Heap) (o : Nat), o ≠ target →
    ((E.call (Effect.P_DamageMobj target inflictor source damage damagetype) h) o).player.map
        (fun p => p.rings)
      = (h o).player.map (fun p => p.rings))
  ∧ (∀ (mo : Nat) (num : Int) (h : Heap) (o : Nat), o ≠ mo →
    ((E.call (Effect.P_PlayerRingBurst mo num) h) o).player.map (fun p => p.rings)
      = (h o).player.map (fun p => p.rings))

/-- The object on which the ring sting clears `MFE_DAMAGEHITLAG`, given the
player states of the two sides: the side that is not stung, when exactly one
side is stung. -/
def noHitlagSide (E : Env) (t1 t2 : Nat) (p1 p2 : player_t) : Option Nat :=
  if isStung E p1 = true ∧ isStung E p2 = false then some t2
  else if isStung E p2 = true ∧ isStung E p1 = false then some t1
  else none

/-- Two players touching, both invincible. -/
def clashWorld : World :=
  sampleWorld [
    { type := mobjtype_t.MT_PLAYER, health := 1, flags := 4, scale := 65536,
      player := some { invincibilitytimer := 10 } },
    { type := mobjtype_t.MT_PLAYER, health := 1, flags := 4, scale := 65536,
      player := some { invincibilitytimer := 5 } } ]

/-- Two players touching, the first one invincible. -/
def tumbleWorld : World :=
  sampleWorld [
    { type := mobjtype_t.MT_PLAYER, health := 1, flags := 4, scale := 65536,
      player := some { invincibilitytimer := 10 } },
    { type := mobjtype_t.MT_PLAYER, health := 1, flags := 4, scale := 65536,
      player := some {} } ]

/-- Two players of the same size touching, neither with an item; the first
has no rings, the second has five. -/
def stingWorld : World :=
  sampleWorld [
    { type := mobjtype_t.MT_PLAYER, health := 1, flags := 4, scale := 65536,
      player := some { rings := 0 } },
    { type := mobjtype_t.MT_PLAYER, health := 1, flags := 4, scale := 65536,
      player := some { rings := 5 } } ]

/-- The environment `sampleEnv` during the podium sequence. -/
def podiumEnv : Env := { sampleEnv [] with K_PodiumSequence := true }

/-- Two ballhogs of two different throwers, the second one dead. -/
def ballhogsWorld : World :=
  sampleWorld [
    { type := mobjtype_t.MT_BALLHOG, health := 1, target := some 2 },
    { type := mobjtype_t.MT_BALLHOG, health := 0, target := some 3 } ]

/-- A mine (object `0`) armed at the origin with scale `FRACUNIT`, owner
object `2`, and a player (object `1`) exactly 300 map units away, with the
statics as a search or a detonation of size 300 units sets them. -/
def armedMineWorld : World :=
  { sampleWorld [
      { type := mobjtype_t.MT_SSMINE, health := 1, scale := 65536, target := some 2,
        info := { deathstate := 7 } },
      { type := mobjtype_t.MT_PLAYER, health := 1, flags := 4, x := 300 * 65536,
        player := some {} } ] with
    grenade := some 0, explodedist := 300 * 65536 }

/-- The world after the blockmap walk of `K_MineExplodeAttack` (lines
290-305): the statics are set, then `PIT_SSMineExplode` visits the blocks. -/
def mineWalk (E : Env) (actor : Nat) (size : Int) (spin : Bool) (w : World) : World :=
  let w := { w with explodespin := spin }
  let w := { w with explodedist := E.FixedMul size (w.mobj actor).scale }
  let w := { w with grenade := some actor }
  let w := { w with minehitlag := 0 }
  let yh := blockCoord E ((w.mobj actor).y + w.explodedist - E.bmaporgy)
  let yl := blockCoord E ((w.mobj actor).y - w.explodedist - E.bmaporgy)
  let xh := blockCoord E ((w.mobj actor).x + w.explodedist - E.bmaporgx)
  let xl := blockCoord E ((w.mobj actor).x - w.explodedist - E.bmaporgx)
  match E.BMBOUNDFIX (xl, xh, yl, yh) with
  | (xl, xh, yl, yh) => blockLoop E (PIT_SSMineExplode E) xl xh yl yh w

/-- Lines 307-326 of `K_MineExplodeAttack`, what follows the blockmap walk:
the three writes to the actor, then (unless `spin`) the spawn of the ki effect
and the return of `minehitlag`. -/
def mineFinish (E : Env) (actor : Nat) (spin : Bool) (w : World) : Nat × World :=
  -- Set this flag to ensure that the inital action won't be triggered twice.
  let w := w.set actor { w.mobj actor with flags2 := (w.mobj actor).flags2 ||| E.MF2_DEBRIS }
  -- Set this flag to ensure the hitbox timer doesn't get extended with every player hit
  let w := w.set actor { w.mobj actor with flags := (w.mobj actor).flags ||| E.MF_NOHITLAGFORME }
  let w := w.set actor { w.mobj actor with hitlag := 0 }
  if spin = false then
    let w := if w.minehitlag = 0 then { w with minehitlag := (w.mobj actor).hitlag } else w
    let w := w.emit E (Effect.Obj_SpawnBrolyKi actor w.minehitlag)
    ((w.minehitlag % 2 ^ 32).toNat, w)
  else
    (0, w)

/-- A mine (object `0`) with flags `4`, flags2 `2` and hit-lag `9`, and a
player 100 map units away. -/
def spinMineWorld : World :=
  sampleWorld [
    { type := mobjtype_t.MT_SSMINE, health := 1, scale := 65536, flags := 4, flags2 := 2,
      hitlag := 9 },
    { type := mobjtype_t.MT_PLAYER, health := 1, flags := 4, x := 100 * 65536, player := some {} } ]

/-! ## Reference definitions for the recorded hit-lag -/

/-- The additional hit-lag of the candidate, when `PIT_SSMineExplode` damages
it: its hit-lag after `P_DamageMobj` minus its hit-lag before.  Empty when
the visitor applies no damage. -/
def PIT_SSMineExplode_gain (E : Env) (thing : Nat) (w : World) : List Int :=
  match w.grenade with
  | none => []
  | some g =>
    if E.P_MobjWasRemoved (w.mobj g) = true then []
    else if PIT_SSMineChecks E g thing w = true then []
    else
      [((w.emit E (Effect.P_DamageMobj thing (some g) (w.mobj g).target 1
          (if w.explodespin then E.DMG_NORMAL else E.DMG_EXPLODE))).mobj thing).hitlag
        - (w.mobj thing).hitlag]

/-- The additional hit-lag of the targets damaged in one block, in visiting
order. -/
def blockGains (E : Env) : List Nat → World → List Int
  | [], _ => []
  | thing :: rest, w =>
    match PIT_SSMineExplode E thing w with
    | (BlockItReturn_t.BMIT_ABORT, _) => PIT_SSMineExplode_gain E thing w
    | (BlockItReturn_t.BMIT_CONTINUE, w') => PIT_SSMineExplode_gain E thing w ++ blockGains E rest w'

/-- The walk of `blockLoop` with `PIT_SSMineExplode`, keeping next to the
world the additional hit-lag of every target damaged so far. -/
def blockLoopTrack (E : Env) (xl xh yl yh : Int) (w : World) : World × List Int :=
  (forRange yl yh).foldl
    (fun acc by_ => (forRange xl xh).foldl
      (fun acc bx =>
        ((P_BlockThingsIterator (PIT_SSMineExplode E) (E.blocklinks bx by_) acc.1).2,
          acc.2 ++ blockGains E (E.blocklinks bx by_) acc.1)) acc) (w, [])

/-- The additional hit-lag of every target damaged by the detonation
`K_MineExplodeAttack(actor, size, spin)`, in visiting order. -/
def mineGains (E : Env) (actor : Nat) (size : Int) (spin : Bool) (w : World) : List Int :=
  let w := { w with explodespin := spin }
  let w := { w with explodedist := E.FixedMul size (w.mobj actor).scale }
  let w := { w with grenade := some actor }
  let w := { w with minehitlag := 0 }
  let yh := blockCoord E ((w.mobj actor).y + w.explodedist - E.bmaporgy)
  let yl := blockCoord E ((w.mobj actor).y - w.explodedist - E.bmaporgy)
  let xh := blockCoord E ((w.mobj actor).x + w.explodedist - E.bmaporgx)
  let xl := blockCoord E ((w.mobj actor).x - w.explodedist - E.bmaporgx)
  match E.BMBOUNDFIX (xl, xh, yl, yh) with
  | (xl, xh, yl, yh) => (blockLoopTrack E xl xh yl yh w).2

/-- The last positive entry of a list, `init` if there is none. -/
def lastPositive (gains : List Int) (init : Int) : Int :=
  gains.foldl (fun acc g => if g > 0 then g else acc) init

/-- The environment `sampleEnv` with a `P_DamageMobj` that adds hit-lag to its
target: 10 tics to object `1`, 5 tics to any other object. -/
def lagEnv (things : List Nat) : Env :=
  { sampleEnv things with
    call := fun e h =>
      match e with
      | Effect.P_DamageMobj target _ _ _ _ =>
        Function.update h target
          { h target with hitlag := (h target).hitlag + (if target = 1 then 10 else 5) }
      | _ => h }

/-- A drop target (object `0`, owner object `2`, threshold 5) touched by an
orbinaut (object `1`) of the same owner, outside its own threshold window. -/
def dropTargetWorld : World :=
  sampleWorld [
    { type := mobjtype_t.MT_DROPTARGET, health := 3, threshold := 5, target := some 2,
      scale := 65536, height := 45 * 65536 },
    { type := mobjtype_t.MT_ORBINAUT, health := 1, threshold := 0, target := some 2,
      scale := 65536, x := 10 * 65536, momx := -(5 * 65536) },
    { type := mobjtype_t.MT_PLAYER, health := 1, flags := 4, scale := 65536, player := some {} } ]

/-- The drop target of `dropTargetWorld` touched by its owner, a player. -/
def dropTargetOwnerWorld : World :=
  sampleWorld [
    { type := mobjtype_t.MT_DROPTARGET, health := 3, threshold := 5, target := some 1,
      scale := 65536, height := 45 * 65536 },
    { type := mobjtype_t.MT_PLAYER, health := 1, flags := 4, scale := 65536, player := some {} } ]

/-- A lightning shield source (player `0`) and a live `MT_SPB` (object `1`)
50 map units away that carries no flag at all, with the statics as
`K_LightningShieldAttack` of size 100 units sets them. -/
def lightningWorld : World :=
  { sampleWorld [
      { type := mobjtype_t.MT_PLAYER, health := 1, flags := 4, scale := 65536, player := some {} },
      { type := mobjtype_t.MT_SPB, health := 1, flags := 0, x := 50 * 65536 } ] with
    lightningSource := some 0, lightningDist := 100 * 65536 }

/-- A kitchen sink (object `0`, thrown by object `2`) landing on a dead player
(object `1`, health `0`). -/
def deadPlayerSinkWorld : World :=
  sampleWorld [
    { type := mobjtype_t.MT_OTHER 0, health := 1, target := some 2 },
    { type := mobjtype_t.MT_PLAYER, health := 0, flags := 4, player := some {} },
    { type := mobjtype_t.MT_PLAYER, health := 1, flags := 4, player := some {} } ]

/-- The players of `stingWorld`, both with `MFE_DAMAGEHITLAG` (bit `1024`) set. -/
def stingHitlagWorld : World :=
  sampleWorld [
    { type := mobjtype_t.MT_PLAYER, health := 1, flags := 4, scale := 65536, eflags := 1024,
      player := some { rings := 0 } },
    { type := mobjtype_t.MT_PLAYER, health := 1, flags := 4, scale := 65536, eflags := 1024,
      player := some { rings := 5 } } ]

/-! ## Reference definitions for the return value and the unreachable matches -/

/-- A call that hits a player: a `P_DamageMobj` or a `K_StumblePlayer`. -/
def Effect.isHit : Effect → Bool
  | Effect.P_DamageMobj _ _ _ _ _ => true
  | Effect.K_StumblePlayer _ => true
  | _ => false

/-- The environment `sampleEnv` in a game type with `GTR_BUMPERS` (battle). -/
def battleEnv : Env := { sampleEnv [] with gametyperules := 4 }

/-- Two players of the same size touching, both boosting with a sneaker; the
first has no rings, the second has five. -/
def sneakersWorld : World :=
  sampleWorld [
    { type := mobjtype_t.MT_PLAYER, health := 1, flags := 4, scale := 65536,
      player := some { sneakertimer := 5, rings := 0 } },
    { type := mobjtype_t.MT_PLAYER, health := 1, flags := 4, scale := 65536,
      player := some { sneakertimer := 5, rings := 5 } } ]

/-! ## Reference definitions for the bubble shield -/

/-- The reflection of an object off the bubble shield as the specification
words it: an object without horizontal momentum has its `momz` increased by
`24 * scale * flip`; otherwise `momx`, `momy` and `momz` are each multiplied by
`-4` and the object is turned by `ANGLE_180`.  The results are `INT32` values:
they are taken modulo `2^32` (`wrapINT32`), the angle as an `angle_t`. -/
def bubbleReflect (E : Env) (m : mobj_t) : mobj_t :=
  if m.momx = 0 ∧ m.momy = 0 then
    { m with momz := wrapINT32 (m.momz + 24 * m.scale * E.P_MobjFlip m) }
  else
    { m with momx := wrapINT32 (-4 * m.momx), momy := wrapINT32 (-4 * m.momy),
             momz := wrapINT32 (-4 * m.momz), angle := angle_t (m.angle + E.ANGLE_180) }

/-- A bubble shield (object `0`, held by the player that is object `2`)
touched by a flying orbinaut (object `1`) whose threshold has run out. -/
def bubbleWorld : World :=
  sampleWorld [
    { type := mobjtype_t.MT_OTHER 1, health := 1, target := some 2 },
    { type := mobjtype_t.MT_ORBINAUT, health := 1, threshold := 0, target := some 3,
      scale := 65536, momx := 3 * 65536, momy := -(2 * 65536), momz := 65536, angle := 0xC0000000 },
    { type := mobjtype_t.MT_PLAYER, health := 1, flags := 4, scale := 65536, player := some {} } ]

/-- The world `bubbleWorld` with a fast orbinaut: `momx = 0x30000000`, whose
product by `-4` does not fit an `INT32`. -/
def fastBubbleWorld : World :=
  sampleWorld [
    { type := mobjtype_t.MT_OTHER 1, health := 1, target := some 2 },
    { type := mobjtype_t.MT_ORBINAUT, health := 1, threshold := 0, target := some 3,
      scale := 65536, momx := 0x30000000, momy := -(2 * 65536), momz := 65536 },
    { type := mobjtype_t.MT_PLAYER, health := 1, flags := 4, scale := 65536, player := some {} } ]

/-- A resting object (object `1`, no horizontal momentum, scale `FRACUNIT`,
vertically flipped) on a bubble shield (object `0`). -/
def restingBubbleWorld : World :=
  sampleWorld [
    { type := mobjtype_t.MT_OTHER 1, health := 1, target := some 2 },
    { type := mobjtype_t.MT_BANANA, health := 1, threshold := 0, target := some 3,
      scale := 65536, momz := 65536, eflags := 32 },
    { type := mobjtype_t.MT_PLAYER, health := 1, flags := 4, scale := 65536, player := some {} } ]

/-! ## Reference definitions for the hit-lag of the drop target -/

/-- A call that gives hit-lag to an object: a `K_AddHitLag`. -/
def Effect.isHitLag : Effect → Bool
  | Effect.K_AddHitLag _ _ _ => true
  | _ => false

/-- One of the three guards of `K_DropTargetCollide` returns early: the
ownership guard, the dead-object guard, or the player guard (`hyudorotimer`
or `justbumped` set). -/
def dropTargetGuards (t1 t2 : Nat) (w : World) : Prop :=
  (((w.mobj t1).target = some t2 ∨ (w.mobj t1).target = (w.mobj t2).target)
      ∧ (((w.mobj t1).threshold > 0 ∧ (w.mobj t2).type = mobjtype_t.MT_PLAYER)
        ∨ ((w.mobj t2).type ≠ mobjtype_t.MT_PLAYER ∧ (w.mobj t2).threshold > 0)))
    ∨ ((w.mobj t1).health ≤ 0 ∨ (w.mobj t2).health ≤ 0)
    ∨ (∃ p, (w.mobj t2).player = some p ∧ (p.hyudorotimer ≠ 0 ∨ p.justbumped ≠ 0))

/-- The local `draggeddroptarget` of `K_DropTargetCollide`: the wielder of a
`MT_DROPTARGET_SHIELD`, `NULL` for any other object. -/
def draggeddroptarget (t1 : Nat) (w : World) : Option Nat :=
  if (w.mobj t1).type = mobjtype_t.MT_DROPTARGET_SHIELD then (w.mobj t1).target else none

/-- The hit-lag a dragged drop target passes on: `K_AddHitLag(wielder, 6,
false)` when `draggeddroptarget` is not `NULL`, nothing otherwise. -/
def dropTargetWielderCalls (dragged wielder : Option Nat) : List Effect :=
  match dragged with
  | none => []
  | some _ => [Effect.K_AddHitLag wielder 6 false]

/-- Frame condition on the collaborators called before the hit-lag is given:
`P_Thrust`, `K_KartBouncing` and `P_InstaThrust` leave the target pointer and
the scale of `t1` as they were. -/
def BumpFrame (E : Env) (t1 : Nat) : Prop :=
  (∀ (mo angle : Nat) (move : Int) (h : Heap),
      (E.call (Effect.P_Thrust mo angle move) h t1).target = (h t1).target
      ∧ (E.call (Effect.P_Thrust mo angle move) h t1).scale = (h t1).scale)
  ∧ (∀ (a b : Nat) (h : Heap),
      (E.call (Effect.K_KartBouncing a b) h t1).target = (h t1).target
      ∧ (E.call (Effect.K_KartBouncing a b) h t1).scale = (h t1).scale)
  ∧ (∀ (mo angle : Nat) (move : Int) (h : Heap),
      (E.call (Effect.P_InstaThrust mo angle move) h t1).target = (h t1).target
      ∧ (E.call (Effect.P_InstaThrust mo angle move) h t1).scale = (h t1).scale)

/-- A dragged drop target (object `0`, a `MT_DROPTARGET_SHIELD` held by the
player that is object `2`) touched by an orbinaut (object `1`) of another
thrower. -/
def draggedDropTargetWorld : World :=
  sampleWorld [
    { type := mobjtype_t.MT_DROPTARGET_SHIELD, health := 3, target := some 2,
      scale := 65536, height := 45 * 65536 },
    { type := mobjtype_t.MT_ORBINAUT, health := 1, threshold := 0, target := some 3,
      scale := 65536, x := 10 * 65536, momx := -(5 * 65536) },
    { type := mobjtype_t.MT_PLAYER, health := 1, flags := 4, scale := 65536,
      momx := 2 * 65536, player := some {} } ]

/-! ## Reference definitions for the guard order and the destroy sequence -/

/-- The ownership guard shared by `K_BananaBallhogCollide`, `K_MineCollide`,
`K_LandMineCollide` and `K_KitchenSinkCollide` (lines 46, 331, 382, 736). -/
def ownershipGuard (E : Env) (t1 t2 : Nat) (w : World) : Prop :=
  ((w.mobj t1).target = some t2
      ∨ ((w.mobj t2).flags &&& (E.MF_ENEMY ||| E.MF_BOSS) = 0
          ∧ (w.mobj t1).target = (w.mobj t2).target))
    ∧ ((w.mobj t1).threshold > 0
      ∨ ((w.mobj t2).type ≠ mobjtype_t.MT_PLAYER ∧ (w.mobj t2).threshold > 0))

/-- The ownership guard of `K_DropTargetCollide` (line 460). -/
def dropTargetOwnershipGuard (t1 t2 : Nat) (w : World) : Prop :=
  ((w.mobj t1).target = some t2 ∨ (w.mobj t1).target = (w.mobj t2).target)
    ∧ (((w.mobj t1).threshold > 0 ∧ (w.mobj t2).type = mobjtype_t.MT_PLAYER)
      ∨ ((w.mobj t2).type ≠ mobjtype_t.MT_PLAYER ∧ (w.mobj t2).threshold > 0))

/-- The ownership guard of `K_EggItemCollide` (line 142). -/
def eggOwnershipGuard (t1 t2 : Nat) (w : World) : Prop :=
  ((w.mobj t1).target = some t2 ∨ (w.mobj t1).target = (w.mobj t2).target)
    ∧ (w.mobj t1).threshold > 0

/-- The dead-object guard `t1->health <= 0 || t2->health <= 0`. -/
def deadGuard (t1 t2 : Nat) (w : World) : Prop :=
  (w.mobj t1).health ≤ 0 ∨ (w.mobj t2).health ≤ 0

/-- `K_BananaBallhogCollide` with the dead-object guard evaluated before the
ownership guard; a pair that passes both goes on as in the source. -/
def K_BananaBallhogCollide_deadFirst (E : Env) (t1 t2 : Nat) (w : World) : Bool × World :=
  if (w.mobj t1).health ≤ 0 ∨ (w.mobj t2).health ≤ 0 then
    (true, w)
  else if ((w.mobj t1).target = some t2
        ∨ ((w.mobj t2).flags &&& (E.MF_ENEMY ||| E.MF_BOSS) = 0
            ∧ (w.mobj t1).target = (w.mobj t2).target))
      ∧ ((w.mobj t1).threshold > 0
        ∨ ((w.mobj t2).type ≠ mobjtype_t.MT_PLAYER ∧ (w.mobj t2).threshold > 0)) then
    (true, w)
  else
    K_BananaBallhogCollide E t1 t2 w

/-- `K_MineCollide` with the dead-object guard evaluated before the ownership
guard; a pair that passes both goes on as in the source. -/
def K_MineCollide_deadFirst (E : Env) (t1 t2 : Nat) (w : World) : Bool × World :=
  if (w.mobj t1).health ≤ 0 ∨ (w.mobj t2).health ≤ 0 then
    (true, w)
  else if ((w.mobj t1).target = some t2
        ∨ ((w.mobj t2).flags &&& (E.MF_ENEMY ||| E.MF_BOSS) = 0
            ∧ (w.mobj t1).target = (w.mobj t2).target))
      ∧ ((w.mobj t1).threshold > 0
        ∨ ((w.mobj t2).type ≠ mobjtype_t.MT_PLAYER ∧ (w.mobj t2).threshold > 0)) then
    (true, w)
  else
    K_MineCollide E t1 t2 w

/-- `K_LandMineCollide` with the dead-object guard evaluated before the
ownership guard; a pair that passes both goes on as in the source. -/
def K_LandMineCollide_deadFirst (E : Env) (t1 t2 : Nat) (w : World) : Bool × World :=
  if (w.mobj t1).health ≤ 0 ∨ (w.mobj t2).health ≤ 0 then
    (true, w)
  else if ((w.mobj t1).target = some t2
        ∨ ((w.mobj t2).flags &&& (E.MF_ENEMY ||| E.MF_BOSS) = 0
            ∧ (w.mobj t1).target = (w.mobj t2).target))
      ∧ ((w.mobj t1).threshold > 0
        ∨ ((w.mobj t2).type ≠ mobjtype_t.MT_PLAYER ∧ (w.mobj t2).threshold > 0)) then
    (true, w)
  else
    K_LandMineCollide E t1 t2 w

/-- `K_DropTargetCollide` with the dead-object guard evaluated before the
ownership guard; a pair that passes both goes on as in the source. -/
def K_DropTargetCollide_deadFirst (E : Env) (t1 t2 : Nat) (w : World) : Option (Bool × World) :=
  if (w.mobj t1).health ≤ 0 ∨ (w.mobj t2).health ≤ 0 then
    some (true, w)
  else if ((w.mobj t1).target = some t2 ∨ (w.mobj t1).target = (w.mobj t2).target)
      ∧ (((w.mobj t1).threshold > 0 ∧ (w.mobj t2).type = mobjtype_t.MT_PLAYER)
        ∨ ((w.mobj t2).type ≠ mobjtype_t.MT_PLAYER ∧ (w.mobj t2).threshold > 0)) then
    some (true, w)
  else
    K_DropTargetCollide E t1 t2 w

/-- `K_EggItemCollide` with, in its player branch, the dead-object guard
evaluated before the ownership guard; the push out of an item box comes first
as in the source, and a pair that passes both guards goes on as in the
source. -/
def K_EggItemCollide_deadFirst (E : Env) (t1 t2 : Nat) (w : World) : Option (Bool × World) :=
  if (w.mobj t2).type = mobjtype_t.MT_RANDOMITEM ∨ (w.mobj t2).type = mobjtype_t.MT_EGGMANITEM then
    K_EggItemCollide E t1 t2 w
  else
    match (w.mobj t2).player with
    | none => some (true, w)
    | some _ =>
      if (w.mobj t1).health ≤ 0 ∨ (w.mobj t2).health ≤ 0 then
        some (true, w)
      else if ((w.mobj t1).target = some t2 ∨ (w.mobj t1).target = (w.mobj t2).target)
          ∧ (w.mobj t1).threshold > 0 then
        some (true, w)
      else
        K_EggItemCollide E t1 t2 w

/-- A dead banana (object `0`, health `0`) inside its threshold window of 5
tics touches the player who threw it (object `1`): the dead-object guard and
every ownership guard hold at once. -/
def deadOwnBananaWorld : World :=
  sampleWorld [
    { type := mobjtype_t.MT_BANANA, health := 0, threshold := 5, target := some 1 },
    { type := mobjtype_t.MT_PLAYER, health := 1, flags := 4, player := some {} } ]

end KCollide

namespace srb2

/-! ## `StaticVec` (`core/static_vec.hpp`) -/

/-- How a member function of `StaticVec` ends: it returns (`ok`), it throws
`std::length_error` (`length_error`), it accesses the backing array outside
the indices `0..Limit-1`, which is undefined behaviour (`undefined`), or the
iteration bound given to the model of a `while` loop is used up (`fuel`). -/
inductive Outcome (α : Type) where
  | ok (a : α)
  | length_error
  | undefined
  | fuel
  deriving DecidableEq, Repr

/-- Sequencing: the next step runs on the value a step returns. -/
def Outcome.bind {α β : Type} (o : Outcome α) (f : α → Outcome β) : Outcome β :=
  match o with
  | Outcome.ok a => f a
  | Outcome.length_error => Outcome.length_error
  | Outcome.undefined => Outcome.undefined
  | Outcome.fuel => Outcome.fuel

/-- The returned value seen through `f`. -/
def Outcome.map {α β : Type} (f : α → β) (o : Outcome α) : Outcome β :=
  o.bind (fun a => Outcome.ok (f a))

/-- `template <typename T, size_t Limit> class StaticVec`: the backing array
`std::array<T, Limit> arr_` and the element count `size_t size_`.  `T()` is
`default`; copying and moving a `T` both yield the same value. -/
structure StaticVec (T : Type) (Limit : Nat) where
  arr_ : Fin Limit → T
  size_ : Nat

/-- `constexpr StaticVec() {}`: `arr_ {{}}`, `size_ = 0`. -/
def StaticVec.empty {T : Type} {Limit : Nat} [Inhabited T] : StaticVec T Limit :=
  { arr_ := fun _ => default, size_ := 0 }

/-- The write `arr_[i] = x`. -/
def StaticVec.store {T : Type} {Limit : Nat} (v : StaticVec T Limit) (i : Nat) (x : T) :
    Outcome (StaticVec T Limit) :=
  if i < Limit then Outcome.ok { v with arr_ := fun j => if j.val = i then x else v.arr_ j }
  else Outcome.undefined

/-- The read `arr_[i]`. -/
def StaticVec.load {T : Type} {Limit : Nat} (v : StaticVec T Limit) (i : Nat) : Outcome T :=
  if h : i < Limit then Outcome.ok (v.arr_ ⟨i, h⟩) else Outcome.undefined

/-- `void push_back(const T& value) { arr_[size_++] = value; }`. -/
def StaticVec.push_back {T : Type} {Limit : Nat} (v : StaticVec T Limit) (value : T) :
    Outcome (StaticVec T Limit) :=
  (v.store v.size_ value).bind (fun v => Outcome.ok { v with size_ := v.size_ + 1 })

/-- `void pop_back() { arr_[--size_] = T(); }`.  On an empty vector `--size_`
wraps to `SIZE_MAX`, an index outside the array. -/
def StaticVec.pop_back {T : Type} {Limit : Nat} [Inhabited T] (v : StaticVec T Limit) :
    Outcome (StaticVec T Limit) :=
  if v.size_ = 0 then Outcome.undefined
  else StaticVec.store { v with size_ := v.size_ - 1 } (v.size_ - 1) default

/-- A loop `while (cond) body;` run for at most `n` rounds. -/
def whileLoop {S : Type} (cond : S → Bool) (body : S → Outcome S) : Nat → S → Outcome S
  | 0, s => if cond s = true then Outcome.fuel else Outcome.ok s
  | n + 1, s => if cond s = true then (body s).bind (whileLoop cond body n) else Outcome.ok s

/-- `void resize(size_t size, T value = T())`.  Each round of either loop
moves `size_` one step towards `size`, so the distance bounds the rounds. -/
def StaticVec.resize {T : Type} {Limit : Nat} [Inhabited T] (v : StaticVec T Limit) (size : Nat)
    (value : T) : Outcome (StaticVec T Limit) :=
  if size ≥ Limit then
    Outcome.length_error
  else if size = v.size_ then
    Outcome.ok v
  else if size < v.size_ then
    whileLoop (fun v => decide (v.size_ > size)) StaticVec.pop_back (v.size_ - size) v
  else
    whileLoop (fun v => decide (v.size_ < size)) (fun v => v.push_back value) (size - v.size_) v

/-- `void clear() { arr_ = {{}}; size_ = 0; }`. -/
def StaticVec.clear {T : Type} {Limit : Nat} [Inhabited T] (_v : StaticVec T Limit) :
    StaticVec T Limit :=
  { arr_ := fun _ => default, size_ := 0 }

/-- The loop `for (size_t i = size_; i > 0; i--) { arr_[i] = T(); }` of the
assignment operators, entered with `i`. -/
def StaticVec.resetLoop {T : Type} {Limit : Nat} [Inhabited T] :
    Nat → StaticVec T Limit → Outcome (StaticVec T Limit)
  | 0, v => Outcome.ok v
  | i + 1, v => (v.store (i + 1) default).bind (StaticVec.resetLoop i)

/-- The loop `for (size_t i = 0; i < size_; i++) { arr_[i] = rhs.arr_[i]; }`
of the assignment operators, over the remaining values of `i`. -/
def StaticVec.copyLoop {T : Type} {Limit : Nat} (rhs : StaticVec T Limit) :
    List Nat → StaticVec T Limit → Outcome (StaticVec T Limit)
  | [], v => Outcome.ok v
  | i :: rest, v =>
    (rhs.load i).bind (fun x => (v.store i x).bind (StaticVec.copyLoop rhs rest))

/-- `StaticVec& operator=(const StaticVec& rhs)`, for `rhs` another object
than `*this`. -/
def StaticVec.assign {T : Type} {Limit : Nat} [Inhabited T] (lhs rhs : StaticVec T Limit) :
    Outcome (StaticVec T Limit) :=
  (StaticVec.resetLoop lhs.size_ lhs).bind (fun v =>
    let v : StaticVec T Limit := { v with size_ := rhs.size_ }
    StaticVec.copyLoop rhs (List.range v.size_) v)

/-- `StaticVec& operator=(StaticVec&& rhs)`, for `rhs` another object than
`*this`: the result is the pair of `*this` and `rhs` afterwards. -/
def StaticVec.moveAssign {T : Type} {Limit : Nat} [Inhabited T] (lhs rhs : StaticVec T Limit) :
    Outcome (StaticVec T Limit × StaticVec T Limit) :=
  (StaticVec.resetLoop lhs.size_ lhs).bind (fun v =>
    let v : StaticVec T Limit := { v with size_ := rhs.size_ }
    (StaticVec.copyLoop rhs (List.range v.size_) v).bind (fun v =>
      (whileLoop (fun r => decide (r.size_ > 0)) StaticVec.pop_back rhs.size_ rhs).bind
        (fun r => Outcome.ok (v, r))))

/-- The representation invariant: `size_ <= Limit`, and every slot of the
backing array at an index `>= size_` holds `T()`. -/
def StaticVec.valid {T : Type} {Limit : Nat} [Inhabited T] (v : StaticVec T Limit) : Prop :=
  v.size_ ≤ Limit ∧ ∀ i : Fin Limit, v.size_ ≤ i.val → v.arr_ i = default

/-- The vector of capacity `Limit` holding the elements `xs`, the other slots
holding `T()`. -/
def StaticVec.ofList {T : Type} {Limit : Nat} [Inhabited T] (xs : List T) : StaticVec T Limit :=
  { arr_ := fun i => xs.getD i.val default, size_ := xs.length }

/-- The element count and the whole backing array of a vector. -/
def StaticVec.dump {T : Type} {Limit : Nat} (v : StaticVec T Limit) : Nat × List T :=
  (v.size_, List.ofFn v.arr_)

end srb2

namespace KCollide

/-! ## Theorems -/

theorem lor_eq_zero_iff (a b : Nat) : a ||| b = 0 ↔ a = 0 ∧ b = 0 := by
  constructor
  · intro h
    constructor <;> apply Nat.eq_of_testBit_eq <;> intro i <;>
      have hi := congrArg (fun n => Nat.testBit n i) h <;>
      simp [Nat.testBit_or] at hi ⊢ <;> simp [hi]
  · rintro ⟨rfl, rfl⟩
    rfl

theorem and_lor_eq_zero_iff (x a b : Nat) : x &&& (a ||| b) = 0 ↔ x &&& a = 0 ∧ x &&& b = 0 := by
  rw [Nat.and_or_distrib_left, lor_eq_zero_iff]

/-- C1 (no self-damage).  If `t1->threshold > 0` and either `t1->target == t2`,
or `t1->target == t2->target` while `t2` carries neither `MF_ENEMY` nor
`MF_BOSS`, then each of `K_BananaBallhogCollide`, `K_MineCollide` and
`K_LandMineCollide` returns `true` and leaves the world as it was: no
collaborator call is recorded and no field of any object is changed. -/
theorem no_self_damage (E : Env) (t1 t2 : Nat) (w : World)
    (hthreshold : (w.mobj t1).threshold > 0)
    (howner : (w.mobj t1).target = some t2
      ∨ ((w.mobj t1).target = (w.mobj t2).target
          ∧ (w.mobj t2).flags &&& E.MF_ENEMY = 0 ∧ (w.mobj t2).flags &&& E.MF_BOSS = 0)) :
    K_BananaBallhogCollide E t1 t2 w = (true, w)
      ∧ K_MineCollide E t1 t2 w = (true, w)
      ∧ K_LandMineCollide E t1 t2 w = (true, w) := by
  have hguard : ((w.mobj t1).target = some t2
        ∨ ((w.mobj t2).flags &&& (E.MF_ENEMY ||| E.MF_BOSS) = 0
            ∧ (w.mobj t1).target = (w.mobj t2).target))
      ∧ ((w.mobj t1).threshold > 0
        ∨ ((w.mobj t2).type ≠ mobjtype_t.MT_PLAYER ∧ (w.mobj t2).threshold > 0)) := by
    refine ⟨?_, Or.inl hthreshold⟩
    rcases howner with h | ⟨h, he, hb⟩
    · exact Or.inl h
    · exact Or.inr ⟨(and_lor_eq_zero_iff _ _ _).2 ⟨he, hb⟩, h⟩
  refine ⟨?_, ?_, ?_⟩
  · unfold K_BananaBallhogCollide
    rw [if_pos hguard]
  · unfold K_MineCollide
    rw [if_pos hguard]
  · unfold K_LandMineCollide
    rw [if_pos hguard]

/-- The scenario of the specification: a hazard with owner `P1` and
`threshold = 5` overlapping `P1`. -/
theorem no_self_damage_witness :
    ((ownBananaWorld.mobj 0).threshold > 0 ∧ (ownBananaWorld.mobj 0).target = some 1)
      ∧ K_BananaBallhogCollide (sampleEnv []) 0 1 ownBananaWorld = (true, ownBananaWorld)
      ∧ K_MineCollide (sampleEnv []) 0 1 ownBananaWorld = (true, ownBananaWorld)
      ∧ K_LandMineCollide (sampleEnv []) 0 1 ownBananaWorld = (true, ownBananaWorld) :=
  ⟨⟨by decide, by decide⟩, no_self_damage (sampleEnv []) 0 1 ownBananaWorld (by decide) (Or.inl (by decide))⟩

/-- C8 (dead-object guard).  If `t1->health <= 0` or `t2->health <= 0`, each
of `K_BananaBallhogCollide`, `K_MineCollide` and `K_LandMineCollide` returns
`true` and leaves the world as it was, whatever the types, owners, thresholds
and player state of the two objects. -/
theorem dead_object_guard (E : Env) (t1 t2 : Nat) (w : World)
    (hdead : (w.mobj t1).health ≤ 0 ∨ (w.mobj t2).health ≤ 0) :
    K_BananaBallhogCollide E t1 t2 w = (true, w)
      ∧ K_MineCollide E t1 t2 w = (true, w)
      ∧ K_LandMineCollide E t1 t2 w = (true, w) := by
  refine ⟨?_, ?_, ?_⟩
  · unfold K_BananaBallhogCollide
    by_cases hown : ((w.mobj t1).target = some t2
        ∨ ((w.mobj t2).flags &&& (E.MF_ENEMY ||| E.MF_BOSS) = 0
            ∧ (w.mobj t1).target = (w.mobj t2).target))
      ∧ ((w.mobj t1).threshold > 0
        ∨ ((w.mobj t2).type ≠ mobjtype_t.MT_PLAYER ∧ (w.mobj t2).threshold > 0))
    · rw [if_pos hown]
    · rw [if_neg hown, if_pos hdead]
  · unfold K_MineCollide
    by_cases hown : ((w.mobj t1).target = some t2
        ∨ ((w.mobj t2).flags &&& (E.MF_ENEMY ||| E.MF_BOSS) = 0
            ∧ (w.mobj t1).target = (w.mobj t2).target))
      ∧ ((w.mobj t1).threshold > 0
        ∨ ((w.mobj t2).type ≠ mobjtype_t.MT_PLAYER ∧ (w.mobj t2).threshold > 0))
    · rw [if_pos hown]
    · rw [if_neg hown, if_pos hdead]
  · unfold K_LandMineCollide
    by_cases hown : ((w.mobj t1).target = some t2
        ∨ ((w.mobj t2).flags &&& (E.MF_ENEMY ||| E.MF_BOSS) = 0
            ∧ (w.mobj t1).target = (w.mobj t2).target))
      ∧ ((w.mobj t1).threshold > 0
        ∨ ((w.mobj t2).type ≠ mobjtype_t.MT_PLAYER ∧ (w.mobj t2).threshold > 0))
    · rw [if_pos hown]
    · rw [if_neg hown, if_pos hdead]

/-- A dead banana (health `0`) outside its threshold window touching a live
player. -/
theorem dead_object_guard_witness :
    ((flashingPlayerWorld.set 0 { flashingPlayerWorld.mobj 0 with health := 0 }).mobj 0).health ≤ 0
      ∧ K_BananaBallhogCollide (sampleEnv []) 0 1
          (flashingPlayerWorld.set 0 { flashingPlayerWorld.mobj 0 with health := 0 })
        = (true, flashingPlayerWorld.set 0 { flashingPlayerWorld.mobj 0 with health := 0 }) :=
  ⟨by decide,
    (dead_object_guard (sampleEnv []) 0 1
      (flashingPlayerWorld.set 0 { flashingPlayerWorld.mobj 0 with health := 0 })
      (Or.inl (by decide))).1⟩

/-- C9 (mutual destroy).  In `K_BananaBallhogCollide`, for a live pair that
passes the ownership guard and is not a no-op pair, with `t2` a non-player of
type banana, banana shield, orbinaut, orbinaut shield, jawz, jawz shield,
ballhog or gachabom, the handler returns `true` and the calls it makes are
exactly, in this order: the death sound of `t2`, `P_KillMobj` on `t2`, the
upward kick `24*FRACUNIT` and the thrust `16*FRACUNIT` for `t2` along
`K_GetCollideAngle(t1, t2)`, one `MT_ITEMCLASH` spawned at `t2/2 + t1/2`
(coordinate-wise), then the death sound of `t1`, `P_KillMobj` on `t1`, the
upward kick `24*FRACUNIT` and the thrust `16*FRACUNIT` for `t1` along
`K_GetCollideAngle(t2, t1)`.  Values read after the calls made for `t2` are
read from the heap `h` those calls leave. -/
theorem mutual_destroy (E : Env) (t1 t2 : Nat) (w : World)
    (howner : ¬ (((w.mobj t1).target = some t2
        ∨ ((w.mobj t2).flags &&& (E.MF_ENEMY ||| E.MF_BOSS) = 0
            ∧ (w.mobj t1).target = (w.mobj t2).target))
      ∧ ((w.mobj t1).threshold > 0
        ∨ ((w.mobj t2).type ≠ mobjtype_t.MT_PLAYER ∧ (w.mobj t2).threshold > 0))))
    (hlive1 : (w.mobj t1).health > 0) (hlive2 : (w.mobj t2).health > 0)
    (hshields : ¬ (((w.mobj t1).type = mobjtype_t.MT_BANANA_SHIELD
        ∧ (w.mobj t2).type = mobjtype_t.MT_BANANA_SHIELD)
      ∧ (w.mobj t1).target = (w.mobj t2).target))
    (hballhogs : ¬ ((w.mobj t1).type = mobjtype_t.MT_BALLHOG
      ∧ (w.mobj t2).type = mobjtype_t.MT_BALLHOG))
    (hplayer : (w.mobj t2).player = none)
    (htype : (w.mobj t2).type = mobjtype_t.MT_BANANA
      ∨ (w.mobj t2).type = mobjtype_t.MT_BANANA_SHIELD
      ∨ (w.mobj t2).type = mobjtype_t.MT_ORBINAUT
      ∨ (w.mobj t2).type = mobjtype_t.MT_ORBINAUT_SHIELD
      ∨ (w.mobj t2).type = mobjtype_t.MT_JAWZ ∨ (w.mobj t2).type = mobjtype_t.MT_JAWZ_SHIELD
      ∨ (w.mobj t2).type = mobjtype_t.MT_BALLHOG ∨ (w.mobj t2).type = mobjtype_t.MT_GACHABOM) :
    ∃ (other : List Effect) (h : Heap),
      other = [Effect.P_KillMobj t2 (some t1) (some t1) E.DMG_NORMAL,
          Effect.P_SetObjectMomZ t2 (24 * E.FRACUNIT) false,
          Effect.P_InstaThrust t2 (K_GetCollideAngle E (w.mobj t1) (w.mobj t2)) (16 * E.FRACUNIT)]
      ∧ h = heapAfter E other w.mobj
      ∧ (K_BananaBallhogCollide E t1 t2 w).1 = true
      ∧ (K_BananaBallhogCollide E t1 t2 w).2.trace
        = w.trace ++ [Effect.S_StartSound (some t2) (w.mobj t2).info.deathsound] ++ other
          ++ [Effect.P_SpawnMobj (Int.tdiv (h t2).x 2 + Int.tdiv (h t1).x 2)
                (Int.tdiv (h t2).y 2 + Int.tdiv (h t1).y 2)
                (Int.tdiv (h t2).z 2 + Int.tdiv (h t1).z 2) mobjtype_t.MT_ITEMCLASH,
              Effect.S_StartSound (some t1) (h t1).info.deathsound,
              Effect.P_KillMobj t1 (some t2) (some t2) E.DMG_NORMAL,
              Effect.P_SetObjectMomZ t1 (24 * E.FRACUNIT) false,
              Effect.P_InstaThrust t1 (K_GetCollideAngle E (h t2) (h t1)) (16 * E.FRACUNIT)] := by
  refine ⟨_, _, rfl, rfl, ?_, ?_⟩
  · unfold K_BananaBallhogCollide
    rw [if_neg howner, if_neg (by omega), if_neg hshields, if_neg hballhogs, hplayer]
    simp only [if_pos htype, K_BananaBallhogCollide_thisItem, if_true]
  · unfold K_BananaBallhogCollide
    rw [if_neg howner, if_neg (by omega), if_neg hshields, if_neg hballhogs, hplayer]
    simp [if_pos htype, K_BananaBallhogCollide_thisItem, World.emit, World.log, heapAfter]

/-- A banana and an orbinaut of two different throwers destroy each other. -/
theorem mutual_destroy_witness :
    (K_BananaBallhogCollide (sampleEnv []) 0 1 bananaOrbinautWorld).2.trace
      = [Effect.S_StartSound (some 1) (sfxenum_t.sfx_other 0),
          Effect.P_KillMobj 1 (some 0) (some 0) 0,
          Effect.P_SetObjectMomZ 1 (24 * 65536) false,
          Effect.P_InstaThrust 1 0x40000000 (16 * 65536),
          Effect.P_SpawnMobj 11 7 30 mobjtype_t.MT_ITEMCLASH,
          Effect.S_StartSound (some 0) (sfxenum_t.sfx_other 0),
          Effect.P_KillMobj 0 (some 1) (some 1) 0,
          Effect.P_SetObjectMomZ 0 (24 * 65536) false,
          Effect.P_InstaThrust 0 0x40000000 (16 * 65536)] := by
  obtain ⟨other, h, hother, hh, -, htrace⟩ :=
    mutual_destroy (sampleEnv []) 0 1 bananaOrbinautWorld (by decide) (by decide) (by decide)
      (by decide) (by decide) (by decide) (by decide)
  rw [htrace, hh, hother]
  decide

/-- C10, counterexample.  A live banana thrown by a third object touches a
player who is flashing (`flashing = 1`, `hitlag = 0`); the pair passes the
ownership guard.  The claim has the banana destroyed; the handler returns
`true` having made no call at all, so there is no `P_KillMobj` on the banana. -/
theorem protected_player_counterexample :
    ((flashingPlayerWorld.mobj 0).health > 0 ∧ (flashingPlayerWorld.mobj 1).health > 0
      ∧ (flashingPlayerWorld.mobj 0).target ≠ some 1
      ∧ (flashingPlayerWorld.mobj 0).target ≠ (flashingPlayerWorld.mobj 1).target
      ∧ (flashingPlayerWorld.mobj 1).type = mobjtype_t.MT_PLAYER
      ∧ (flashingPlayerWorld.mobj 1).player = some { flashing := 1 })
    ∧ K_BananaBallhogCollide (sampleEnv []) 0 1 flashingPlayerWorld = (true, flashingPlayerWorld)
    ∧ (K_BananaBallhogCollide (sampleEnv []) 0 1 flashingPlayerWorld).2.trace = [] := by
  refine ⟨by decide, ?_, by decide⟩
  unfold K_BananaBallhogCollide
  rw [if_neg (by decide), if_neg (by decide), if_neg (by decide), if_neg (by decide)]
  rfl

/-- C10, amended.  In `K_BananaBallhogCollide`, for a live pair passing the
ownership guard whose `t2` is a player (type `MT_PLAYER` with player state
`p2`): if `t2` is flashing with no hit-lag (`flashing > 0` and `hitlag == 0`)
the handler returns `true` and does nothing, the item is not destroyed; if
`t2` is not in that state and is dashing with the flame shield, the handler
returns `true` and its calls are a banana-snipe sound (only for a banana with
health above 1), the melt sound, then the destruction of `t1` (death sound,
`P_KillMobj`, upward kick, thrust), with no `P_DamageMobj`. -/
theorem protected_player (E : Env) (t1 t2 : Nat) (w : World) (p2 : player_t)
    (howner : ¬ (((w.mobj t1).target = some t2
        ∨ ((w.mobj t2).flags &&& (E.MF_ENEMY ||| E.MF_BOSS) = 0
            ∧ (w.mobj t1).target = (w.mobj t2).target))
      ∧ ((w.mobj t1).threshold > 0
        ∨ ((w.mobj t2).type ≠ mobjtype_t.MT_PLAYER ∧ (w.mobj t2).threshold > 0))))
    (hlive1 : (w.mobj t1).health > 0) (hlive2 : (w.mobj t2).health > 0)
    (htype : (w.mobj t2).type = mobjtype_t.MT_PLAYER)
    (hplayer : (w.mobj t2).player = some p2) :
    (p2.flashing > 0 ∧ (w.mobj t2).hitlag = 0 → K_BananaBallhogCollide E t1 t2 w = (true, w))
    ∧ (¬ (p2.flashing > 0 ∧ (w.mobj t2).hitlag = 0) →
        p2.flamedash ≠ 0 ∧ p2.itemtype = E.KITEM_FLAMESHIELD →
        (K_BananaBallhogCollide E t1 t2 w).1 = true
        ∧ (K_BananaBallhogCollide E t1 t2 w).2.trace
          = w.trace
            ++ (if (w.mobj t1).type = mobjtype_t.MT_BANANA ∧ (w.mobj t1).health > 1
                then [Effect.S_StartSound (some t2) sfxenum_t.sfx_bsnipe] else [])
            ++ [Effect.S_StartSound (some t2) sfxenum_t.sfx_s3k43,
                Effect.S_StartSound (some t1) (w.mobj t1).info.deathsound,
                Effect.P_KillMobj t1 (some t2) (some t2) E.DMG_NORMAL,
                Effect.P_SetObjectMomZ t1 (24 * E.FRACUNIT) false,
                Effect.P_InstaThrust t1 (K_GetCollideAngle E (w.mobj t2) (w.mobj t1))
                  (16 * E.FRACUNIT)]) := by
  have hshields : ¬ (((w.mobj t1).type = mobjtype_t.MT_BANANA_SHIELD
        ∧ (w.mobj t2).type = mobjtype_t.MT_BANANA_SHIELD)
      ∧ (w.mobj t1).target = (w.mobj t2).target) := by
    rw [htype]; simp
  have hballhogs : ¬ ((w.mobj t1).type = mobjtype_t.MT_BALLHOG
      ∧ (w.mobj t2).type = mobjtype_t.MT_BALLHOG) := by
    rw [htype]; simp
  constructor
  · intro hflash
    unfold K_BananaBallhogCollide
    rw [if_neg howner, if_neg (by omega), if_neg hshields, if_neg hballhogs, hplayer]
    simp only [if_pos hflash]
  · intro hflash hdash
    unfold K_BananaBallhogCollide
    rw [if_neg howner, if_neg (by omega), if_neg hshields, if_neg hballhogs, hplayer]
    simp only [if_neg hflash, if_pos hdash, K_BananaBallhogCollide_thisItem, if_true]
    by_cases hsnipe : (w.mobj t1).type = mobjtype_t.MT_BANANA ∧ (w.mobj t1).health > 1
    · simp [if_pos hsnipe, World.emit, World.log]
    · simp [if_neg hsnipe, World.emit, World.log]

/-- A banana melting on a player who dashes with the flame shield: the banana
is destroyed and the player takes no damage. -/
theorem protected_player_witness :
    (K_BananaBallhogCollide (sampleEnv []) 0 1 flameDashWorld).2.trace
      = [Effect.S_StartSound (some 1) sfxenum_t.sfx_s3k43,
          Effect.S_StartSound (some 0) (sfxenum_t.sfx_other 0),
          Effect.P_KillMobj 0 (some 1) (some 1) 0,
          Effect.P_SetObjectMomZ 0 (24 * 65536) false,
          Effect.P_InstaThrust 0 0x40000000 (16 * 65536)] := by
  have h := ((protected_player (sampleEnv []) 0 1 flameDashWorld { flamedash := 1, itemtype := 13 }
    (by decide) (by decide) (by decide) (by decide) (by decide)).2 (by decide) (by decide)).2
  rw [h]
  decide

/-- `PIT_SSMineChecks` lets a candidate through exactly when it passes every
test of the eligibility filter. -/
theorem PIT_SSMineChecks_eq_false_iff (E : Env) (g thing : Nat) (w : World) :
    PIT_SSMineChecks E g thing w = false ↔
      (thing ≠ g ∧ (w.mobj thing).health > 0
        ∧ (w.mobj thing).flags &&& E.MF_SHOOTABLE ≠ 0 ∧ (w.mobj thing).flags &&& E.MF_SCENERY = 0
        ∧ (∀ p, (w.mobj thing).player = some p → p.spectator = false)
        ∧ E.P_AproxDistance
            (E.P_AproxDistance ((w.mobj thing).x - (w.mobj g).x) ((w.mobj thing).y - (w.mobj g).y))
            ((w.mobj thing).z - (w.mobj g).z) ≤ w.explodedist
        ∧ E.P_CheckSight (w.mobj g) (w.mobj thing) = true) := by
  unfold PIT_SSMineChecks
  by_cases h1 : thing = g
  · simp [h1]
  by_cases h2 : (w.mobj thing).health ≤ 0
  · simp [h1, h2]
  by_cases h3 : (w.mobj thing).flags &&& E.MF_SHOOTABLE = 0 ∨ (w.mobj thing).flags &&& E.MF_SCENERY ≠ 0
  · rw [if_neg h1, if_neg h2, if_pos h3]
    simp only [Bool.true_eq_false, false_iff]
    rintro ⟨-, -, hs, hc, -⟩
    rcases h3 with h3 | h3
    · exact hs h3
    · exact h3 hc
  rw [if_neg h1, if_neg h2, if_neg h3]
  push_neg at h3
  have h2' : (w.mobj thing).health > 0 := by omega
  by_cases h4 : (match (w.mobj thing).player with
      | some p => p.spectator
      | none => false) = true
  · rw [if_pos h4]
    simp only [Bool.true_eq_false, false_iff]
    rintro ⟨-, -, -, -, hsp, -⟩
    cases hp : (w.mobj thing).player with
    | none => rw [hp] at h4; exact absurd h4 (by simp)
    | some p =>
      rw [hp] at h4
      have := hsp p hp
      simp only at h4
      rw [this] at h4
      exact absurd h4 (by simp)
  rw [if_neg h4]
  have h4' : ∀ p, (w.mobj thing).player = some p → p.spectator = false := by
    intro p hp
    rw [hp] at h4
    simpa using h4
  by_cases h5 : E.P_AproxDistance
      (E.P_AproxDistance ((w.mobj thing).x - (w.mobj g).x) ((w.mobj thing).y - (w.mobj g).y))
      ((w.mobj thing).z - (w.mobj g).z) > w.explodedist
  · rw [if_pos h5]
    simp only [Bool.true_eq_false, false_iff]
    rintro ⟨-, -, -, -, -, hd, -⟩
    omega
  rw [if_neg h5]
  have h5' : E.P_AproxDistance
      (E.P_AproxDistance ((w.mobj thing).x - (w.mobj g).x) ((w.mobj thing).y - (w.mobj g).y))
      ((w.mobj thing).z - (w.mobj g).z) ≤ w.explodedist := by omega
  cases hs : E.P_CheckSight (w.mobj g) (w.mobj thing)
  · simp
  · simp only [Bool.true_eq_false, if_false, true_iff]
    exact ⟨h1, h2', h3.1, h3.2, h4', h5', trivial⟩

/-- What `PIT_SSMineExplode` does for a valid source `g`: nothing for a
candidate that `PIT_SSMineChecks` rejects, one `P_DamageMobj` otherwise; the
walk continues in both cases. -/
theorem PIT_SSMineExplode_valid (E : Env) (g thing : Nat) (w : World)
    (hgrenade : w.grenade = some g) (hvalid : E.P_MobjWasRemoved (w.mobj g) = false) :
    (PIT_SSMineExplode E thing w).1 = BlockItReturn_t.BMIT_CONTINUE
    ∧ (PIT_SSMineChecks E g thing w = true → (PIT_SSMineExplode E thing w).2 = w)
    ∧ (PIT_SSMineChecks E g thing w = false →
        (PIT_SSMineExplode E thing w).2.trace
          = w.trace ++ [Effect.P_DamageMobj thing (some g) (w.mobj g).target 1
              (if w.explodespin then E.DMG_NORMAL else E.DMG_EXPLODE)]) := by
  unfold PIT_SSMineExplode
  simp only [hgrenade, hvalid, Bool.false_eq_true, if_false]
  cases hc : PIT_SSMineChecks E g thing w
  · simp only [Bool.false_eq_true, if_false, false_implies, true_implies, true_and]
    split_ifs <;> simp [World.emit]
  · simp

/-- C3 (detonation eligibility).  With a valid source `g` in the static
`grenade`, the visitor `PIT_SSMineExplode` always answers continue, and it
makes exactly one call, `P_DamageMobj(thing, grenade, grenade->target, 1, kind)`,
if and only if the candidate is not the source, has `health > 0`, has
`MF_SHOOTABLE` and not `MF_SCENERY`, is not a spectating player, has
`P_AproxDistance(P_AproxDistance(dx, dy), dz) <= explodedist` and is in
sight; a candidate failing one of these leaves the world as it was.  In the
concrete run of `K_MineExplodeAttack` with size 300 units at scale `FRACUNIT`
over candidates at 100, 250, 400 and 300 units, exactly those at 100, 250 and
300 (the boundary) are damaged. -/
theorem detonation_eligibility (E : Env) (g thing : Nat) (w : World)
    (hgrenade : w.grenade = some g) (hvalid : E.P_MobjWasRemoved (w.mobj g) = false) :
    (PIT_SSMineExplode E thing w).1 = BlockItReturn_t.BMIT_CONTINUE
    ∧ ((PIT_SSMineExplode E thing w).2.trace
          = w.trace ++ [Effect.P_DamageMobj thing (some g) (w.mobj g).target 1
              (if w.explodespin then E.DMG_NORMAL else E.DMG_EXPLODE)]
        ↔ (thing ≠ g ∧ (w.mobj thing).health > 0
            ∧ (w.mobj thing).flags &&& E.MF_SHOOTABLE ≠ 0
            ∧ (w.mobj thing).flags &&& E.MF_SCENERY = 0
            ∧ (∀ p, (w.mobj thing).player = some p → p.spectator = false)
            ∧ E.P_AproxDistance
                (E.P_AproxDistance ((w.mobj thing).x - (w.mobj g).x)
                  ((w.mobj thing).y - (w.mobj g).y))
                ((w.mobj thing).z - (w.mobj g).z) ≤ w.explodedist
            ∧ E.P_CheckSight (w.mobj g) (w.mobj thing) = true))
    ∧ (¬ (thing ≠ g ∧ (w.mobj thing).health > 0
            ∧ (w.mobj thing).flags &&& E.MF_SHOOTABLE ≠ 0
            ∧ (w.mobj thing).flags &&& E.MF_SCENERY = 0
            ∧ (∀ p, (w.mobj thing).player = some p → p.spectator = false)
            ∧ E.P_AproxDistance
                (E.P_AproxDistance ((w.mobj thing).x - (w.mobj g).x)
                  ((w.mobj thing).y - (w.mobj g).y))
                ((w.mobj thing).z - (w.mobj g).z) ≤ w.explodedist
            ∧ E.P_CheckSight (w.mobj g) (w.mobj thing) = true)
        → (PIT_SSMineExplode E thing w).2 = w)
    ∧ (K_MineExplodeAttack (sampleEnv [1, 2, 3, 4]) 0 (300 * 65536) false mineWorld).2.explodedist
        = 300 * 65536
    ∧ (K_MineExplodeAttack (sampleEnv [1, 2, 3, 4]) 0 (300 * 65536) false mineWorld).2.trace
        = [Effect.P_DamageMobj 1 (some 0) none 1 2, Effect.P_DamageMobj 2 (some 0) none 1 2,
            Effect.P_DamageMobj 4 (some 0) none 1 2, Effect.Obj_SpawnBrolyKi 0 0] := by
  obtain ⟨hret, hskip, hhit⟩ := PIT_SSMineExplode_valid E g thing w hgrenade hvalid
  rw [← PIT_SSMineChecks_eq_false_iff]
  refine ⟨hret, ⟨?_, hhit⟩, ?_, by decide, by decide⟩
  · intro htrace
    cases hc : PIT_SSMineChecks E g thing w
    · rfl
    · rw [hskip hc] at htrace
      simp at htrace
  · intro hc
    exact hskip (by simpa using hc)

/-- The visitor on the candidate at 100 units of `mineWorld`, with the statics
as `K_MineExplodeAttack` sets them: the candidate is damaged. -/
theorem detonation_eligibility_witness :
    (PIT_SSMineExplode (sampleEnv [1, 2, 3, 4]) 1
        { mineWorld with grenade := some 0, explodedist := 300 * 65536 }).2.trace
      = [Effect.P_DamageMobj 1 (some 0) none 1 2] := by
  have h := (detonation_eligibility (sampleEnv [1, 2, 3, 4]) 0 1
    { mineWorld with grenade := some 0, explodedist := 300 * 65536 } rfl rfl).2.1
  exact h.2 (by decide)

/-- C2, counterexample.  After a first `K_MineExplodeAttack` the mine of
`mineWorld` carries `MF2_DEBRIS` (bit `1024` in `sampleEnv`).  A second call
with the same arguments calls `P_DamageMobj` again on the three candidates in
range: the claim has it apply no damage. -/
theorem detonate_twice_counterexample :
    (detonatedMineWorld.mobj 0).flags2 &&& 1024 ≠ 0
    ∧ detonatedMineWorld.trace
        = [Effect.P_DamageMobj 1 (some 0) none 1 2, Effect.P_DamageMobj 2 (some 0) none 1 2,
            Effect.P_DamageMobj 4 (some 0) none 1 2, Effect.Obj_SpawnBrolyKi 0 0]
    ∧ (K_MineExplodeAttack (sampleEnv [1, 2, 3, 4]) 0 (300 * 65536) false detonatedMineWorld).2.trace
        = detonatedMineWorld.trace
          ++ [Effect.P_DamageMobj 1 (some 0) none 1 2, Effect.P_DamageMobj 2 (some 0) none 1 2,
              Effect.P_DamageMobj 4 (some 0) none 1 2, Effect.Obj_SpawnBrolyKi 0 0] := by
  refine ⟨by decide, by decide, by decide⟩

/-- C2, amended.  For a valid source `g` that carries the spent flag
`MF2_DEBRIS`, the proximity search visitor `PIT_SSMineSearch` answers abort
for every candidate and leaves the world as it was, so the detonation is not
triggered a second time.  The damage visitor `PIT_SSMineExplode` that
`K_MineExplodeAttack` runs does not consult the flag: on a candidate that
passes `PIT_SSMineChecks` it calls `P_DamageMobj` once more. -/
theorem spent_source (E : Env) (g thing : Nat) (w : World)
    (hgrenade : w.grenade = some g) (hvalid : E.P_MobjWasRemoved (w.mobj g) = false)
    (hspent : (w.mobj g).flags2 &&& E.MF2_DEBRIS ≠ 0) :
    PIT_SSMineSearch E thing w = (BlockItReturn_t.BMIT_ABORT, w)
    ∧ (PIT_SSMineChecks E g thing w = false →
        (PIT_SSMineExplode E thing w).2.trace
          = w.trace ++ [Effect.P_DamageMobj thing (some g) (w.mobj g).target 1
              (if w.explodespin then E.DMG_NORMAL else E.DMG_EXPLODE)]) := by
  refine ⟨?_, (PIT_SSMineExplode_valid E g thing w hgrenade hvalid).2.2⟩
  unfold PIT_SSMineSearch
  simp only [hgrenade, hvalid, Bool.false_eq_true, if_false]
  rw [if_pos hspent]

/-- The spent mine of `detonatedMineWorld`: the search aborts on the player at
100 units, the damage visitor hits that player again. -/
theorem spent_source_witness :
    PIT_SSMineSearch (sampleEnv [1, 2, 3, 4]) 1 detonatedMineWorld
      = (BlockItReturn_t.BMIT_ABORT, detonatedMineWorld)
    ∧ (PIT_SSMineExplode (sampleEnv [1, 2, 3, 4]) 1 detonatedMineWorld).2.trace
      = detonatedMineWorld.trace ++ [Effect.P_DamageMobj 1 (some 0) none 1 2] :=
  ⟨(spent_source (sampleEnv [1, 2, 3, 4]) 0 1 detonatedMineWorld (by decide) (by decide)
      (by decide)).1,
    (spent_source (sampleEnv [1, 2, 3, 4]) 0 1 detonatedMineWorld (by decide) (by decide)
      (by decide)).2 (by decide)⟩

/-! ### The player-versus-player touch -/

theorem emitAll_trace (E : Env) (es : List Effect) (w : World) :
    (emitAll E es w).trace = w.trace ++ es := by
  induction es generalizing w with
  | nil => simp [emitAll]
  | cons e es ih =>
    have := ih (w.emit E e)
    simp only [emitAll, List.foldl_cons] at this ⊢
    rw [this]
    simp [World.emit]

theorem emitAll_append (E : Env) (es fs : List Effect) (w : World) :
    emitAll E (es ++ fs) w = emitAll E fs (emitAll E es w) := by
  simp [emitAll, List.foldl_append]

/-- Outside the podium sequence, with both player states present, the handler
is the power clash, else the first one-sided rule, else the ring sting. -/
theorem K_PvPTouchDamage_rules (E : Env) (t1 t2 : Nat) (w : World) (p1 p2 : player_t)
    (hpodium : E.K_PodiumSequence = false)
    (hp1 : (w.mobj t1).player = some p1) (hp2 : (w.mobj t2).player = some p2) :
    K_PvPTouchDamage E t1 t2 w =
      if dominant E (w.mobj t1) (w.mobj t2) p1 = true ∧ dominant E (w.mobj t2) (w.mobj t1) p2 = true
      then some (false, w.emit E (Effect.K_DoPowerClash t1 t2))
      else match pvpChainReference E t1 t2 (w.mobj t1) (w.mobj t2) p1 p2 with
        | some e => some (true, w.emit E e)
        | none => K_PvPTouchDamage_sting E t1 t2 p1 p2 w := by
  unfold K_PvPTouchDamage
  simp only [hpodium, hp1, hp2, Bool.false_eq_true, if_false, beq_true]
  by_cases hdom : dominant E (w.mobj t1) (w.mobj t2) p1 = true
      ∧ dominant E (w.mobj t2) (w.mobj t1) p2 = true
  · rw [if_pos hdom]
    unfold dominant at hdom
    rw [if_pos hdom]
  · rw [if_neg hdom]
    unfold dominant at hdom
    rw [if_neg hdom]
    unfold pvpChainReference K_PvPTouchDamage_stumble
    generalize decide (p1.invincibilitytimer > 0) = i1
    generalize decide (p2.invincibilitytimer > 0) = i2
    generalize (decide (p1.flamedash > 0) && decide (p1.itemtype = E.KITEM_FLAMESHIELD)) = f1
    generalize (decide (p2.flamedash > 0) && decide (p2.itemtype = E.KITEM_FLAMESHIELD)) = f2
    generalize (decide (p1.sneakertimer > 0) && !E.P_PlayerInPain p1 && decide (p1.flashing = 0)) = s1
    generalize (decide (p2.sneakertimer > 0) && !E.P_PlayerInPain p2 && decide (p2.flashing = 0)) = s2
    generalize E.K_IsBigger (w.mobj t1) (w.mobj t2) = b1
    generalize E.K_IsBigger (w.mobj t2) (w.mobj t1) = b2
    by_cases hg : E.gametyperules &&& E.GTR_BUMPERS ≠ 0
    · simp only [hg, if_true, ne_eq, not_false_eq_true]
      cases i1 <;> cases i2 <;> simp [oneSided] <;>
        cases f1 <;> cases f2 <;> simp <;>
        cases s1 <;> cases s2 <;> simp <;>
        cases b1 <;> cases b2 <;> simp
    · simp only [hg, if_false, ne_eq, not_false_eq_true]
      cases i1 <;> cases i2 <;> simp [oneSided] <;>
        cases f1 <;> cases f2 <;> simp <;>
        cases b1 <;> cases b2 <;> simp

/-- The ring sting, when the calls made for `t2` leave the ring count of `t1`
as it was: both sides get their calls, computed from the player states on
entry. -/
theorem K_PvPTouchDamage_sting_eq (E : Env) (t1 t2 : Nat) (p1 p2 : player_t) (w : World)
    (hq : ((emitAll E (stingCalls E t2 t1 p2) w).mobj t1).player.map (fun p => p.rings)
      = some p1.rings) :
    K_PvPTouchDamage_sting E t1 t2 p1 p2 w
      = some (isStung E p1 || isStung E p2,
          clearDamageHitlag E (noHitlagSide E t1 t2 p1 p2)
            (emitAll E (stingCalls E t2 t1 p2 ++ stingCalls E t1 t2 p1) w)) := by
  have hw : (if E.K_GetShieldFromItem p2.itemtype = E.KSHIELD_NONE then
        World.emit E (Effect.P_PlayerRingBurst t2 1)
          (if p2.rings ≤ 0 then
            w.emit E (Effect.P_DamageMobj t2 (some t1) (some t1) 1 (E.DMG_STING ||| E.DMG_WOMBO))
          else w)
      else w) = emitAll E (stingCalls E t2 t1 p2) w := by
    unfold stingCalls emitAll
    split_ifs <;> rfl
  obtain ⟨q1, hq1, hr⟩ : ∃ q1, ((emitAll E (stingCalls E t2 t1 p2) w).mobj t1).player = some q1
      ∧ q1.rings = p1.rings := by
    cases hpl : ((emitAll E (stingCalls E t2 t1 p2) w).mobj t1).player with
    | none => rw [hpl] at hq; simp at hq
    | some q1 => rw [hpl] at hq; exact ⟨q1, rfl, by simpa using hq⟩
  unfold K_PvPTouchDamage_sting
  simp only [decide_eq_true_eq, hw, hq1, hr]
  rw [emitAll_append]
  generalize emitAll E (stingCalls E t2 t1 p2) w = w2
  unfold noHitlagSide isStung stingCalls clearDamageHitlag emitAll
  by_cases a1 : E.K_GetShieldFromItem p1.itemtype = E.KSHIELD_NONE <;>
    by_cases a2 : E.K_GetShieldFromItem p2.itemtype = E.KSHIELD_NONE <;>
    by_cases r1 : p1.rings ≤ 0 <;>
    by_cases r2 : p2.rings ≤ 0 <;>
    simp [a1, a2, r1, r2]

/-- Under the frame condition the calls made for one side leave the ring
count of the other side as it was. -/
theorem stingCalls_rings (E : Env) (hframe : RingsFrame E) (s o : Nat) (p : player_t)
    (w : World) (hne : o ≠ s) :
    ((emitAll E (stingCalls E s o p) w).mobj o).player.map (fun p => p.rings)
      = (w.mobj o).player.map (fun p => p.rings) := by
  unfold stingCalls emitAll
  split_ifs
  · simp only [List.singleton_append, List.foldl_cons, List.foldl_nil, World.emit]
    rw [hframe.2 _ _ _ _ hne, hframe.1 _ _ _ _ _ _ _ hne]
  · simp only [List.nil_append, List.foldl_cons, List.foldl_nil, World.emit]
    rw [hframe.2 _ _ _ _ hne]
  · rfl

theorem lor_and_eq_zero (a b c : Nat) (ha : a &&& c = 0) (hb : b &&& c = 0) :
    (a ||| b) &&& c = 0 := by
  rw [Nat.and_comm, and_lor_eq_zero_iff, Nat.and_comm c a, Nat.and_comm c b]
  exact ⟨ha, hb⟩

/-- The calls of the ring sting, whenever it returns: sting damages and ring
bursts only. -/
theorem K_PvPTouchDamage_sting_trace (E : Env) (t1 t2 : Nat) (p1 p2 : player_t) (w : World)
    (r : Bool × World) (hr : K_PvPTouchDamage_sting E t1 t2 p1 p2 w = some r) :
    ∃ l, r.2.trace = w.trace ++ l
      ∧ ∀ e ∈ l, e.damageKind = none ∨ e.damageKind = some (E.DMG_STING ||| E.DMG_WOMBO) := by
  unfold K_PvPTouchDamage_sting at hr
  simp only [decide_eq_true_eq] at hr
  by_cases a2 : E.K_GetShieldFromItem p2.itemtype = E.KSHIELD_NONE <;>
    by_cases a1 : E.K_GetShieldFromItem p1.itemtype = E.KSHIELD_NONE <;>
    by_cases r2 : p2.rings ≤ 0 <;>
    simp only [a1, a2, r2, if_true, if_false] at hr
  all_goals first
    | (split at hr
       · exact absurd hr (by simp)
       · rename_i stungT1 w1 hside
         split at hside
         · exact absurd hside (by simp)
         · rename_i q1 hq1
           simp only [Option.some.injEq, Prod.mk.injEq] at hside hr
           obtain ⟨-, rfl⟩ := hside
           obtain rfl := hr
           by_cases r1 : q1.rings ≤ 0 <;>
             simp [r1, World.emit, World.set, Effect.damageKind, Bool.and_eq_true] <;>
             split_ifs <;> simp [Effect.damageKind])
    | (simp only [Option.some.injEq] at hr
       obtain rfl := hr
       simp [World.emit, World.set, Effect.damageKind])

/-- C4 (power clash).  Outside the podium sequence, when both players are
dominant, `K_PvPTouchDamage` makes exactly one call, `K_DoPowerClash` on the
two players, and returns `false`: no `P_DamageMobj`, no `K_StumblePlayer` and
no `P_PlayerRingBurst` is made on either side. -/
theorem power_clash (E : Env) (t1 t2 : Nat) (w : World) (p1 p2 : player_t)
    (hpodium : E.K_PodiumSequence = false)
    (hp1 : (w.mobj t1).player = some p1) (hp2 : (w.mobj t2).player = some p2)
    (hdom1 : dominant E (w.mobj t1) (w.mobj t2) p1 = true)
    (hdom2 : dominant E (w.mobj t2) (w.mobj t1) p2 = true) :
    K_PvPTouchDamage E t1 t2 w = some (false, w.emit E (Effect.K_DoPowerClash t1 t2))
    ∧ (w.emit E (Effect.K_DoPowerClash t1 t2)).trace = w.trace ++ [Effect.K_DoPowerClash t1 t2] := by
  refine ⟨?_, rfl⟩
  rw [K_PvPTouchDamage_rules E t1 t2 w p1 p2 hpodium hp1 hp2, if_pos ⟨hdom1, hdom2⟩]

/-- Two invincible players touch: the only call is the power clash. -/
theorem power_clash_witness :
    K_PvPTouchDamage (sampleEnv []) 0 1 clashWorld
      = some (false, clashWorld.emit (sampleEnv []) (Effect.K_DoPowerClash 0 1))
    ∧ (clashWorld.emit (sampleEnv []) (Effect.K_DoPowerClash 0 1)).trace
      = [Effect.K_DoPowerClash 0 1] :=
  power_clash (sampleEnv []) 0 1 clashWorld { invincibilitytimer := 10 } { invincibilitytimer := 5 }
    (by decide) (by decide) (by decide) (by decide) (by decide)

/-- C5 (ordered first-match chain).  Outside the podium sequence, when not
both players are dominant: whenever the reference chain (tumble for a
one-sided invincibility, else wipeout for a one-sided flame dash, else, under
`GTR_BUMPERS`, stealing wipeout for a one-sided sneaker boost, else stumble
for a one-sided size advantage) yields a call `e`, `K_PvPTouchDamage` returns
`true` having made exactly the call `e`.  When `GTR_BUMPERS` is unset, and the
damage kinds `DMG_TUMBLE`, `DMG_WIPEOUT`, `DMG_STING`, `DMG_WOMBO` do not
contain the bit `DMG_STEAL`, no `P_DamageMobj` made by the handler carries
`DMG_STEAL`. -/
theorem ordered_chain (E : Env) (t1 t2 : Nat) (w : World) (p1 p2 : player_t)
    (hpodium : E.K_PodiumSequence = false)
    (hp1 : (w.mobj t1).player = some p1) (hp2 : (w.mobj t2).player = some p2)
    (hnotboth : ¬ (dominant E (w.mobj t1) (w.mobj t2) p1 = true
      ∧ dominant E (w.mobj t2) (w.mobj t1) p2 = true)) :
    (∀ e, pvpChainReference E t1 t2 (w.mobj t1) (w.mobj t2) p1 p2 = some e →
        K_PvPTouchDamage E t1 t2 w = some (true, w.emit E e)
        ∧ (w.emit E e).trace = w.trace ++ [e])
    ∧ (E.gametyperules &&& E.GTR_BUMPERS = 0 →
        E.DMG_TUMBLE &&& E.DMG_STEAL = 0 → E.DMG_WIPEOUT &&& E.DMG_STEAL = 0 →
        E.DMG_STING &&& E.DMG_STEAL = 0 → E.DMG_WOMBO &&& E.DMG_STEAL = 0 →
        ∀ r, K_PvPTouchDamage E t1 t2 w = some r →
          ∃ l, r.2.trace = w.trace ++ l
            ∧ ∀ e ∈ l, ∀ kind, e.damageKind = some kind → kind &&& E.DMG_STEAL = 0) := by
  have hrules := K_PvPTouchDamage_rules E t1 t2 w p1 p2 hpodium hp1 hp2
  rw [if_neg hnotboth] at hrules
  constructor
  · intro e he
    rw [hrules, he]
    exact ⟨rfl, rfl⟩
  · intro hgate htumble hwipeout hsting hwombo r hr
    rw [hrules] at hr
    cases href : pvpChainReference E t1 t2 (w.mobj t1) (w.mobj t2) p1 p2 with
    | none =>
      rw [href] at hr
      obtain ⟨l, hl, hkinds⟩ := K_PvPTouchDamage_sting_trace E t1 t2 p1 p2 w r hr
      refine ⟨l, hl, ?_⟩
      intro e he kind hkind
      rcases hkinds e he with h | h
      · rw [h] at hkind
        exact absurd hkind (by simp)
      · rw [h] at hkind
        obtain rfl := Option.some.inj hkind
        exact lor_and_eq_zero _ _ _ hsting hwombo
    | some e =>
      rw [href] at hr
      obtain rfl := Option.some.inj hr
      refine ⟨[e], rfl, ?_⟩
      intro e' he' kind hkind
      obtain rfl := List.mem_singleton.1 he'
      unfold pvpChainReference at href
      rw [if_neg (by simpa using hgate)] at href
      revert href
      cases oneSided (decide (p1.invincibilitytimer > 0)) (decide (p2.invincibilitytimer > 0)) t1 t2 with
      | some ab =>
        intro href
        obtain rfl := Option.some.inj href
        obtain rfl := Option.some.inj hkind
        exact htumble
      | none =>
        cases oneSided (decide (p1.flamedash > 0) && decide (p1.itemtype = E.KITEM_FLAMESHIELD))
          (decide (p2.flamedash > 0) && decide (p2.itemtype = E.KITEM_FLAMESHIELD)) t1 t2 with
        | some ab =>
          intro href
          obtain rfl := Option.some.inj href
          obtain rfl := Option.some.inj hkind
          exact lor_and_eq_zero _ _ _ hwipeout hwombo
        | none =>
          cases oneSided (E.K_IsBigger (w.mobj t1) (w.mobj t2)) (E.K_IsBigger (w.mobj t2) (w.mobj t1))
            t1 t2 with
          | some ab =>
            intro href
            obtain rfl := Option.some.inj href
            exact absurd hkind (by simp [Effect.damageKind])
          | none =>
            intro href
            exact absurd href (by simp)

/-- An invincible player touches a plain one: the chain stops at its first
rule, the plain player is tumbled, and that is the only call. -/
theorem ordered_chain_witness :
    (K_PvPTouchDamage (sampleEnv []) 0 1 tumbleWorld
        = some (true, tumbleWorld.emit (sampleEnv []) (Effect.P_DamageMobj 1 (some 0) (some 0) 1 3))
      ∧ (tumbleWorld.emit (sampleEnv []) (Effect.P_DamageMobj 1 (some 0) (some 0) 1 3)).trace
        = [Effect.P_DamageMobj 1 (some 0) (some 0) 1 3])
    ∧ (∀ r, K_PvPTouchDamage (sampleEnv []) 0 1 tumbleWorld = some r →
        ∃ l, r.2.trace = tumbleWorld.trace ++ l
          ∧ ∀ e ∈ l, ∀ kind, e.damageKind = some kind → kind &&& 0x10000000 = 0) :=
  ⟨(ordered_chain (sampleEnv []) 0 1 tumbleWorld { invincibilitytimer := 10 } {}
      (by decide) (by decide) (by decide) (by decide)).1 _ (by decide),
    (ordered_chain (sampleEnv []) 0 1 tumbleWorld { invincibilitytimer := 10 } {}
      (by decide) (by decide) (by decide) (by decide)).2 (by decide) (by decide) (by decide)
      (by decide) (by decide)⟩

theorem oneSided_eq_none (c1 c2 : Bool) (t1 t2 : Nat) (h : c1 = c2) : oneSided c1 c2 t1 t2 = none := by
  subst h
  cases c1 <;> simp [oneSided]

theorem oneSided_swap (c1 c2 : Bool) (t1 t2 : Nat) : oneSided c2 c1 t2 t1 = oneSided c1 c2 t1 t2 := by
  cases c1 <;> cases c2 <;> simp [oneSided]

theorem sampleEnv_ringsFrame (things : List Nat) : RingsFrame (sampleEnv things) :=
  ⟨fun _ _ _ _ _ _ _ _ => rfl, fun _ _ _ _ _ => rfl⟩

/-- C7, counterexample.  In the podium sequence two plain players of the same
size touch; none of the rules 1 to 5 fires (nobody is dominant, invincible,
dashing, boosting or bigger) and neither player carries an item, the first
has no rings.  The claim has both sides receive a ring burst and the first a
sting; the handler returns `false` at once and makes no call. -/
theorem ring_sting_counterexample :
    (podiumEnv.K_PodiumSequence = true
      ∧ (stingWorld.mobj 0).player = some { rings := 0 }
      ∧ (stingWorld.mobj 1).player = some { rings := 5 }
      ∧ dominant podiumEnv (stingWorld.mobj 0) (stingWorld.mobj 1) { rings := 0 } = false
      ∧ dominant podiumEnv (stingWorld.mobj 1) (stingWorld.mobj 0) { rings := 5 } = false
      ∧ pvpChainReference podiumEnv 0 1 (stingWorld.mobj 0) (stingWorld.mobj 1)
          { rings := 0 } { rings := 5 } = none
      ∧ podiumEnv.K_GetShieldFromItem 0 = podiumEnv.KSHIELD_NONE)
    ∧ K_PvPTouchDamage podiumEnv 0 1 stingWorld = some (false, stingWorld)
    ∧ stingWorld.trace = [] := by
  refine ⟨by decide, ?_, rfl⟩
  unfold K_PvPTouchDamage
  rw [if_pos (by decide)]

/-- C7, amended (ring sting outside the podium sequence).  Let the
collaborators satisfy the frame condition `RingsFrame`, and let two distinct
players touch outside the podium sequence so that none of the rules 1 to 5
fires: not both are dominant, and
invincibility, flame dash, sneaker boost (under `GTR_BUMPERS`) and size
advantage each hold for both sides or for neither.  Then `K_PvPTouchDamage`
returns, and its calls are those for `t2` followed by those for `t1`, each
side on its own: a side whose item type maps to `KSHIELD_NONE` gets
`P_DamageMobj(side, other, other, 1, DMG_STING|DMG_WOMBO)` exactly when its
rings are `<= 0`, and then `P_PlayerRingBurst` of 1 ring; a side whose item
type maps to a shield gets no call. -/
theorem ring_sting (E : Env) (t1 t2 : Nat) (w : World) (p1 p2 : player_t)
    (hframe : RingsFrame E) (hne : t1 ≠ t2)
    (hpodium : E.K_PodiumSequence = false)
    (hp1 : (w.mobj t1).player = some p1) (hp2 : (w.mobj t2).player = some p2)
    (hclash : ¬ (dominant E (w.mobj t1) (w.mobj t2) p1 = true
      ∧ dominant E (w.mobj t2) (w.mobj t1) p2 = true))
    (hinv : p1.invincibilitytimer > 0 ↔ p2.invincibilitytimer > 0)
    (hflame : (p1.flamedash > 0 ∧ p1.itemtype = E.KITEM_FLAMESHIELD)
      ↔ (p2.flamedash > 0 ∧ p2.itemtype = E.KITEM_FLAMESHIELD))
    (hsneaker : E.gametyperules &&& E.GTR_BUMPERS ≠ 0 →
      ((p1.sneakertimer > 0 ∧ E.P_PlayerInPain p1 = false ∧ p1.flashing = 0)
        ↔ (p2.sneakertimer > 0 ∧ E.P_PlayerInPain p2 = false ∧ p2.flashing = 0)))
    (hsize : E.K_IsBigger (w.mobj t1) (w.mobj t2) = E.K_IsBigger (w.mobj t2) (w.mobj t1)) :
    ∃ w', K_PvPTouchDamage E t1 t2 w = some (isStung E p1 || isStung E p2, w')
      ∧ w'.trace = w.trace ++ stingCalls E t2 t1 p2 ++ stingCalls E t1 t2 p1
      ∧ stingCalls E t2 t1 p2
          = (if E.K_GetShieldFromItem p2.itemtype = E.KSHIELD_NONE then
              (if p2.rings ≤ 0
                then [Effect.P_DamageMobj t2 (some t1) (some t1) 1 (E.DMG_STING ||| E.DMG_WOMBO)]
                else [])
              ++ [Effect.P_PlayerRingBurst t2 1]
            else [])
      ∧ stingCalls E t1 t2 p1
          = (if E.K_GetShieldFromItem p1.itemtype = E.KSHIELD_NONE then
              (if p1.rings ≤ 0
                then [Effect.P_DamageMobj t1 (some t2) (some t2) 1 (E.DMG_STING ||| E.DMG_WOMBO)]
                else [])
              ++ [Effect.P_PlayerRingBurst t1 1]
            else []) := by
  have href : pvpChainReference E t1 t2 (w.mobj t1) (w.mobj t2) p1 p2 = none := by
    unfold pvpChainReference
    rw [oneSided_eq_none _ _ _ _ (by simpa using hinv),
      oneSided_eq_none _ _ _ _ (by
        rw [Bool.eq_iff_iff]; simpa using hflame),
      oneSided_eq_none _ _ _ _ hsize]
    by_cases hg : E.gametyperules &&& E.GTR_BUMPERS ≠ 0
    · rw [if_pos hg, oneSided_eq_none _ _ _ _ (by
        rw [Bool.eq_iff_iff]; simpa [and_assoc] using hsneaker hg)]
    · rw [if_neg hg]
  have hq := stingCalls_rings E hframe t2 t1 p2 w hne
  rw [hp1] at hq
  refine ⟨clearDamageHitlag E (noHitlagSide E t1 t2 p1 p2)
    (emitAll E (stingCalls E t2 t1 p2 ++ stingCalls E t1 t2 p1) w), ?_, ?_, rfl, rfl⟩
  · rw [K_PvPTouchDamage_rules E t1 t2 w p1 p2 hpodium hp1 hp2, if_neg hclash, href]
    exact K_PvPTouchDamage_sting_eq E t1 t2 p1 p2 w hq
  · unfold clearDamageHitlag
    split
    · rw [emitAll_trace, List.append_assoc]
    · simp only [World.set]
      rw [emitAll_trace, List.append_assoc]

/-- Two plain players touch; the first has no rings.  The second loses a ring,
the first is stung and its rings are burst. -/
theorem ring_sting_witness :
    ∃ w', K_PvPTouchDamage (sampleEnv []) 0 1 stingWorld = some (true, w')
      ∧ w'.trace = [Effect.P_PlayerRingBurst 1 1,
          Effect.P_DamageMobj 0 (some 1) (some 1) 1 (4 ||| 0x40000000),
          Effect.P_PlayerRingBurst 0 1] := by
  obtain ⟨w', hres, htrace, -, -⟩ :=
    ring_sting (sampleEnv []) 0 1 stingWorld { rings := 0 } { rings := 5 }
      (sampleEnv_ringsFrame []) (by decide) (by decide) (by decide) (by decide) (by decide)
      (by decide) (by decide) (by decide) (by decide)
  exact ⟨w', hres, htrace⟩

theorem Effect.mirror_mirror (e : Effect) : e.mirror.mirror = e := by
  cases e <;> rfl

theorem Effect.mirror_eq_iff (e e' : Effect) : e.mirror = e' ↔ e = e'.mirror := by
  constructor
  · intro h
    rw [← h, Effect.mirror_mirror]
  · intro h
    rw [h, Effect.mirror_mirror]

theorem pvpChainReference_swap (E : Env) (t1 t2 : Nat) (m1 m2 : mobj_t) (p1 p2 : player_t) :
    pvpChainReference E t2 t1 m2 m1 p2 p1 = pvpChainReference E t1 t2 m1 m2 p1 p2 := by
  unfold pvpChainReference
  rw [oneSided_swap (decide (p1.invincibilitytimer > 0)) (decide (p2.invincibilitytimer > 0)),
    oneSided_swap (decide (p1.flamedash > 0) && decide (p1.itemtype = E.KITEM_FLAMESHIELD))
      (decide (p2.flamedash > 0) && decide (p2.itemtype = E.KITEM_FLAMESHIELD)),
    oneSided_swap (decide (p1.sneakertimer > 0) && !E.P_PlayerInPain p1 && decide (p1.flashing = 0))
      (decide (p2.sneakertimer > 0) && !E.P_PlayerInPain p2 && decide (p2.flashing = 0)),
    oneSided_swap (E.K_IsBigger m1 m2) (E.K_IsBigger m2 m1)]

theorem pvpChainReference_mirror (E : Env) (t1 t2 : Nat) (m1 m2 : mobj_t) (p1 p2 : player_t)
    (e : Effect) (he : pvpChainReference E t1 t2 m1 m2 p1 p2 = some e) : e.mirror = e := by
  unfold pvpChainReference at he
  revert he
  cases oneSided (decide (p1.invincibilitytimer > 0)) (decide (p2.invincibilitytimer > 0)) t1 t2 with
  | some ab => intro he; obtain rfl := Option.some.inj he; rfl
  | none =>
    cases oneSided (decide (p1.flamedash > 0) && decide (p1.itemtype = E.KITEM_FLAMESHIELD))
      (decide (p2.flamedash > 0) && decide (p2.itemtype = E.KITEM_FLAMESHIELD)) t1 t2 with
    | some ab => intro he; obtain rfl := Option.some.inj he; rfl
    | none =>
      cases (if E.gametyperules &&& E.GTR_BUMPERS ≠ 0 then
          oneSided (decide (p1.sneakertimer > 0) && !E.P_PlayerInPain p1 && decide (p1.flashing = 0))
            (decide (p2.sneakertimer > 0) && !E.P_PlayerInPain p2 && decide (p2.flashing = 0)) t1 t2
          else none) with
      | some ab => intro he; obtain rfl := Option.some.inj he; rfl
      | none =>
        cases oneSided (E.K_IsBigger m1 m2) (E.K_IsBigger m2 m1) t1 t2 with
        | some ab => intro he; obtain rfl := Option.some.inj he; rfl
        | none => intro he; exact absurd he (by simp)

theorem mem_stingCalls_mirror (E : Env) (s o : Nat) (p : player_t) (e : Effect) :
    e.mirror ∈ stingCalls E s o p ↔ e ∈ stingCalls E s o p := by
  unfold stingCalls
  split_ifs <;> cases e <;> simp [Effect.mirror]

theorem noHitlagSide_swap (E : Env) (t1 t2 : Nat) (p1 p2 : player_t) :
    noHitlagSide E t2 t1 p2 p1 = noHitlagSide E t1 t2 p1 p2 := by
  unfold noHitlagSide
  cases isStung E p1 <;> cases isStung E p2 <;> simp

/-- C6 (mirror symmetry).  Let the collaborators satisfy the frame condition
`RingsFrame` and let `t1`, `t2` be two distinct players.  For the same
environment (mode flags included), `K_PvPTouchDamage(t1, t2)` and
`K_PvPTouchDamage(t2, t1)` return the same boolean `b`; each run consists of
collaborator calls (`la`, respectively `lb`) followed by the clearing of
`MFE_DAMAGEHITLAG` on the same object `c` (or on none); and the two runs make
the same calls, up to their order and up to the order in which
`K_DoPowerClash` names the two players: damage with its kind, stumble and ring
burst fall on the same player in both runs. -/
theorem pvp_mirror (E : Env) (t1 t2 : Nat) (w : World) (p1 p2 : player_t)
    (hframe : RingsFrame E) (hne : t1 ≠ t2)
    (hp1 : (w.mobj t1).player = some p1) (hp2 : (w.mobj t2).player = some p2) :
    ∃ (b : Bool) (c : Option Nat) (la lb : List Effect),
      K_PvPTouchDamage E t1 t2 w = some (b, clearDamageHitlag E c (emitAll E la w))
      ∧ K_PvPTouchDamage E t2 t1 w = some (b, clearDamageHitlag E c (emitAll E lb w))
      ∧ ∀ e, e ∈ lb ↔ e.mirror ∈ la := by
  cases hpodium : E.K_PodiumSequence with
  | true =>
    refine ⟨false, none, [], [], ?_, ?_, by simp⟩
    · unfold K_PvPTouchDamage
      rw [if_pos hpodium]
      rfl
    · unfold K_PvPTouchDamage
      rw [if_pos hpodium]
      rfl
  | false =>
    rw [K_PvPTouchDamage_rules E t1 t2 w p1 p2 hpodium hp1 hp2,
      K_PvPTouchDamage_rules E t2 t1 w p2 p1 hpodium hp2 hp1,
      pvpChainReference_swap E t1 t2 (w.mobj t1) (w.mobj t2) p1 p2]
    by_cases hdom : dominant E (w.mobj t1) (w.mobj t2) p1 = true
        ∧ dominant E (w.mobj t2) (w.mobj t1) p2 = true
    · rw [if_pos hdom, if_pos hdom.symm]
      refine ⟨false, none, [Effect.K_DoPowerClash t1 t2], [Effect.K_DoPowerClash t2 t1],
        rfl, rfl, ?_⟩
      intro e
      rw [List.mem_singleton, List.mem_singleton, Effect.mirror_eq_iff]
      rfl
    · rw [if_neg hdom, if_neg (fun h => hdom h.symm)]
      cases href : pvpChainReference E t1 t2 (w.mobj t1) (w.mobj t2) p1 p2 with
      | some e0 =>
        refine ⟨true, none, [e0], [e0], rfl, rfl, ?_⟩
        intro e
        rw [List.mem_singleton, List.mem_singleton, Effect.mirror_eq_iff,
          pvpChainReference_mirror E t1 t2 (w.mobj t1) (w.mobj t2) p1 p2 e0 href]
      | none =>
        have hq1 := stingCalls_rings E hframe t2 t1 p2 w hne
        have hq2 := stingCalls_rings E hframe t1 t2 p1 w (Ne.symm hne)
        rw [hp1] at hq1
        rw [hp2] at hq2
        refine ⟨isStung E p1 || isStung E p2, noHitlagSide E t1 t2 p1 p2,
          stingCalls E t2 t1 p2 ++ stingCalls E t1 t2 p1,
          stingCalls E t1 t2 p1 ++ stingCalls E t2 t1 p2, ?_, ?_, ?_⟩
        · exact K_PvPTouchDamage_sting_eq E t1 t2 p1 p2 w hq1
        · show K_PvPTouchDamage_sting E t2 t1 p2 p1 w = _
          rw [K_PvPTouchDamage_sting_eq E t2 t1 p2 p1 w hq2, noHitlagSide_swap, Bool.or_comm]
        · intro e
          rw [List.mem_append, List.mem_append, mem_stingCalls_mirror, mem_stingCalls_mirror]
          exact Or.comm

/-- The touch of `stingWorld`, run both ways round: the same player is stung
in both runs, the same boolean is returned. -/
theorem pvp_mirror_witness :
    ∃ (b : Bool) (c : Option Nat) (la lb : List Effect),
      K_PvPTouchDamage (sampleEnv []) 0 1 stingWorld
        = some (b, clearDamageHitlag (sampleEnv []) c (emitAll (sampleEnv []) la stingWorld))
      ∧ K_PvPTouchDamage (sampleEnv []) 1 0 stingWorld
        = some (b, clearDamageHitlag (sampleEnv []) c (emitAll (sampleEnv []) lb stingWorld))
      ∧ ∀ e, e ∈ lb ↔ e.mirror ∈ la :=
  pvp_mirror (sampleEnv []) 0 1 stingWorld { rings := 0 } { rings := 5 }
    (sampleEnv_ringsFrame []) (by decide) (by decide) (by decide)

/-! ### The deflection angle -/

/-- C20, counterexample.  The banana of `bananaOrbinautWorld` does not carry
`MF_PAPERCOLLISION`; the straight bearing to the orbinaut is `0` in
`sampleEnv`, and `K_GetCollideAngle` returns `ANGLE_90 = 0x40000000`. -/
theorem collide_angle_counterexample :
    (bananaOrbinautWorld.mobj 0).flags &&& (sampleEnv []).MF_PAPERCOLLISION = 0
    ∧ angle_t ((sampleEnv []).R_PointToAngle2 (bananaOrbinautWorld.mobj 0).x
        (bananaOrbinautWorld.mobj 0).y (bananaOrbinautWorld.mobj 1).x
        (bananaOrbinautWorld.mobj 1).y) = 0
    ∧ K_GetCollideAngle (sampleEnv []) (bananaOrbinautWorld.mobj 0) (bananaOrbinautWorld.mobj 1)
        = 0x40000000 := by
  decide

/-- C20, amended.  For every `t1` that does not carry `MF_PAPERCOLLISION` and
every `t2`, `K_GetCollideAngle(t1, t2)` is the straight bearing from `t1` to
`t2` turned by a right angle: `R_PointToAngle2(t1.x, t1.y, t2.x, t2.y) +
ANGLE_90` as a 32-bit angle. -/
theorem collide_angle_no_paper (E : Env) (t1 t2 : mobj_t)
    (hpaper : t1.flags &&& E.MF_PAPERCOLLISION = 0) :
    K_GetCollideAngle E t1 t2 = (E.R_PointToAngle2 t1.x t1.y t2.x t2.y + E.ANGLE_90) % 2 ^ 32 := by
  unfold K_GetCollideAngle
  rw [if_pos hpaper]
  rfl

/-- The banana and the orbinaut of `bananaOrbinautWorld`. -/
theorem collide_angle_no_paper_witness :
    K_GetCollideAngle (sampleEnv []) (bananaOrbinautWorld.mobj 0) (bananaOrbinautWorld.mobj 1)
      = (0 + 0x40000000) % 2 ^ 32 :=
  collide_angle_no_paper (sampleEnv []) (bananaOrbinautWorld.mobj 0) (bananaOrbinautWorld.mobj 1)
    (by decide)

/-! ### No-op pairs -/

/-- C16 (no-op pairs).  In `K_BananaBallhogCollide`, a pair of two
`MT_BALLHOG`, and a pair of two `MT_BANANA_SHIELD` with the same target,
makes the handler return `true` and leave the world as it was, for every
value of health, threshold and flags. -/
theorem noop_pairs (E : Env) (t1 t2 : Nat) (w : World)
    (hpair : ((w.mobj t1).type = mobjtype_t.MT_BALLHOG ∧ (w.mobj t2).type = mobjtype_t.MT_BALLHOG)
      ∨ (((w.mobj t1).type = mobjtype_t.MT_BANANA_SHIELD
          ∧ (w.mobj t2).type = mobjtype_t.MT_BANANA_SHIELD)
        ∧ (w.mobj t1).target = (w.mobj t2).target)) :
    K_BananaBallhogCollide E t1 t2 w = (true, w) := by
  unfold K_BananaBallhogCollide
  by_cases hown : ((w.mobj t1).target = some t2
        ∨ ((w.mobj t2).flags &&& (E.MF_ENEMY ||| E.MF_BOSS) = 0
            ∧ (w.mobj t1).target = (w.mobj t2).target))
      ∧ ((w.mobj t1).threshold > 0
        ∨ ((w.mobj t2).type ≠ mobjtype_t.MT_PLAYER ∧ (w.mobj t2).threshold > 0))
  · rw [if_pos hown]
  rw [if_neg hown]
  by_cases hdead : (w.mobj t1).health ≤ 0 ∨ (w.mobj t2).health ≤ 0
  · rw [if_pos hdead]
  rw [if_neg hdead]
  by_cases hshields : ((w.mobj t1).type = mobjtype_t.MT_BANANA_SHIELD
        ∧ (w.mobj t2).type = mobjtype_t.MT_BANANA_SHIELD)
      ∧ (w.mobj t1).target = (w.mobj t2).target
  · rw [if_pos hshields]
  rw [if_neg hshields]
  rcases hpair with hballhogs | hpair
  · rw [if_pos hballhogs]
  · exact absurd hpair hshields

/-- Two ballhogs: nothing happens. -/
theorem noop_pairs_witness :
    K_BananaBallhogCollide (sampleEnv []) 0 1 ballhogsWorld = (true, ballhogsWorld) :=
  noop_pairs (sampleEnv []) 0 1 ballhogsWorld (Or.inl (by decide))

/-! ### The proximity search -/

/-- C13 (proximity search visitor).  With no source (`grenade == NULL`)
`PIT_SSMineSearch` answers abort and changes nothing.  With a source `g`, call
the candidate a valid trigger when it has type `MT_PLAYER`, is not the target
of the source while the threshold of the source is not `0`, and passes
`PIT_SSMineChecks`.  Then the visitor answers abort if and only if the source
has been removed, or carries `MF2_DEBRIS`, or the candidate is a valid
trigger; for a valid trigger of a valid unspent source it sets the source to
its death state (`P_SetMobjState`), and in every other case it leaves the
world, source and candidate included, as it was, answering continue whenever
it does not abort. -/
theorem mine_search_visitor (E : Env) (thing : Nat) (w : World) :
    (w.grenade = none → PIT_SSMineSearch E thing w = (BlockItReturn_t.BMIT_ABORT, w))
    ∧ ∀ g, w.grenade = some g →
      ((PIT_SSMineSearch E thing w).1 = BlockItReturn_t.BMIT_ABORT
          ↔ (E.P_MobjWasRemoved (w.mobj g) = true ∨ (w.mobj g).flags2 &&& E.MF2_DEBRIS ≠ 0
              ∨ ((w.mobj thing).type = mobjtype_t.MT_PLAYER
                  ∧ ¬ (some thing = (w.mobj g).target ∧ (w.mobj g).threshold ≠ 0)
                  ∧ PIT_SSMineChecks E g thing w = false)))
      ∧ ((PIT_SSMineSearch E thing w).1 = BlockItReturn_t.BMIT_ABORT
          ∨ (PIT_SSMineSearch E thing w).1 = BlockItReturn_t.BMIT_CONTINUE)
      ∧ ((E.P_MobjWasRemoved (w.mobj g) = false ∧ (w.mobj g).flags2 &&& E.MF2_DEBRIS = 0
            ∧ (w.mobj thing).type = mobjtype_t.MT_PLAYER
            ∧ ¬ (some thing = (w.mobj g).target ∧ (w.mobj g).threshold ≠ 0)
            ∧ PIT_SSMineChecks E g thing w = false) →
          PIT_SSMineSearch E thing w
            = (BlockItReturn_t.BMIT_ABORT,
                w.emit E (Effect.P_SetMobjState g (w.mobj g).info.deathstate)))
      ∧ (¬ (E.P_MobjWasRemoved (w.mobj g) = false ∧ (w.mobj g).flags2 &&& E.MF2_DEBRIS = 0
            ∧ (w.mobj thing).type = mobjtype_t.MT_PLAYER
            ∧ ¬ (some thing = (w.mobj g).target ∧ (w.mobj g).threshold ≠ 0)
            ∧ PIT_SSMineChecks E g thing w = false) →
          (PIT_SSMineSearch E thing w).2 = w) := by
  constructor
  · intro hnone
    unfold PIT_SSMineSearch
    rw [hnone]
  · intro g hg
    unfold PIT_SSMineSearch
    rw [hg]
    simp only []
    cases hrem : E.P_MobjWasRemoved (w.mobj g)
    · by_cases hspent : (w.mobj g).flags2 &&& E.MF2_DEBRIS ≠ 0
      · simp [hspent]
      · by_cases htype : (w.mobj thing).type ≠ mobjtype_t.MT_PLAYER
        · simp [hspent, htype]
        · by_cases hcool : some thing = (w.mobj g).target ∧ (w.mobj g).threshold ≠ 0
          · simp [hspent, htype, hcool]
          · cases hchk : PIT_SSMineChecks E g thing w
            · simp only [Bool.false_eq_true, if_false, if_neg hspent, if_neg htype, if_neg hcool]
              push_neg at hspent htype
              simp [hspent, htype, hcool]
            · simp only [Bool.false_eq_true, if_false, if_neg hspent, if_neg htype, if_neg hcool,
                if_true]
              push_neg at hspent
              simp [hspent]
    · simp

/-- The armed mine of `armedMineWorld` and the player 300 units away: the
player is a valid trigger, the mine is set to its death state. -/
theorem mine_search_visitor_witness :
    PIT_SSMineSearch (sampleEnv [1]) 1 armedMineWorld
      = (BlockItReturn_t.BMIT_ABORT,
          armedMineWorld.emit (sampleEnv [1]) (Effect.P_SetMobjState 0 7)) :=
  ((mine_search_visitor (sampleEnv [1]) 1 armedMineWorld).2 0 rfl).2.2.1 (by decide)

/-! ### Invariants of the blockmap walk -/

theorem P_BlockThingsIterator_inv (func : Nat → World → BlockItReturn_t × World)
    (P : World → Prop) (hfunc : ∀ thing w, P w → P (func thing w).2) :
    ∀ (things : List Nat) (w : World), P w → P (P_BlockThingsIterator func things w).2 := by
  intro things
  induction things with
  | nil => intro w hw; exact hw
  | cons thing rest ih =>
    intro w hw
    have h := hfunc thing w hw
    unfold P_BlockThingsIterator
    rcases hr : func thing w with ⟨r, w'⟩
    rw [hr] at h
    cases r
    · exact ih w' h
    · exact h

theorem foldl_inv {α β : Type} (f : β → α → β) (P : β → Prop) (hf : ∀ b a, P b → P (f b a)) :
    ∀ (l : List α) (b : β), P b → P (l.foldl f b) := by
  intro l
  induction l with
  | nil => intro b hb; exact hb
  | cons a l ih => intro b hb; exact ih (f b a) (hf b a hb)

theorem blockLoop_inv (E : Env) (func : Nat → World → BlockItReturn_t × World)
    (P : World → Prop) (hfunc : ∀ thing w, P w → P (func thing w).2)
    (xl xh yl yh : Int) (w : World) (hw : P w) : P (blockLoop E func xl xh yl yh w) := by
  unfold blockLoop
  apply foldl_inv _ P _ _ _ hw
  intro b by_ hb
  apply foldl_inv _ P _ _ _ hb
  intro b bx hb
  exact P_BlockThingsIterator_inv func P hfunc _ _ hb

theorem PIT_SSMineExplode_statics (E : Env) (thing : Nat) (w : World) :
    (PIT_SSMineExplode E thing w).2.explodedist = w.explodedist
    ∧ (PIT_SSMineExplode E thing w).2.grenade = w.grenade
    ∧ (PIT_SSMineExplode E thing w).2.explodespin = w.explodespin := by
  unfold PIT_SSMineExplode
  simp only []
  split
  · exact ⟨rfl, rfl, rfl⟩
  · split_ifs <;> exact ⟨rfl, rfl, rfl⟩

theorem PIT_SSMineSearch_statics (E : Env) (thing : Nat) (w : World) :
    (PIT_SSMineSearch E thing w).2.explodedist = w.explodedist
    ∧ (PIT_SSMineSearch E thing w).2.grenade = w.grenade := by
  unfold PIT_SSMineSearch
  split
  · exact ⟨rfl, rfl⟩
  · split_ifs <;> exact ⟨rfl, rfl⟩

/-- `K_MineExplodeAttack` is the walk `mineWalk` followed by `mineFinish`. -/
theorem K_MineExplodeAttack_eq (E : Env) (actor : Nat) (size : Int) (spin : Bool) (w : World) :
    K_MineExplodeAttack E actor size spin w
      = mineFinish E actor spin (mineWalk E actor size spin w) := by
  unfold K_MineExplodeAttack mineWalk mineFinish
  rfl

theorem mineWalk_statics (E : Env) (actor : Nat) (size : Int) (spin : Bool) (w : World) :
    (mineWalk E actor size spin w).explodedist = E.FixedMul size (w.mobj actor).scale
    ∧ (mineWalk E actor size spin w).grenade = some actor
    ∧ (mineWalk E actor size spin w).explodespin = spin := by
  unfold mineWalk
  simp only []
  apply blockLoop_inv E (PIT_SSMineExplode E)
    (fun v => v.explodedist = E.FixedMul size (w.mobj actor).scale ∧ v.grenade = some actor
      ∧ v.explodespin = spin)
  · intro thing v hv
    obtain ⟨h1, h2, h3⟩ := PIT_SSMineExplode_statics E thing v
    exact ⟨h1.trans hv.1, h2.trans hv.2.1, h3.trans hv.2.2⟩
  · exact ⟨rfl, rfl, rfl⟩

theorem K_DoMineSearch_statics (E : Env) (actor : Nat) (size : Int) (w : World) :
    (K_DoMineSearch E actor size w).explodedist = E.FixedMul size (w.mobj actor).scale
    ∧ (K_DoMineSearch E actor size w).grenade = some actor := by
  unfold K_DoMineSearch
  simp only []
  apply blockLoop_inv E (PIT_SSMineSearch E)
    (fun v => v.explodedist = E.FixedMul size (w.mobj actor).scale ∧ v.grenade = some actor)
  · intro thing v hv
    obtain ⟨h1, h2⟩ := PIT_SSMineSearch_statics E thing v
    exact ⟨h1.trans hv.1, h2.trans hv.2⟩
  · exact ⟨rfl, rfl⟩

theorem mineFinish_statics (E : Env) (actor : Nat) (spin : Bool) (w : World) :
    (mineFinish E actor spin w).2.explodedist = w.explodedist := by
  unfold mineFinish
  cases spin
  · simp only [if_true]
    split_ifs <;> rfl
  · rfl

/-- C14 (distance approximation stability).  The search `K_DoMineSearch` and
the detonation `K_MineExplodeAttack` of the same source with the same size
set the same range `explodedist = FixedMul(size, scale)`.  In a world with a
valid, unspent source `g` and that range, a candidate of type `MT_PLAYER`
that is not the cooling-down owner is classified alike by the two visitors:
`PIT_SSMineSearch` triggers the detonation for it if and only if
`PIT_SSMineExplode` damages it, both exactly when `PIT_SSMineChecks` lets it
through; and a candidate that passes the other tests and whose approximate
3D distance equals `explodedist` is accepted by both. -/
theorem distance_stability (E : Env) (g thing : Nat) (w : World)
    (hgrenade : w.grenade = some g) (hvalid : E.P_MobjWasRemoved (w.mobj g) = false)
    (hunspent : (w.mobj g).flags2 &&& E.MF2_DEBRIS = 0)
    (hplayer : (w.mobj thing).type = mobjtype_t.MT_PLAYER)
    (hcool : ¬ (some thing = (w.mobj g).target ∧ (w.mobj g).threshold ≠ 0)) :
    (PIT_SSMineSearch E thing w
        = (BlockItReturn_t.BMIT_ABORT, w.emit E (Effect.P_SetMobjState g (w.mobj g).info.deathstate))
      ↔ (PIT_SSMineExplode E thing w).2.trace
        = w.trace ++ [Effect.P_DamageMobj thing (some g) (w.mobj g).target 1
            (if w.explodespin then E.DMG_NORMAL else E.DMG_EXPLODE)])
    ∧ (PIT_SSMineSearch E thing w = (BlockItReturn_t.BMIT_CONTINUE, w)
      ↔ (PIT_SSMineExplode E thing w).2 = w)
    ∧ ((thing ≠ g ∧ (w.mobj thing).health > 0
          ∧ (w.mobj thing).flags &&& E.MF_SHOOTABLE ≠ 0 ∧ (w.mobj thing).flags &&& E.MF_SCENERY = 0
          ∧ (∀ p, (w.mobj thing).player = some p → p.spectator = false)
          ∧ E.P_AproxDistance
              (E.P_AproxDistance ((w.mobj thing).x - (w.mobj g).x) ((w.mobj thing).y - (w.mobj g).y))
              ((w.mobj thing).z - (w.mobj g).z) = w.explodedist
          ∧ E.P_CheckSight (w.mobj g) (w.mobj thing) = true) →
        PIT_SSMineSearch E thing w
          = (BlockItReturn_t.BMIT_ABORT,
              w.emit E (Effect.P_SetMobjState g (w.mobj g).info.deathstate))
        ∧ (PIT_SSMineExplode E thing w).2.trace
          = w.trace ++ [Effect.P_DamageMobj thing (some g) (w.mobj g).target 1
              (if w.explodespin then E.DMG_NORMAL else E.DMG_EXPLODE)])
    ∧ (∀ (actor : Nat) (size : Int) (spin : Bool) (w0 : World),
        (K_DoMineSearch E actor size w0).explodedist = E.FixedMul size (w0.mobj actor).scale
        ∧ (K_MineExplodeAttack E actor size spin w0).2.explodedist
          = E.FixedMul size (w0.mobj actor).scale) := by
  obtain ⟨-, hskip, hhit⟩ := PIT_SSMineExplode_valid E g thing w hgrenade hvalid
  have hsearch : PIT_SSMineSearch E thing w
      = if PIT_SSMineChecks E g thing w = true then (BlockItReturn_t.BMIT_CONTINUE, w)
        else (BlockItReturn_t.BMIT_ABORT,
          w.emit E (Effect.P_SetMobjState g (w.mobj g).info.deathstate)) := by
    unfold PIT_SSMineSearch
    simp only [hgrenade, hvalid, Bool.false_eq_true, if_false]
    rw [if_neg (by simpa using hunspent), if_neg (by simpa using hplayer), if_neg hcool]
  refine ⟨?_, ?_, ?_, ?_⟩
  · cases hc : PIT_SSMineChecks E g thing w
    · rw [hsearch, hc]
      simp only [Bool.false_eq_true, if_false, true_iff]
      exact hhit hc
    · rw [hsearch, hc, hskip hc]
      simp
  · cases hc : PIT_SSMineChecks E g thing w
    · rw [hsearch, hc]
      simp only [Bool.false_eq_true, if_false]
      constructor
      · intro h
        exact absurd (congrArg Prod.fst h) (by simp)
      · intro h
        have := hhit hc
        rw [h] at this
        simp at this
    · rw [hsearch, hc, hskip hc]
      simp
  · rintro ⟨h1, h2, h3, h4, h5, h6, h7⟩
    have hc : PIT_SSMineChecks E g thing w = false :=
      (PIT_SSMineChecks_eq_false_iff E g thing w).2 ⟨h1, h2, h3, h4, h5, le_of_eq h6, h7⟩
    rw [hsearch, hc]
    exact ⟨by simp, hhit hc⟩
  · intro actor size spin w0
    refine ⟨(K_DoMineSearch_statics E actor size w0).1, ?_⟩
    rw [K_MineExplodeAttack_eq, mineFinish_statics]
    exact (mineWalk_statics E actor size spin w0).1

/-- The armed mine of `armedMineWorld` and the player exactly 300 units away,
at the boundary of the range: the search triggers and the detonation damages. -/
theorem distance_stability_witness :
    PIT_SSMineSearch (sampleEnv [1]) 1 armedMineWorld
        = (BlockItReturn_t.BMIT_ABORT,
            armedMineWorld.emit (sampleEnv [1]) (Effect.P_SetMobjState 0 7))
      ∧ (PIT_SSMineExplode (sampleEnv [1]) 1 armedMineWorld).2.trace
        = [Effect.P_DamageMobj 1 (some 0) (some 2) 1 2] :=
  (distance_stability (sampleEnv [1]) 0 1 armedMineWorld rfl rfl (by decide) (by decide)
    (by decide)).2.2.1 (by decide)

/-! ### The detonation: post-state of the source and recorded hit-lag -/

theorem lor_and_self (x d : Nat) : (x ||| d) &&& d = d := by
  apply Nat.eq_of_testBit_eq
  intro i
  rw [Nat.testBit_and, Nat.testBit_or]
  cases x.testBit i <;> cases d.testBit i <;> rfl

/-- What `mineFinish` does to the world `wk` left by the walk. -/
theorem mineFinish_world (E : Env) (actor : Nat) (spin : Bool) (wk : World) :
    mineFinish E actor spin wk
      = if spin = false then
          ((wk.minehitlag % 2 ^ 32).toNat,
            World.emit E (Effect.Obj_SpawnBrolyKi actor wk.minehitlag)
              (wk.set actor { wk.mobj actor with
                flags2 := (wk.mobj actor).flags2 ||| E.MF2_DEBRIS,
                flags := (wk.mobj actor).flags ||| E.MF_NOHITLAGFORME,
                hitlag := 0 }))
        else
          (0, wk.set actor { wk.mobj actor with
                flags2 := (wk.mobj actor).flags2 ||| E.MF2_DEBRIS,
                flags := (wk.mobj actor).flags ||| E.MF_NOHITLAGFORME,
                hitlag := 0 }) := by
  unfold mineFinish
  cases wk with
  | mk mobj trace grenade explodedist explodespin minehitlag lightningSource lightningDist =>
    cases spin
    · by_cases hm : minehitlag = 0
      · subst hm
        simp [World.set, World.emit, Function.update_same]
      · simp [World.set, World.emit, hm]
    · simp [World.set]

/-- C12 (source post-state of a detonation).  Let `wk` be the world the
blockmap walk of `K_MineExplodeAttack(actor, size, spin)` leaves, whatever was
hit.  The handler then writes `ws`: the actor of `wk` with `MF2_DEBRIS` or-ed
into `flags2`, `MF_NOHITLAGFORME` or-ed into `flags` and `hitlag` set to `0`,
no other bit and no other field of the actor, and no other object, being
written.  With `spin` the handler returns `(0, ws)`.  Without `spin` it then
calls `Obj_SpawnBrolyKi(actor, minehitlag)` and returns; if that collaborator
leaves the actor as it is, the actor of the final world is the actor of `ws`. -/
theorem source_post_state (E : Env) (actor : Nat) (size : Int) (spin : Bool) (w : World) :
    ∃ wk ws : World,
      wk = mineWalk E actor size spin w
      ∧ ws = wk.set actor { wk.mobj actor with
          flags2 := (wk.mobj actor).flags2 ||| E.MF2_DEBRIS,
          flags := (wk.mobj actor).flags ||| E.MF_NOHITLAGFORME,
          hitlag := 0 }
      ∧ (ws.mobj actor).flags2 &&& E.MF2_DEBRIS = E.MF2_DEBRIS
      ∧ (ws.mobj actor).flags &&& E.MF_NOHITLAGFORME = E.MF_NOHITLAGFORME
      ∧ (ws.mobj actor).hitlag = 0
      ∧ (∀ o, o ≠ actor → ws.mobj o = wk.mobj o)
      ∧ (spin = true → K_MineExplodeAttack E actor size spin w = (0, ws))
      ∧ (spin = false →
          (K_MineExplodeAttack E actor size spin w).2
            = ws.emit E (Effect.Obj_SpawnBrolyKi actor wk.minehitlag))
      ∧ (spin = false →
          (∀ (duration : Int) (h : Heap),
            E.call (Effect.Obj_SpawnBrolyKi actor duration) h actor = h actor) →
          (K_MineExplodeAttack E actor size spin w).2.mobj actor = ws.mobj actor) := by
  refine ⟨_, _, rfl, rfl, ?_, ?_, ?_, ?_, ?_, ?_, ?_⟩
  · simp only [World.set, Function.update_same]
    exact lor_and_self _ _
  · simp only [World.set, Function.update_same]
    exact lor_and_self _ _
  · simp only [World.set, Function.update_same]
  · intro o ho
    simp only [World.set]
    exact Function.update_noteq ho _ _
  · intro hspin
    rw [K_MineExplodeAttack_eq, mineFinish_world, if_neg (by simp [hspin])]
  · intro hspin
    rw [K_MineExplodeAttack_eq, mineFinish_world, if_pos hspin]
  · intro hspin hki
    rw [K_MineExplodeAttack_eq, mineFinish_world, if_pos hspin]
    simp only [World.emit]
    exact hki _ _

/-- A spinning detonation of the mine of `spinMineWorld` (flags `4`, flags2
`2`, hit-lag `9`): afterwards flags2 is `2 | MF2_DEBRIS`, flags is
`4 | MF_NOHITLAGFORME` and the hit-lag is `0`. -/
theorem source_post_state_witness :
    ((K_MineExplodeAttack (sampleEnv [1]) 0 (300 * 65536) true spinMineWorld).2.mobj 0).flags2
        = 2 ||| 1024
    ∧ ((K_MineExplodeAttack (sampleEnv [1]) 0 (300 * 65536) true spinMineWorld).2.mobj 0).flags
        = 4 ||| 2147483648
    ∧ ((K_MineExplodeAttack (sampleEnv [1]) 0 (300 * 65536) true spinMineWorld).2.mobj 0).hitlag
        = 0 := by
  obtain ⟨wk, ws, hwk, hws, -, -, -, -, hspin, -, -⟩ :=
    source_post_state (sampleEnv [1]) 0 (300 * 65536) true spinMineWorld
  rw [hspin rfl, hws, hwk]
  decide

theorem lastPositive_append (a b : List Int) (init : Int) :
    lastPositive (a ++ b) init = lastPositive b (lastPositive a init) := by
  simp [lastPositive, List.foldl_append]

theorem PIT_SSMineExplode_minehitlag (E : Env) (thing : Nat) (w : World) :
    (PIT_SSMineExplode E thing w).2.minehitlag
      = lastPositive (PIT_SSMineExplode_gain E thing w) w.minehitlag := by
  unfold PIT_SSMineExplode PIT_SSMineExplode_gain
  simp only []
  split
  · rfl
  · split_ifs <;> simp_all [lastPositive] <;> rw [if_neg (by omega)] <;> rfl

theorem P_BlockThingsIterator_minehitlag (E : Env) :
    ∀ (things : List Nat) (w : World),
      (P_BlockThingsIterator (PIT_SSMineExplode E) things w).2.minehitlag
        = lastPositive (blockGains E things w) w.minehitlag := by
  intro things
  induction things with
  | nil => intro w; rfl
  | cons thing rest ih =>
    intro w
    have h := PIT_SSMineExplode_minehitlag E thing w
    unfold P_BlockThingsIterator blockGains
    rcases hr : PIT_SSMineExplode E thing w with ⟨r, w'⟩
    rw [hr] at h
    cases r
    · simp only []
      rw [ih w', lastPositive_append, ← h]
    · simp only []
      exact h

theorem foldl_fst {α β γ : Type} (F : β × γ → α → β × γ) (f : β → α → β)
    (h : ∀ acc a, (F acc a).1 = f acc.1 a) :
    ∀ (l : List α) (acc : β × γ), (l.foldl F acc).1 = l.foldl f acc.1 := by
  intro l
  induction l with
  | nil => intro acc; rfl
  | cons a l ih =>
    intro acc
    simp only [List.foldl_cons]
    rw [ih, h]

theorem blockLoopTrack_fst (E : Env) (xl xh yl yh : Int) (w : World) :
    (blockLoopTrack E xl xh yl yh w).1 = blockLoop E (PIT_SSMineExplode E) xl xh yl yh w := by
  unfold blockLoopTrack blockLoop
  apply foldl_fst
  intro acc by_
  apply foldl_fst
  intro acc bx
  rfl

theorem blockLoopTrack_minehitlag (E : Env) (xl xh yl yh : Int) (w : World) :
    (blockLoopTrack E xl xh yl yh w).1.minehitlag
      = lastPositive (blockLoopTrack E xl xh yl yh w).2 w.minehitlag := by
  unfold blockLoopTrack
  apply foldl_inv _ (fun acc : World × List Int => acc.1.minehitlag = lastPositive acc.2 w.minehitlag)
  · intro acc by_ hacc
    apply foldl_inv _
      (fun acc : World × List Int => acc.1.minehitlag = lastPositive acc.2 w.minehitlag) _ _ _ hacc
    intro acc bx hacc
    simp only []
    rw [P_BlockThingsIterator_minehitlag, lastPositive_append, hacc]
  · rfl

theorem mineWalk_minehitlag (E : Env) (actor : Nat) (size : Int) (spin : Bool) (w : World) :
    (mineWalk E actor size spin w).minehitlag = lastPositive (mineGains E actor size spin w) 0 := by
  unfold mineWalk mineGains
  simp only []
  rw [← blockLoopTrack_fst, blockLoopTrack_minehitlag]

theorem lastPositive_mem (gains : List Int) (init : Int) :
    lastPositive gains init = init ∨ lastPositive gains init ∈ gains := by
  induction gains generalizing init with
  | nil => exact Or.inl rfl
  | cons g gains ih =>
    simp only [lastPositive, List.foldl_cons]
    rcases ih (if g > 0 then g else init) with h | h
    · simp only [lastPositive] at h
      rw [h]
      split_ifs
      · exact Or.inr (List.mem_cons_self _ _)
      · exact Or.inl rfl
    · exact Or.inr (List.mem_cons_of_mem _ h)

/-- C11, counterexample.  The mine of `mineWorld` detonates without spin; the
targets at 100, 250 and 300 units (objects `1`, `2`, `4`) are damaged and gain
10, 5 and 5 tics of hit-lag (`lagEnv`).  Visited in the order 1, 2, 4 the
handler returns 5, not the maximum 10; visited in the order 4, 2, 1 it
returns 10: the value depends on the order. -/
theorem recorded_hitlag_counterexample :
    mineGains (lagEnv [1, 2, 4]) 0 (300 * 65536) false mineWorld = [10, 5, 5]
    ∧ (K_MineExplodeAttack (lagEnv [1, 2, 4]) 0 (300 * 65536) false mineWorld).2.trace
        = [Effect.P_DamageMobj 1 (some 0) none 1 2, Effect.P_DamageMobj 2 (some 0) none 1 2,
            Effect.P_DamageMobj 4 (some 0) none 1 2, Effect.Obj_SpawnBrolyKi 0 5]
    ∧ (K_MineExplodeAttack (lagEnv [1, 2, 4]) 0 (300 * 65536) false mineWorld).1 = 5
    ∧ mineGains (lagEnv [4, 2, 1]) 0 (300 * 65536) false mineWorld = [5, 5, 10]
    ∧ (K_MineExplodeAttack (lagEnv [4, 2, 1]) 0 (300 * 65536) false mineWorld).1 = 10 := by
  refine ⟨by decide, by decide, by decide, by decide, by decide⟩

/-- C11, amended.  For every detonation with `spin == false`,
`K_MineExplodeAttack` returns (as a `tic_t`) the additional hit-lag of the
last target it damaged whose hit-lag grew: every damaged target with a
positive gain overwrites the recorded value, the visiting order decides which
one is kept.  The value is `0` when no damaged target gained hit-lag, and
otherwise is one of the gains. -/
theorem recorded_hitlag (E : Env) (actor : Nat) (size : Int) (w : World) :
    (K_MineExplodeAttack E actor size false w).1
      = ((lastPositive (mineGains E actor size false w) 0) % 2 ^ 32).toNat
    ∧ (lastPositive (mineGains E actor size false w) 0 = 0
      ∨ lastPositive (mineGains E actor size false w) 0 ∈ mineGains E actor size false w)
    ∧ ((∀ gain ∈ mineGains E actor size false w, gain ≤ 0) →
        (K_MineExplodeAttack E actor size false w).1 = 0) := by
  have hret : (K_MineExplodeAttack E actor size false w).1
      = ((lastPositive (mineGains E actor size false w) 0) % 2 ^ 32).toNat := by
    rw [K_MineExplodeAttack_eq, mineFinish_world, if_pos rfl, mineWalk_minehitlag]
  refine ⟨hret, lastPositive_mem _ _, ?_⟩
  intro hnone
  rw [hret]
  rcases lastPositive_mem (mineGains E actor size false w) 0 with h | h
  · rw [h]; rfl
  · have hpos : ∀ (gains : List Int) (init : Int), init ≥ 0 → lastPositive gains init ≥ 0 := by
      intro gains
      induction gains with
      | nil => intro init hi; exact hi
      | cons g gains ih =>
        intro init hi
        simp only [lastPositive, List.foldl_cons]
        apply ih
        split_ifs with hg
        · omega
        · exact hi
    have h1 := hnone _ h
    have h2 := hpos (mineGains E actor size false w) 0 (le_refl 0)
    have h0 : lastPositive (mineGains E actor size false w) 0 = 0 := by omega
    rw [h0]; rfl

/-- The amended C11 on the detonation of `mineWorld` under `lagEnv`. -/
theorem recorded_hitlag_witness :
    (K_MineExplodeAttack (lagEnv [1, 2, 4]) 0 (300 * 65536) false mineWorld).1
      = ((lastPositive (mineGains (lagEnv [1, 2, 4]) 0 (300 * 65536) false mineWorld) 0)
          % 2 ^ 32).toNat :=
  (recorded_hitlag (lagEnv [1, 2, 4]) 0 (300 * 65536) mineWorld).1

/-! ### The lightning shield -/

/-- C15, counterexample.  A live `MT_SPB` without any flag, 50 units from the
source of a lightning attack of 100 units: the claim has the visitor apply no
damage to it; the visitor calls `P_DamageMobj` on it, and so does the whole
attack `K_LightningShieldAttack`. -/
theorem lightning_spb_counterexample :
    ((lightningWorld.mobj 1).type = mobjtype_t.MT_SPB
      ∧ (lightningWorld.mobj 1).flags &&& (sampleEnv [1]).MF_SHOOTABLE = 0)
    ∧ (PIT_LightningShieldAttack (sampleEnv [1]) 1 lightningWorld).2.trace
        = [Effect.P_DamageMobj 1 (some 0) (some 0) 1 (6 ||| 0x20000000 ||| 0x40000000)]
    ∧ (K_LightningShieldAttack (sampleEnv [1]) 0 (100 * 65536)
          { lightningWorld with lightningSource := none, lightningDist := 0 }).trace
        = [Effect.P_DamageMobj 1 (some 0) (some 0) 1 (6 ||| 0x20000000 ||| 0x40000000)] := by
  refine ⟨by decide, by decide, by decide⟩

/-- C15, amended.  With a valid source `src` and a valid candidate, the
lightning visitor always answers continue, and it calls
`P_DamageMobj(thing, src, src, 1, DMG_VOLTAGE|DMG_CANTHURTSELF|DMG_WOMBO)`
exactly when the candidate is not the source, has `health > 0`, is of type
`MT_SPB` or else has `MF_SHOOTABLE` and not `MF_SCENERY`, is not a spectating
player, and is within `lightningDist + radius` (2D approximate distance);
otherwise it leaves the world as it was.  The one type singled out, `MT_SPB`,
is exempt from the shootability test: whatever its flags, a live `MT_SPB`
in range is damaged. -/
theorem lightning_eligibility (E : Env) (src thing : Nat) (w : World)
    (hsource : w.lightningSource = some src)
    (hvalid : E.P_MobjWasRemoved (w.mobj src) = false)
    (hthing : E.P_MobjWasRemoved (w.mobj thing) = false) :
    (PIT_LightningShieldAttack E thing w).1 = BlockItReturn_t.BMIT_CONTINUE
    ∧ ((thing ≠ src ∧ (w.mobj thing).health > 0
          ∧ ((w.mobj thing).type = mobjtype_t.MT_SPB
            ∨ ((w.mobj thing).flags &&& E.MF_SHOOTABLE ≠ 0
                ∧ (w.mobj thing).flags &&& E.MF_SCENERY = 0))
          ∧ (∀ p, (w.mobj thing).player = some p → p.spectator = false)
          ∧ E.P_AproxDistance ((w.mobj thing).x - (w.mobj src).x) ((w.mobj thing).y - (w.mobj src).y)
              ≤ w.lightningDist + (w.mobj thing).radius) →
        (PIT_LightningShieldAttack E thing w).2
          = w.emit E (Effect.P_DamageMobj thing (some src) (some src) 1
              (E.DMG_VOLTAGE ||| E.DMG_CANTHURTSELF ||| E.DMG_WOMBO)))
    ∧ (¬ (thing ≠ src ∧ (w.mobj thing).health > 0
          ∧ ((w.mobj thing).type = mobjtype_t.MT_SPB
            ∨ ((w.mobj thing).flags &&& E.MF_SHOOTABLE ≠ 0
                ∧ (w.mobj thing).flags &&& E.MF_SCENERY = 0))
          ∧ (∀ p, (w.mobj thing).player = some p → p.spectator = false)
          ∧ E.P_AproxDistance ((w.mobj thing).x - (w.mobj src).x) ((w.mobj thing).y - (w.mobj src).y)
              ≤ w.lightningDist + (w.mobj thing).radius) →
        (PIT_LightningShieldAttack E thing w).2 = w)
    ∧ ((w.mobj thing).type = mobjtype_t.MT_SPB → thing ≠ src → (w.mobj thing).health > 0 →
        (w.mobj thing).player = none →
        E.P_AproxDistance ((w.mobj thing).x - (w.mobj src).x) ((w.mobj thing).y - (w.mobj src).y)
          ≤ w.lightningDist + (w.mobj thing).radius →
        (PIT_LightningShieldAttack E thing w).2.trace
          = w.trace ++ [Effect.P_DamageMobj thing (some src) (some src) 1
              (E.DMG_VOLTAGE ||| E.DMG_CANTHURTSELF ||| E.DMG_WOMBO)]) := by
  have hmain : PIT_LightningShieldAttack E thing w
      = if (thing ≠ src ∧ (w.mobj thing).health > 0
          ∧ ((w.mobj thing).type = mobjtype_t.MT_SPB
            ∨ ((w.mobj thing).flags &&& E.MF_SHOOTABLE ≠ 0
                ∧ (w.mobj thing).flags &&& E.MF_SCENERY = 0))
          ∧ (∀ p, (w.mobj thing).player = some p → p.spectator = false)
          ∧ E.P_AproxDistance ((w.mobj thing).x - (w.mobj src).x) ((w.mobj thing).y - (w.mobj src).y)
              ≤ w.lightningDist + (w.mobj thing).radius)
        then (BlockItReturn_t.BMIT_CONTINUE,
          w.emit E (Effect.P_DamageMobj thing (some src) (some src) 1
              (E.DMG_VOLTAGE ||| E.DMG_CANTHURTSELF ||| E.DMG_WOMBO)))
        else (BlockItReturn_t.BMIT_CONTINUE, w) := by
    unfold PIT_LightningShieldAttack
    simp only [hsource, hvalid, hthing, Bool.false_eq_true, if_false]
    by_cases h1 : thing = src
    · rw [if_pos h1, if_neg (fun h => h.1 h1)]
    rw [if_neg h1]
    by_cases h2 : (w.mobj thing).health ≤ 0
    · rw [if_pos h2, if_neg (fun h => absurd h.2.1 (by omega))]
    rw [if_neg h2]
    by_cases h3 : (w.mobj thing).type ≠ mobjtype_t.MT_SPB
        ∧ ((w.mobj thing).flags &&& E.MF_SHOOTABLE = 0 ∨ (w.mobj thing).flags &&& E.MF_SCENERY ≠ 0)
    · rw [if_pos h3, if_neg]
      rintro ⟨-, -, h | ⟨hs, hc⟩, -⟩
      · exact h3.1 h
      · rcases h3.2 with h | h
        · exact hs h
        · exact h hc
    rw [if_neg h3]
    by_cases h4 : (match (w.mobj thing).player with
        | some p => p.spectator
        | none => false) = true
    · rw [if_pos h4, if_neg]
      rintro ⟨-, -, -, hsp, -⟩
      cases hp : (w.mobj thing).player with
      | none => rw [hp] at h4; exact absurd h4 (by simp)
      | some p =>
        rw [hp] at h4
        have := hsp p hp
        simp only at h4
        rw [this] at h4
        exact absurd h4 (by simp)
    rw [if_neg h4]
    by_cases h5 : E.P_AproxDistance ((w.mobj thing).x - (w.mobj src).x)
        ((w.mobj thing).y - (w.mobj src).y) > w.lightningDist + (w.mobj thing).radius
    · rw [if_pos h5, if_neg (fun h => absurd h.2.2.2.2 (by omega))]
    rw [if_neg h5, if_pos]
    refine ⟨h1, by omega, ?_, ?_, by omega⟩
    · by_cases ht : (w.mobj thing).type = mobjtype_t.MT_SPB
      · exact Or.inl ht
      · right
        by_contra hcon
        apply h3
        refine ⟨ht, ?_⟩
        by_cases hs : (w.mobj thing).flags &&& E.MF_SHOOTABLE = 0
        · exact Or.inl hs
        · right
          intro hc
          exact hcon ⟨hs, hc⟩
    · intro p hp
      rw [hp] at h4
      simpa using h4
  refine ⟨?_, ?_, ?_, ?_⟩
  · rw [hmain]
    split_ifs <;> rfl
  · intro h
    rw [hmain, if_pos h]
  · intro h
    rw [hmain, if_neg h]
  · intro ht hne hh hp hd
    rw [hmain, if_pos ⟨hne, hh, Or.inl ht, by rw [hp]; intro p h; exact absurd h (by simp), hd⟩]
    rfl

/-- The flagless `MT_SPB` of `lightningWorld` is damaged. -/
theorem lightning_eligibility_witness :
    (PIT_LightningShieldAttack (sampleEnv [1]) 1 lightningWorld).2.trace
      = [Effect.P_DamageMobj 1 (some 0) (some 0) 1 (6 ||| 0x20000000 ||| 0x40000000)] :=
  (lightning_eligibility (sampleEnv [1]) 0 1 lightningWorld rfl rfl rfl).2.2.2
    (by decide) (by decide) (by decide) (by decide) (by decide)

/-! ### The drop target and the kitchen sink -/

/-- C17, counterexample.  A drop target inside its own threshold window
(`threshold = 5`) is touched by an orbinaut of the same owner; the orbinaut is
not a player and its own threshold is `0`.  The claim has the handler return
without side effects; the handler bumps: thrust, bounce, hit-lag for both,
ghost and blasts, damage to the drop target, sound. -/
theorem drop_target_guard_counterexample :
    ((dropTargetWorld.mobj 0).target = (dropTargetWorld.mobj 1).target
      ∧ (dropTargetWorld.mobj 0).threshold > 0
      ∧ (dropTargetWorld.mobj 1).type ≠ mobjtype_t.MT_PLAYER)
    ∧ (K_DropTargetCollide (sampleEnv []) 0 1 dropTargetWorld).map (fun r => (r.1, r.2.trace))
        = some (true,
            [Effect.P_Thrust 0 0 (80 * 65536),
              Effect.K_KartBouncing 0 1,
              Effect.P_InstaThrust 1 0 (5 * 65536),
              Effect.K_AddHitLag (some 0) 6 true,
              Effect.K_AddHitLag (some 1) 6 false,
              Effect.P_SpawnGhostMobj 0,
              Effect.P_SetScale 100 0,
              Effect.P_SpawnMobjFromMobj 0 0 0 (45 * 65536) mobjtype_t.MT_BATTLEBUMPER_BLAST,
              Effect.P_SetScale 101 0,
              Effect.P_SpawnMobjFromMobj 0 0 0 (45 * 65536) mobjtype_t.MT_BATTLEBUMPER_BLAST,
              Effect.P_SetScale 101 0,
              Effect.P_DamageMobj 0 (some 1) (some 2) 1 0,
              Effect.S_StartSound (some 1) sfxenum_t.sfx_kdtrg1]) := by
  refine ⟨by decide, by decide⟩

/-- C17, amended.  In `K_DropTargetCollide`, for a pair where the owner of
`t1` is `t2` or the two share an owner, and either `t1->threshold > 0` with
`t2` of type `MT_PLAYER`, or `t2` is not of type `MT_PLAYER` and
`t2->threshold > 0`, no interaction occurs: the handler returns `true` and
leaves the world as it was. -/
theorem drop_target_guard (E : Env) (t1 t2 : Nat) (w : World)
    (howner : (w.mobj t1).target = some t2 ∨ (w.mobj t1).target = (w.mobj t2).target)
    (hthreshold : ((w.mobj t1).threshold > 0 ∧ (w.mobj t2).type = mobjtype_t.MT_PLAYER)
      ∨ ((w.mobj t2).type ≠ mobjtype_t.MT_PLAYER ∧ (w.mobj t2).threshold > 0)) :
    K_DropTargetCollide E t1 t2 w = some (true, w) := by
  unfold K_DropTargetCollide
  simp only []
  rw [if_pos ⟨howner, hthreshold⟩]

/-- The drop target of `dropTargetOwnerWorld` touched by its owner within the
threshold window. -/
theorem drop_target_guard_witness :
    K_DropTargetCollide (sampleEnv []) 0 1 dropTargetOwnerWorld = some (true, dropTargetOwnerWorld) :=
  drop_target_guard (sampleEnv []) 0 1 dropTargetOwnerWorld (Or.inl (by decide))
    (Or.inl (by decide))

/-- C18, the code at the failing input.  A kitchen sink lands on a dead player
(health `0`) who is not flashing and is not its thrower: the handler has no
dead-object guard, so it plays the sound, announces the hit, calls
`P_DamageMobj` with `DMG_INSTAKILL` on the dead player and `P_KillMobj` on the
sink. -/
theorem kitchen_sink_dead_player :
    (deadPlayerSinkWorld.mobj 1).health ≤ 0
    ∧ (K_KitchenSinkCollide (sampleEnv []) 0 1 deadPlayerSinkWorld).1 = true
    ∧ (K_KitchenSinkCollide (sampleEnv []) 0 1 deadPlayerSinkWorld).2.trace
        = [Effect.S_StartSound none sfxenum_t.sfx_bsnipe,
            Effect.HU_SetCEchoFlags 0,
            Effect.HU_SetCEchoDuration 5,
            Effect.HU_DoCEcho 1,
            Effect.I_OutputMsg 1,
            Effect.P_DamageMobj 1 (some 0) (some 2) 1 0x80,
            Effect.P_KillMobj 0 (some 1) (some 1) 0] := by
  refine ⟨by decide, by decide, by decide⟩

/-! ### The hit-lag flag of the ring sting -/

theorem clearBits_testBit (x mask i : Nat) :
    (clearBits x mask).testBit i = (x.testBit i && !mask.testBit i) := by
  unfold clearBits
  rw [Nat.testBit_xor, Nat.testBit_and]
  cases x.testBit i <;> cases mask.testBit i <;> rfl

/-- Outside the podium sequence, when none of the rules 1 to 5 fires and the
collaborators satisfy `RingsFrame`, the handler is the ring sting: the calls
for `t2`, the calls for `t1`, then the clearing of `MFE_DAMAGEHITLAG` on
`noHitlagSide`. -/
theorem K_PvPTouchDamage_no_rule (E : Env) (t1 t2 : Nat) (w : World) (p1 p2 : player_t)
    (hframe : RingsFrame E) (hne : t1 ≠ t2)
    (hpodium : E.K_PodiumSequence = false)
    (hp1 : (w.mobj t1).player = some p1) (hp2 : (w.mobj t2).player = some p2)
    (hclash : ¬ (dominant E (w.mobj t1) (w.mobj t2) p1 = true
      ∧ dominant E (w.mobj t2) (w.mobj t1) p2 = true))
    (hinv : p1.invincibilitytimer > 0 ↔ p2.invincibilitytimer > 0)
    (hflame : (p1.flamedash > 0 ∧ p1.itemtype = E.KITEM_FLAMESHIELD)
      ↔ (p2.flamedash > 0 ∧ p2.itemtype = E.KITEM_FLAMESHIELD))
    (hsneaker : E.gametyperules &&& E.GTR_BUMPERS ≠ 0 →
      ((p1.sneakertimer > 0 ∧ E.P_PlayerInPain p1 = false ∧ p1.flashing = 0)
        ↔ (p2.sneakertimer > 0 ∧ E.P_PlayerInPain p2 = false ∧ p2.flashing = 0)))
    (hsize : E.K_IsBigger (w.mobj t1) (w.mobj t2) = E.K_IsBigger (w.mobj t2) (w.mobj t1)) :
    K_PvPTouchDamage E t1 t2 w
      = some (isStung E p1 || isStung E p2,
          clearDamageHitlag E (noHitlagSide E t1 t2 p1 p2)
            (emitAll E (stingCalls E t2 t1 p2 ++ stingCalls E t1 t2 p1) w)) := by
  have href : pvpChainReference E t1 t2 (w.mobj t1) (w.mobj t2) p1 p2 = none := by
    unfold pvpChainReference
    rw [oneSided_eq_none _ _ _ _ (by simpa using hinv),
      oneSided_eq_none _ _ _ _ (by
        rw [Bool.eq_iff_iff]; simpa using hflame),
      oneSided_eq_none _ _ _ _ hsize]
    by_cases hg : E.gametyperules &&& E.GTR_BUMPERS ≠ 0
    · rw [if_pos hg, oneSided_eq_none _ _ _ _ (by
        rw [Bool.eq_iff_iff]; simpa [and_assoc] using hsneaker hg)]
    · rw [if_neg hg]
  have hq := stingCalls_rings E hframe t2 t1 p2 w hne
  rw [hp1] at hq
  rw [K_PvPTouchDamage_rules E t1 t2 w p1 p2 hpodium hp1 hp2, if_neg hclash, href]
  exact K_PvPTouchDamage_sting_eq E t1 t2 p1 p2 w hq

/-- C19, counterexample.  The two players of `stingHitlagWorld` both carry
`MFE_DAMAGEHITLAG` (bit `1024`); player `0` has no rings and is stung, player
`1` is not.  The claim has the flag cleared on the stung player `0` only; the
handler leaves the eflags of player `0` at `1024` and clears the flag of
player `1`. -/
theorem sting_hitlag_counterexample :
    (isStung (sampleEnv []) { rings := 0 } = true ∧ isStung (sampleEnv []) { rings := 5 } = false
      ∧ (stingHitlagWorld.mobj 0).player = some { rings := 0 }
      ∧ (stingHitlagWorld.mobj 1).player = some { rings := 5 }
      ∧ (stingHitlagWorld.mobj 0).eflags = 1024 ∧ (stingHitlagWorld.mobj 1).eflags = 1024)
    ∧ (K_PvPTouchDamage (sampleEnv []) 0 1 stingHitlagWorld).map
        (fun r => (r.1, (r.2.mobj 0).eflags, (r.2.mobj 1).eflags, r.2.trace))
      = some (true, 1024, 0,
          [Effect.P_PlayerRingBurst 1 1,
            Effect.P_DamageMobj 0 (some 1) (some 1) 1 (4 ||| 0x40000000),
            Effect.P_PlayerRingBurst 0 1]) := by
  refine ⟨by decide, by decide⟩

/-- C19, amended.  In the ring sting of `K_PvPTouchDamage` (two distinct
players outside the podium sequence, none of the rules 1 to 5 firing,
collaborators satisfying `RingsFrame`), let `pre` be the world after the
collaborator calls.  When exactly one side is stung, the handler clears
`MFE_DAMAGEHITLAG` on the other side, the one that is not stung, and writes
nothing else: the stung side is as in `pre`.  When both or neither side is
stung the handler writes nothing.  Clearing removes exactly the bits of
`MFE_DAMAGEHITLAG` from the eflags. -/
theorem sting_hitlag (E : Env) (t1 t2 : Nat) (w : World) (p1 p2 : player_t)
    (hframe : RingsFrame E) (hne : t1 ≠ t2)
    (hpodium : E.K_PodiumSequence = false)
    (hp1 : (w.mobj t1).player = some p1) (hp2 : (w.mobj t2).player = some p2)
    (hclash : ¬ (dominant E (w.mobj t1) (w.mobj t2) p1 = true
      ∧ dominant E (w.mobj t2) (w.mobj t1) p2 = true))
    (hinv : p1.invincibilitytimer > 0 ↔ p2.invincibilitytimer > 0)
    (hflame : (p1.flamedash > 0 ∧ p1.itemtype = E.KITEM_FLAMESHIELD)
      ↔ (p2.flamedash > 0 ∧ p2.itemtype = E.KITEM_FLAMESHIELD))
    (hsneaker : E.gametyperules &&& E.GTR_BUMPERS ≠ 0 →
      ((p1.sneakertimer > 0 ∧ E.P_PlayerInPain p1 = false ∧ p1.flashing = 0)
        ↔ (p2.sneakertimer > 0 ∧ E.P_PlayerInPain p2 = false ∧ p2.flashing = 0)))
    (hsize : E.K_IsBigger (w.mobj t1) (w.mobj t2) = E.K_IsBigger (w.mobj t2) (w.mobj t1)) :
    ∃ pre : World,
      pre = emitAll E (stingCalls E t2 t1 p2 ++ stingCalls E t1 t2 p1) w
      ∧ (isStung E p1 = true ∧ isStung E p2 = false →
          ∃ final, K_PvPTouchDamage E t1 t2 w = some (true, final)
            ∧ final = pre.set t2 { pre.mobj t2 with
                eflags := clearBits (pre.mobj t2).eflags E.MFE_DAMAGEHITLAG }
            ∧ final.mobj t1 = pre.mobj t1)
      ∧ (isStung E p2 = true ∧ isStung E p1 = false →
          ∃ final, K_PvPTouchDamage E t1 t2 w = some (true, final)
            ∧ final = pre.set t1 { pre.mobj t1 with
                eflags := clearBits (pre.mobj t1).eflags E.MFE_DAMAGEHITLAG }
            ∧ final.mobj t2 = pre.mobj t2)
      ∧ (isStung E p1 = isStung E p2 →
          K_PvPTouchDamage E t1 t2 w = some (isStung E p1, pre))
      ∧ (∀ x i : Nat, (clearBits x E.MFE_DAMAGEHITLAG).testBit i
          = (x.testBit i && !E.MFE_DAMAGEHITLAG.testBit i)) := by
  have hres := K_PvPTouchDamage_no_rule E t1 t2 w p1 p2 hframe hne hpodium hp1 hp2 hclash hinv
    hflame hsneaker hsize
  refine ⟨_, rfl, ?_, ?_, ?_, fun x i => clearBits_testBit x _ i⟩
  · rintro ⟨h1, h2⟩
    refine ⟨_, ?_, rfl, ?_⟩
    · rw [hres, h1, h2]
      simp [noHitlagSide, h1, h2, clearDamageHitlag]
    · simp only [World.set]
      exact Function.update_noteq hne _ _
  · rintro ⟨h2, h1⟩
    refine ⟨_, ?_, rfl, ?_⟩
    · rw [hres, h1, h2]
      simp [noHitlagSide, h1, h2, clearDamageHitlag]
    · simp only [World.set]
      exact Function.update_noteq (Ne.symm hne) _ _
  · intro heq
    rw [hres, heq]
    cases hs : isStung E p2 <;> simp [noHitlagSide, heq, hs, clearDamageHitlag]

/-- The touch of `stingHitlagWorld`: exactly player `0` is stung, the flag is
cleared on player `1`, and player `0` is as the collaborator calls left it. -/
theorem sting_hitlag_witness :
    ∃ pre final : World,
      pre = emitAll (sampleEnv []) (stingCalls (sampleEnv []) 1 0 { rings := 5 }
        ++ stingCalls (sampleEnv []) 0 1 { rings := 0 }) stingHitlagWorld
      ∧ K_PvPTouchDamage (sampleEnv []) 0 1 stingHitlagWorld = some (true, final)
      ∧ final = pre.set 1 { pre.mobj 1 with
          eflags := clearBits (pre.mobj 1).eflags (sampleEnv []).MFE_DAMAGEHITLAG }
      ∧ final.mobj 0 = pre.mobj 0 := by
  obtain ⟨pre, hpre, hone, -, -, -⟩ :=
    sting_hitlag (sampleEnv []) 0 1 stingHitlagWorld { rings := 0 } { rings := 5 }
      (sampleEnv_ringsFrame []) (by decide) (by decide) (by decide) (by decide) (by decide)
      (by decide) (by decide) (by decide) (by decide)
  obtain ⟨final, hres, hfinal, hother⟩ := hone ⟨by decide, by decide⟩
  exact ⟨pre, final, hpre, hres, hfinal, hother⟩

/-! ### The destroy sequence -/

theorem World.set_trace (w : World) (p : Nat) (m : mobj_t) : (w.set p m).trace = w.trace := rfl

theorem World.emit_trace (E : Env) (e : Effect) (w : World) :
    (w.emit E e).trace = w.trace ++ [e] := rfl

theorem World.log_trace (e : Effect) (w : World) : (w.log e).trace = w.trace ++ [e] := rfl

theorem World.set_target (w : World) (p : Nat) (m : mobj_t) (o : Nat)
    (hm : m.target = (w.mobj p).target) : ((w.set p m).mobj o).target = (w.mobj o).target := by
  simp only [World.set]
  by_cases ho : o = p
  · subst ho
    rw [Function.update_same, hm]
  · rw [Function.update_noteq ho]

theorem World.set_scale (w : World) (p : Nat) (m : mobj_t) (o : Nat)
    (hm : m.scale = (w.mobj p).scale) : ((w.set p m).mobj o).scale = (w.mobj o).scale := by
  simp only [World.set]
  by_cases ho : o = p
  · subst ho
    rw [Function.update_same, hm]
  · rw [Function.update_noteq ho]

/-- The thrust stage, when it returns: one `P_Thrust`. -/
theorem K_DropTargetCollide_thrust_trace (E : Env) (t1 t2 : Nat) (d : Option Nat) (w w1 : World)
    (h : K_DropTargetCollide_thrust E t1 t2 d w = some w1) :
    ∃ l, w1.trace = w.trace ++ l ∧ ∀ e ∈ l, e.isHitLag = false := by
  unfold K_DropTargetCollide_thrust at h
  simp only [] at h
  cases d with
  | none =>
    simp only [Option.some.injEq] at h
    subst h
    exact ⟨_, rfl, by simp [Effect.isHitLag]⟩
  | some d =>
    simp only [] at h
    split at h
    · exact absurd h (by simp)
    · simp only [Option.some.injEq] at h
      subst h
      exact ⟨_, rfl, by simp [Effect.isHitLag]⟩

/-- The bounce stage, when it returns: `K_KartBouncing` and at most one
`P_InstaThrust`. -/
theorem K_DropTargetCollide_bounce_trace (E : Env) (t1 t2 : Nat) (w w1 : World)
    (h : K_DropTargetCollide_bounce E t1 t2 w = some w1) :
    ∃ l, w1.trace = w.trace ++ l ∧ ∀ e ∈ l, e.isHitLag = false := by
  unfold K_DropTargetCollide_bounce at h
  simp only [] at h
  split_ifs at h <;> simp only [Option.some.injEq] at h <;> subst h <;>
    simp only [World.set_trace, World.emit_trace, List.append_assoc] <;>
    exact ⟨_, rfl, by simp [Effect.isHitLag]⟩

/-- The hit-lag stage: the wielder of a dragged drop target, then `t1`, then
`t2`, each 6 tics. -/
theorem K_DropTargetCollide_hitlag_trace (E : Env) (t1 t2 : Nat) (d : Option Nat) (w : World) :
    (K_DropTargetCollide_hitlag E t1 t2 d w).trace
      = w.trace ++ dropTargetWielderCalls d (w.mobj t1).target
        ++ [Effect.K_AddHitLag (some t1) 6 true, Effect.K_AddHitLag (some t2) 6 false] := by
  unfold K_DropTargetCollide_hitlag dropTargetWielderCalls
  cases d with
  | none => simp [World.set_trace, World.emit_trace]
  | some d =>
    simp only [World.set_trace, World.emit_trace, List.append_assoc, List.singleton_append,
      List.cons_append, List.nil_append]
    congr 3
    repeat rw [World.set_target _ _ _ _ (by simp [World.set, Function.update_same])]

/-- The ghost stage gives no hit-lag. -/
theorem K_DropTargetCollide_ghost_trace (E : Env) (t1 : Nat) (w : World) :
    ∃ l, (K_DropTargetCollide_ghost E t1 w).trace = w.trace ++ l ∧ ∀ e ∈ l, e.isHitLag = false := by
  unfold K_DropTargetCollide_ghost
  simp only [World.set_trace, World.emit_trace, List.append_assoc]
  exact ⟨_, rfl, by simp [Effect.isHitLag]⟩

/-- A blast gives no hit-lag. -/
theorem K_DropTargetCollide_blast_trace (E : Env) (t1 i : Nat) (w : World) :
    ∃ l, (K_DropTargetCollide_blast E t1 i w).trace = w.trace ++ l
      ∧ ∀ e ∈ l, e.isHitLag = false := by
  unfold K_DropTargetCollide_blast
  simp only []
  split_ifs <;> simp only [World.set_trace, World.emit_trace, List.append_assoc] <;>
    exact ⟨_, rfl, by simp [Effect.isHitLag]⟩

/-- The damage stage gives no hit-lag. -/
theorem K_DropTargetCollide_damage_trace (E : Env) (t1 t2 : Nat) (w : World) :
    ∃ l, (K_DropTargetCollide_damage E t1 t2 w).trace = w.trace ++ l
      ∧ ∀ e ∈ l, e.isHitLag = false := by
  unfold K_DropTargetCollide_damage
  simp only [World.set_trace, World.emit_trace, List.append_assoc]
  exact ⟨_, rfl, by simp [Effect.isHitLag]⟩

/-- The last stage gives no hit-lag. -/
theorem K_DropTargetCollide_finish_trace (E : Env) (t1 t2 : Nat) (d : Option Nat) (w : World) :
    ∃ l, (K_DropTargetCollide_finish E t1 t2 d w).trace = w.trace ++ l
      ∧ ∀ e ∈ l, e.isHitLag = false := by
  unfold K_DropTargetCollide_finish
  simp only []
  cases (w.mobj t2).player <;> cases d <;> simp only [] <;>
    (repeat' split) <;>
    simp only [World.set_trace, World.emit_trace, World.log_trace, List.append_assoc] <;>
    exact ⟨_, rfl, by simp [Effect.isHitLag]⟩

/-- The handler is its three guards, then the bump. -/
theorem K_DropTargetCollide_eq (E : Env) (t1 t2 : Nat) (w : World) :
    (dropTargetGuards t1 t2 w → K_DropTargetCollide E t1 t2 w = some (true, w))
    ∧ (¬ dropTargetGuards t1 t2 w → K_DropTargetCollide E t1 t2 w
        = K_DropTargetCollide_bump E t1 t2 (draggeddroptarget t1 w) w) := by
  have hplayer : ((match (w.mobj t2).player with
      | some p => decide (p.hyudorotimer ≠ 0 ∨ p.justbumped ≠ 0)
      | none => false) = true)
      ↔ ∃ p, (w.mobj t2).player = some p ∧ (p.hyudorotimer ≠ 0 ∨ p.justbumped ≠ 0) := by
    cases (w.mobj t2).player with
    | none => simp
    | some p => simp
  unfold dropTargetGuards K_DropTargetCollide draggeddroptarget
  simp only []
  constructor
  · rintro (h | h | h)
    · rw [if_pos h]
    · split_ifs <;> rfl
    · split_ifs <;> first | rfl | exact absurd (hplayer.2 h) (by assumption)
  · intro h
    push_neg at h
    obtain ⟨h1, h2, h3⟩ := h
    rw [if_neg (by
      rintro ⟨ha, hb⟩
      have := h1 ha
      rcases hb with hb | hb
      · exact absurd hb.2 (this.1 hb.1)
      · have := this.2 hb.1
        omega), if_neg (by
      rintro (hh | hh)
      · omega
      · omega), if_neg (by
      rw [hplayer]
      rintro ⟨p, hp, hq⟩
      have := h3 p hp
      rcases hq with hq | hq
      · exact hq this.1
      · exact hq this.2)]

/-- The bump, when it returns: both participants get 6 tics of hit-lag, a
dragged drop target passes 6 tics on to the object `t1->target` points to
after the bounce, and no other call gives hit-lag. -/
theorem K_DropTargetCollide_bump_trace (E : Env) (t1 t2 : Nat) (d : Option Nat) (w : World)
    (r : Bool × World) (h : K_DropTargetCollide_bump E t1 t2 d w = some r) :
    ∃ w1 w2 pre post, K_DropTargetCollide_thrust E t1 t2 d w = some w1
      ∧ K_DropTargetCollide_bounce E t1 t2 w1 = some w2
      ∧ r.1 = true
      ∧ r.2.trace = w.trace ++ pre ++ dropTargetWielderCalls d (w2.mobj t1).target
          ++ [Effect.K_AddHitLag (some t1) 6 true, Effect.K_AddHitLag (some t2) 6 false] ++ post
      ∧ (∀ e ∈ pre ++ post, e.isHitLag = false) := by
  unfold K_DropTargetCollide_bump at h
  cases h1 : K_DropTargetCollide_thrust E t1 t2 d w with
  | none => rw [h1] at h; exact absurd h (by simp)
  | some w1 =>
    rw [h1] at h
    simp only [] at h
    cases h2 : K_DropTargetCollide_bounce E t1 t2 w1 with
    | none => rw [h2] at h; exact absurd h (by simp)
    | some w2 =>
      rw [h2] at h
      simp only [Option.some.injEq] at h
      subst h
      obtain ⟨l1, e1, n1⟩ := K_DropTargetCollide_thrust_trace E t1 t2 d w w1 h1
      obtain ⟨l2, e2, n2⟩ := K_DropTargetCollide_bounce_trace E t1 t2 w1 w2 h2
      have e3 := K_DropTargetCollide_hitlag_trace E t1 t2 d w2
      obtain ⟨l4, e4, n4⟩ := K_DropTargetCollide_ghost_trace E t1
        (K_DropTargetCollide_hitlag E t1 t2 d w2)
      obtain ⟨l5, e5, n5⟩ := K_DropTargetCollide_blast_trace E t1 0
        (K_DropTargetCollide_ghost E t1 (K_DropTargetCollide_hitlag E t1 t2 d w2))
      obtain ⟨l6, e6, n6⟩ := K_DropTargetCollide_blast_trace E t1 1
        (K_DropTargetCollide_blast E t1 0
          (K_DropTargetCollide_ghost E t1 (K_DropTargetCollide_hitlag E t1 t2 d w2)))
      obtain ⟨l7, e7, n7⟩ := K_DropTargetCollide_damage_trace E t1 t2
        (K_DropTargetCollide_blast E t1 1 (K_DropTargetCollide_blast E t1 0
          (K_DropTargetCollide_ghost E t1 (K_DropTargetCollide_hitlag E t1 t2 d w2))))
      obtain ⟨l8, e8, n8⟩ := K_DropTargetCollide_finish_trace E t1 t2 d
        (K_DropTargetCollide_damage E t1 t2
          (K_DropTargetCollide_blast E t1 1 (K_DropTargetCollide_blast E t1 0
            (K_DropTargetCollide_ghost E t1 (K_DropTargetCollide_hitlag E t1 t2 d w2)))))
      refine ⟨w1, w2, l1 ++ l2, l4 ++ l5 ++ l6 ++ l7 ++ l8, rfl, h2, rfl, ?_, ?_⟩
      · simp only []
        rw [e8, e7, e6, e5, e4, e3, e2, e1]
        simp only [List.append_assoc]
      · intro e he
        simp only [List.mem_append] at he
        rcases he with (he | he) | (((he | he) | he) | he) | he
        · exact n1 e he
        · exact n2 e he
        · exact n4 e he
        · exact n5 e he
        · exact n6 e he
        · exact n7 e he
        · exact n8 e he

/-- Under the frame condition the thrust stage returns, and leaves the target
pointer and the scale of `t1` as they were. -/
theorem K_DropTargetCollide_thrust_frame (E : Env) (t1 t2 : Nat) (d : Option Nat) (w : World)
    (hframe : BumpFrame E t1) (hd : d = none ∨ (w.mobj t1).target ≠ none) :
    ∃ w1, K_DropTargetCollide_thrust E t1 t2 d w = some w1
      ∧ (w1.mobj t1).target = (w.mobj t1).target ∧ (w1.mobj t1).scale = (w.mobj t1).scale := by
  have ft := fun mo angle move h => (hframe.1 mo angle move h).1
  have fs := fun mo angle move h => (hframe.1 mo angle move h).2
  unfold K_DropTargetCollide_thrust
  simp only []
  cases d with
  | none =>
    refine ⟨_, rfl, ?_, ?_⟩
    · simp only [World.emit]; rw [ft]
    · simp only [World.emit]; rw [fs]
  | some x =>
    simp only []
    split
    · rename_i heq
      simp only [World.emit] at heq
      rw [ft] at heq
      rcases hd with hd | hd
      · exact absurd hd (by simp)
      · exact absurd heq hd
    · refine ⟨_, rfl, ?_, ?_⟩
      · simp only [World.set, World.emit, Function.update_same]; rw [ft]
      · simp only [World.set, World.emit, Function.update_same]; rw [fs]

/-- Under the frame condition the bounce stage returns when the scale of `t1`
is not `0`, and leaves the target pointer of `t1` as it was. -/
theorem K_DropTargetCollide_bounce_frame (E : Env) (t1 t2 : Nat) (w : World)
    (hframe : BumpFrame E t1) (hscale : (w.mobj t1).scale ≠ 0) :
    ∃ w1, K_DropTargetCollide_bounce E t1 t2 w = some w1
      ∧ (w1.mobj t1).target = (w.mobj t1).target := by
  have ft := fun a b h => (hframe.2.1 a b h).1
  have fs := fun a b h => (hframe.2.1 a b h).2
  have gt := fun mo angle move h => (hframe.2.2 mo angle move h).1
  have gs := fun mo angle move h => (hframe.2.2 mo angle move h).2
  unfold K_DropTargetCollide_bounce
  simp only []
  split_ifs with h1 h2 h3 h4 h5
  all_goals first
    | (exfalso
       simp only [World.set, World.emit, Function.update_same, gs, fs] at *
       omega)
    | (refine ⟨_, rfl, ?_⟩
       simp only [World.set, World.emit, Function.update_same, gt, ft])

/-- C22 (hit-lag atomicity of the drop target bump).  When one of the three
guards of `K_DropTargetCollide` (ownership, dead object, player with
`hyudorotimer` or `justbumped`) holds, the handler returns `true` and makes no
call at all: nobody receives hit-lag.  When none holds and the handler
returns, its calls contain `K_AddHitLag(t1, 6, true)` followed by
`K_AddHitLag(t2, 6, false)`, preceded for a dragged `MT_DROPTARGET_SHIELD` by
`K_AddHitLag(t1->target, 6, false)`, and no other call gives hit-lag.  When
`P_Thrust`, `K_KartBouncing` and `P_InstaThrust` leave the target pointer and
the scale of `t1` alone and that scale is not `0`, the handler does return,
and the object that shares the hit-lag of a dragged drop target is its
wielder. -/
theorem hitlag_atomicity (E : Env) (t1 t2 : Nat) (w : World) :
    (dropTargetGuards t1 t2 w → K_DropTargetCollide E t1 t2 w = some (true, w))
    ∧ (¬ dropTargetGuards t1 t2 w → ∀ r, K_DropTargetCollide E t1 t2 w = some r →
        ∃ pre post wielder, r.1 = true
          ∧ r.2.trace = w.trace ++ pre ++ dropTargetWielderCalls (draggeddroptarget t1 w) wielder
            ++ [Effect.K_AddHitLag (some t1) 6 true, Effect.K_AddHitLag (some t2) 6 false] ++ post
          ∧ (∀ e ∈ pre ++ post, e.isHitLag = false))
    ∧ (¬ dropTargetGuards t1 t2 w → BumpFrame E t1 → (w.mobj t1).scale ≠ 0 →
        ∃ r pre post, K_DropTargetCollide E t1 t2 w = some (true, r)
          ∧ r.trace = w.trace ++ pre
            ++ dropTargetWielderCalls (draggeddroptarget t1 w) (draggeddroptarget t1 w)
            ++ [Effect.K_AddHitLag (some t1) 6 true, Effect.K_AddHitLag (some t2) 6 false] ++ post
          ∧ (∀ e ∈ pre ++ post, e.isHitLag = false)) := by
  obtain ⟨hguard, hbump⟩ := K_DropTargetCollide_eq E t1 t2 w
  refine ⟨hguard, ?_, ?_⟩
  · intro hg r hr
    rw [hbump hg] at hr
    obtain ⟨w1, w2, pre, post, -, -, hr1, htrace, hno⟩ :=
      K_DropTargetCollide_bump_trace E t1 t2 _ w r hr
    exact ⟨pre, post, _, hr1, htrace, hno⟩
  · intro hg hframe hscale
    have hd : draggeddroptarget t1 w = none ∨ (w.mobj t1).target ≠ none := by
      unfold draggeddroptarget
      by_cases ht : (w.mobj t1).type = mobjtype_t.MT_DROPTARGET_SHIELD
      · rw [if_pos ht]
        cases (w.mobj t1).target with
        | none => exact Or.inl rfl
        | some x => exact Or.inr (by simp)
      · rw [if_neg ht]
        exact Or.inl rfl
    obtain ⟨w1, h1, ht1, hs1⟩ :=
      K_DropTargetCollide_thrust_frame E t1 t2 (draggeddroptarget t1 w) w hframe hd
    obtain ⟨w2, h2, ht2⟩ :=
      K_DropTargetCollide_bounce_frame E t1 t2 w1 hframe (by rw [hs1]; exact hscale)
    have hsome : ∃ r, K_DropTargetCollide_bump E t1 t2 (draggeddroptarget t1 w) w = some r := by
      unfold K_DropTargetCollide_bump
      rw [h1]
      simp only []
      rw [h2]
      exact ⟨_, rfl⟩
    obtain ⟨r, hr⟩ := hsome
    obtain ⟨w1', w2', pre, post, h1', h2', hr1, htrace, hno⟩ :=
      K_DropTargetCollide_bump_trace E t1 t2 _ w r hr
    rw [h1] at h1'
    obtain rfl := Option.some.inj h1'
    rw [h2] at h2'
    obtain rfl := Option.some.inj h2'
    refine ⟨r.2, pre, post, ?_, ?_, hno⟩
    · rw [hbump hg, hr]
      obtain ⟨b, rw_⟩ := r
      simp only at hr1
      subst hr1
      rfl
    · rw [htrace, ht2, ht1]
      congr 3
      unfold dropTargetWielderCalls draggeddroptarget
      by_cases ht : (w.mobj t1).type = mobjtype_t.MT_DROPTARGET_SHIELD
      · rw [if_pos ht]
      · rw [if_neg ht]

/-- The dragged drop target of `draggedDropTargetWorld` is hit by an orbinaut:
no guard holds, the handler returns, and the hit-lag goes to the wielder
(object `2`), the drop target and the orbinaut, 6 tics each. -/
theorem hitlag_atomicity_witness :
    ¬ dropTargetGuards 0 1 draggedDropTargetWorld
    ∧ (∃ r pre post, K_DropTargetCollide (sampleEnv []) 0 1 draggedDropTargetWorld = some (true, r)
        ∧ r.trace = draggedDropTargetWorld.trace ++ pre
          ++ [Effect.K_AddHitLag (some 2) 6 false]
          ++ [Effect.K_AddHitLag (some 0) 6 true, Effect.K_AddHitLag (some 1) 6 false] ++ post
        ∧ (∀ e ∈ pre ++ post, e.isHitLag = false))
    ∧ ((K_DropTargetCollide (sampleEnv []) 0 1 draggedDropTargetWorld).map
          (fun r => r.2.trace.filter Effect.isHitLag)
        = some [Effect.K_AddHitLag (some 2) 6 false, Effect.K_AddHitLag (some 0) 6 true,
            Effect.K_AddHitLag (some 1) 6 false]) := by
  have hg : ¬ dropTargetGuards 0 1 draggedDropTargetWorld := by
    unfold dropTargetGuards
    rintro (h | h | ⟨p, hp, -⟩)
    · exact absurd h (by decide)
    · exact absurd h (by decide)
    · have hnone : (draggedDropTargetWorld.mobj 1).player = none := by decide
      rw [hnone] at hp
      exact absurd hp (by simp)
  refine ⟨hg, ?_, by decide⟩
  exact (hitlag_atomicity (sampleEnv []) 0 1 draggedDropTargetWorld).2.2 hg
    ⟨fun _ _ _ _ => ⟨rfl, rfl⟩, fun _ _ _ => ⟨rfl, rfl⟩, fun _ _ _ _ => ⟨rfl, rfl⟩⟩ (by decide)

/-! ### The bubble shield -/

/-- The `INT32` value agrees with the arithmetic result modulo `2^32`. -/
theorem wrapINT32_emod (v : Int) : wrapINT32 v % 2 ^ 32 = v % 2 ^ 32 := by
  unfold wrapINT32 INT32_of
  split_ifs <;> omega

/-- The `INT32` value lies in the range of an `INT32`. -/
theorem wrapINT32_range (v : Int) : -2 ^ 31 ≤ wrapINT32 v ∧ wrapINT32 v < 2 ^ 31 := by
  unfold wrapINT32 INT32_of
  split_ifs <;> omega

/-- A result that fits an `INT32` is stored as it is. -/
theorem wrapINT32_of_fits (v : Int) (hlo : -2 ^ 31 ≤ v) (hhi : v < 2 ^ 31) : wrapINT32 v = v := by
  unfold wrapINT32 INT32_of
  split_ifs <;> omega

theorem wrapINT32_congr (a b : Int) (h : a % 2 ^ 32 = b % 2 ^ 32) : wrapINT32 a = wrapINT32 b := by
  unfold wrapINT32
  rw [h]

/-- The kick of the source, `momz + (24*scale) * flip` with every step in
`INT32` arithmetic, is the exact sum taken modulo `2^32` once. -/
theorem wrapINT32_kick (momz scale flip : Int) :
    wrapINT32 (momz + wrapINT32 (wrapINT32 (24 * scale) * flip))
      = wrapINT32 (momz + 24 * scale * flip) := by
  apply wrapINT32_congr
  have h2 : (wrapINT32 (24 * scale) * flip) % 2 ^ 32 = (24 * scale * flip) % 2 ^ 32 := by
    rw [Int.mul_emod, wrapINT32_emod, ← Int.mul_emod]
  rw [Int.add_emod, wrapINT32_emod, h2, ← Int.add_emod]

/-- C23 (bubble shield bounce-off and its cooldown).  Let neither `t1` nor
`t2` be of type `MT_PLAYER`, let `t2` not be of type `MT_DROPTARGET`, and let
`P_SetTarget` change the type of no object.  Then `K_BubbleShieldCollide`
returns `true`, and its calls are sounds and, for a `MT_JAWZ`, the
`P_SetTarget` of its tracer: no damage, no destruction.  If `t2->threshold` is
not `0` nothing happens.  If it is `0`, `t2` is reflected (`bubbleReflect`):
with horizontal momentum `momx`, `momy`, `momz` become their products by `-4`
modulo `2^32` and the angle advances by `ANGLE_180`; without, `momz` becomes
`momz + 24 * scale * flip` modulo `2^32`; then a `MT_JAWZ` gets its tracer set
to its target, `t2->threshold` becomes `10` and the sound `sfx_s3k44` is
played from `t1`.  Calling the handler again on the world it returned changes
nothing and makes no call.  "Modulo `2^32`" is `wrapINT32`: the value in the
range of an `INT32` that is congruent to the exact result, the exact result
itself when that fits. -/
theorem bubble_bounce (E : Env) (t1 t2 : Nat) (w : World)
    (ht1 : (w.mobj t1).type ≠ mobjtype_t.MT_PLAYER)
    (ht2 : (w.mobj t2).type ≠ mobjtype_t.MT_PLAYER)
    (hdt : (w.mobj t2).type ≠ mobjtype_t.MT_DROPTARGET)
    (hframe : ∀ (targ : Option Nat) (h : Heap) (o : Nat),
      (E.call (Effect.P_SetTarget_tracer t2 targ) h o).type = (h o).type) :
    ∃ r l, K_BubbleShieldCollide E t1 t2 w = some (true, r)
      ∧ r.trace = w.trace ++ l
      ∧ (∀ e ∈ l, e = Effect.S_StartSound (some t1) sfxenum_t.sfx_s3k44
          ∨ e = Effect.P_SetTarget_tracer t2 (w.mobj t2).target)
      ∧ ((w.mobj t2).threshold ≠ 0 → r = w)
      ∧ ((w.mobj t2).threshold = 0 →
          (r.mobj t2).threshold = 10
          ∧ ((w.mobj t2).type ≠ mobjtype_t.MT_JAWZ →
              r = (w.set t2 { bubbleReflect E (w.mobj t2) with threshold := 10 }).log
                    (Effect.S_StartSound (some t1) sfxenum_t.sfx_s3k44))
          ∧ ((w.mobj t2).type = mobjtype_t.MT_JAWZ →
              ∃ w1, w1 = (w.set t2 (bubbleReflect E (w.mobj t2))).emit E
                    (Effect.P_SetTarget_tracer t2 (w.mobj t2).target)
                ∧ r = (w1.set t2 { w1.mobj t2 with threshold := 10 }).log
                    (Effect.S_StartSound (some t1) sfxenum_t.sfx_s3k44)))
      ∧ K_BubbleShieldCollide E t1 t2 r = some (true, r)
      ∧ (¬ ((w.mobj t2).momx = 0 ∧ (w.mobj t2).momy = 0) →
          bubbleReflect E (w.mobj t2) = { w.mobj t2 with
            momx := wrapINT32 (-4 * (w.mobj t2).momx),
            momy := wrapINT32 (-4 * (w.mobj t2).momy),
            momz := wrapINT32 (-4 * (w.mobj t2).momz),
            angle := ((w.mobj t2).angle + E.ANGLE_180) % 2 ^ 32 })
      ∧ (((w.mobj t2).momx = 0 ∧ (w.mobj t2).momy = 0) →
          bubbleReflect E (w.mobj t2) = { w.mobj t2 with
            momz := wrapINT32 ((w.mobj t2).momz
              + 24 * (w.mobj t2).scale * E.P_MobjFlip (w.mobj t2)) })
      ∧ (∀ v : Int, wrapINT32 v % 2 ^ 32 = v % 2 ^ 32
          ∧ -2 ^ 31 ≤ wrapINT32 v ∧ wrapINT32 v < 2 ^ 31
          ∧ (-2 ^ 31 ≤ v → v < 2 ^ 31 → wrapINT32 v = v)) := by
  have hspec : (¬ ((w.mobj t2).momx = 0 ∧ (w.mobj t2).momy = 0) →
        bubbleReflect E (w.mobj t2) = { w.mobj t2 with
          momx := wrapINT32 (-4 * (w.mobj t2).momx),
          momy := wrapINT32 (-4 * (w.mobj t2).momy),
          momz := wrapINT32 (-4 * (w.mobj t2).momz),
          angle := ((w.mobj t2).angle + E.ANGLE_180) % 2 ^ 32 })
      ∧ (((w.mobj t2).momx = 0 ∧ (w.mobj t2).momy = 0) →
        bubbleReflect E (w.mobj t2) = { w.mobj t2 with
          momz := wrapINT32 ((w.mobj t2).momz
            + 24 * (w.mobj t2).scale * E.P_MobjFlip (w.mobj t2)) })
      ∧ (∀ v : Int, wrapINT32 v % 2 ^ 32 = v % 2 ^ 32
        ∧ -2 ^ 31 ≤ wrapINT32 v ∧ wrapINT32 v < 2 ^ 31
        ∧ (-2 ^ 31 ≤ v → v < 2 ^ 31 → wrapINT32 v = v)) := by
    refine ⟨?_, ?_, fun v => ⟨wrapINT32_emod v, (wrapINT32_range v).1, (wrapINT32_range v).2,
      wrapINT32_of_fits v⟩⟩
    · intro h
      unfold bubbleReflect
      rw [if_neg h]
      rfl
    · intro h
      unfold bubbleReflect
      rw [if_pos h]
  have hnoop : ∀ v : World, (v.mobj t1).type ≠ mobjtype_t.MT_PLAYER →
      (v.mobj t2).type ≠ mobjtype_t.MT_PLAYER → (v.mobj t2).type ≠ mobjtype_t.MT_DROPTARGET →
      (v.mobj t2).threshold ≠ 0 → K_BubbleShieldCollide E t1 t2 v = some (true, v) := by
    intro v h1 h2 h3 h4
    unfold K_BubbleShieldCollide
    rw [if_neg h1, if_neg h2, if_neg (by tauto)]
  by_cases hth : (w.mobj t2).threshold = 0
  · -- the reflection
    have hrefl : (if (w.mobj t2).momx = 0 ∧ (w.mobj t2).momy = 0 then
          w.set t2 { w.mobj t2 with
            momz := wrapINT32 ((w.mobj t2).momz
              + wrapINT32 (wrapINT32 (24 * (w.mobj t2).scale) * E.P_MobjFlip (w.mobj t2))) }
        else
          let w1 := w.set t2 { w.mobj t2 with momx := wrapINT32 (-4 * (w.mobj t2).momx) }
          let w2 := w1.set t2 { w1.mobj t2 with momy := wrapINT32 (-4 * (w1.mobj t2).momy) }
          let w3 := w2.set t2 { w2.mobj t2 with momz := wrapINT32 (-4 * (w2.mobj t2).momz) }
          w3.set t2 { w3.mobj t2 with angle := angle_t ((w3.mobj t2).angle + E.ANGLE_180) })
        = w.set t2 (bubbleReflect E (w.mobj t2)) := by
      unfold bubbleReflect
      split_ifs
      · rw [wrapINT32_kick]
      · simp [World.set, Function.update_same]
    have htype : (bubbleReflect E (w.mobj t2)).type = (w.mobj t2).type := by
      unfold bubbleReflect
      split_ifs <;> rfl
    have htarget : (bubbleReflect E (w.mobj t2)).target = (w.mobj t2).target := by
      unfold bubbleReflect
      split_ifs <;> rfl
    have hsettype : ∀ o, ((w.set t2 (bubbleReflect E (w.mobj t2))).mobj o).type = (w.mobj o).type := by
      intro o
      simp only [World.set]
      by_cases ho : o = t2
      · subst ho
        rw [Function.update_same, htype]
      · rw [Function.update_noteq ho]
    by_cases hj : (w.mobj t2).type = mobjtype_t.MT_JAWZ
    · -- a jawz: its tracer is set
      have hres : K_BubbleShieldCollide E t1 t2 w
          = some (true, (World.set ((w.set t2 (bubbleReflect E (w.mobj t2))).emit E
                (Effect.P_SetTarget_tracer t2 (w.mobj t2).target)) t2
              { ((w.set t2 (bubbleReflect E (w.mobj t2))).emit E
                  (Effect.P_SetTarget_tracer t2 (w.mobj t2).target)).mobj t2 with
                threshold := 10 }).log (Effect.S_StartSound (some t1) sfxenum_t.sfx_s3k44)) := by
        unfold K_BubbleShieldCollide
        rw [if_neg ht1, if_neg ht2, if_pos (Or.inl hth)]
        simp only []
        rw [hrefl]
        have h1 : ((w.set t2 (bubbleReflect E (w.mobj t2))).mobj t2).type = mobjtype_t.MT_JAWZ := by
          rw [hsettype, hj]
        have h2 : ((w.set t2 (bubbleReflect E (w.mobj t2))).mobj t2).target = (w.mobj t2).target := by
          simp only [World.set, Function.update_same]
          exact htarget
        rw [if_pos h1, h2]
      have hrtype : ∀ o, (((World.set ((w.set t2 (bubbleReflect E (w.mobj t2))).emit E
                (Effect.P_SetTarget_tracer t2 (w.mobj t2).target)) t2
              { ((w.set t2 (bubbleReflect E (w.mobj t2))).emit E
                  (Effect.P_SetTarget_tracer t2 (w.mobj t2).target)).mobj t2 with
                threshold := 10 }).log (Effect.S_StartSound (some t1) sfxenum_t.sfx_s3k44)).mobj o).type
            = (w.mobj o).type := by
        intro o
        simp only [World.log, World.set, World.emit]
        by_cases ho : o = t2
        · subst ho
          rw [Function.update_same]
          simp only []
          rw [hframe]
          exact hsettype o
        · rw [Function.update_noteq ho, hframe]
          exact hsettype o
      refine ⟨_, [Effect.P_SetTarget_tracer t2 (w.mobj t2).target,
        Effect.S_StartSound (some t1) sfxenum_t.sfx_s3k44], hres, ?_, ?_, ?_, ?_, ?_, hspec⟩
      · simp [World.log, World.set, World.emit]
      · intro e he
        simp only [List.mem_cons, List.mem_singleton, List.not_mem_nil, or_false] at he
        rcases he with rfl | rfl
        · exact Or.inr rfl
        · exact Or.inl rfl
      · intro h
        exact absurd hth h
      · intro _
        refine ⟨?_, fun h => absurd hj h, fun _ => ⟨_, rfl, rfl⟩⟩
        simp [World.log, World.set, Function.update_same]
      · apply hnoop
        · rw [hrtype]; exact ht1
        · rw [hrtype]; exact ht2
        · rw [hrtype]; exact hdt
        · simp [World.log, World.set, Function.update_same]
    · -- any other object
      have hres : K_BubbleShieldCollide E t1 t2 w
          = some (true, (w.set t2 { bubbleReflect E (w.mobj t2) with threshold := 10 }).log
              (Effect.S_StartSound (some t1) sfxenum_t.sfx_s3k44)) := by
        unfold K_BubbleShieldCollide
        rw [if_neg ht1, if_neg ht2, if_pos (Or.inl hth)]
        simp only []
        rw [hrefl]
        have h1 : ¬ ((w.set t2 (bubbleReflect E (w.mobj t2))).mobj t2).type = mobjtype_t.MT_JAWZ := by
          rw [hsettype]
          exact hj
        rw [if_neg h1]
        simp [World.set, Function.update_same]
      have hrtype : ∀ o, (((w.set t2 { bubbleReflect E (w.mobj t2) with threshold := 10 }).log
              (Effect.S_StartSound (some t1) sfxenum_t.sfx_s3k44)).mobj o).type
            = (w.mobj o).type := by
        intro o
        simp only [World.log, World.set]
        by_cases ho : o = t2
        · subst ho
          rw [Function.update_same]
          exact htype
        · rw [Function.update_noteq ho]
      refine ⟨_, [Effect.S_StartSound (some t1) sfxenum_t.sfx_s3k44], hres, ?_, ?_, ?_, ?_, ?_,
        hspec⟩
      · simp [World.log, World.set]
      · intro e he
        simp only [List.mem_singleton] at he
        exact Or.inl he
      · intro h
        exact absurd hth h
      · intro _
        refine ⟨?_, fun _ => rfl, fun h => absurd h hj⟩
        simp [World.log, World.set, Function.update_same]
      · apply hnoop
        · rw [hrtype]; exact ht1
        · rw [hrtype]; exact ht2
        · rw [hrtype]; exact hdt
        · simp [World.log, World.set, Function.update_same]
  · -- the cooldown is running: nothing happens
    refine ⟨w, [], hnoop w ht1 ht2 hdt hth, by simp, by simp, fun _ => rfl,
      fun h => absurd h hth, hnoop w ht1 ht2 hdt hth, hspec⟩

/-- The orbinaut of `bubbleWorld` bounces off the bubble shield: its momentum
`(3, -2, 1)` becomes `(-12, 8, -4)` (in units of `FRACUNIT`), it is turned
from `0xC0000000` to `0x40000000`, its threshold is `10`, the only call is the
sound, and a second call changes nothing.  The fast orbinaut of
`fastBubbleWorld` has `momx = 0x30000000`: the product by `-4` wraps to
`0x40000000 = 1073741824`.  The resting, flipped object of
`restingBubbleWorld` is kicked from `momz = FRACUNIT` to `-23 * FRACUNIT`. -/
theorem bubble_bounce_witness :
    (∃ r, K_BubbleShieldCollide (sampleEnv []) 0 1 bubbleWorld = some (true, r)
      ∧ r.trace = [Effect.S_StartSound (some 0) sfxenum_t.sfx_s3k44]
      ∧ ((r.mobj 1).momx, (r.mobj 1).momy, (r.mobj 1).momz, (r.mobj 1).angle, (r.mobj 1).threshold)
          = (-(12 * 65536), 8 * 65536, -(4 * 65536), 0x40000000, 10)
      ∧ K_BubbleShieldCollide (sampleEnv []) 0 1 r = some (true, r))
    ∧ (∃ r, K_BubbleShieldCollide (sampleEnv []) 0 1 fastBubbleWorld = some (true, r)
      ∧ ((r.mobj 1).momx, (r.mobj 1).momy, (r.mobj 1).momz, (r.mobj 1).angle, (r.mobj 1).threshold)
          = (1073741824, 8 * 65536, -(4 * 65536), 0x80000000, 10)
      ∧ K_BubbleShieldCollide (sampleEnv []) 0 1 r = some (true, r))
    ∧ (∃ r, K_BubbleShieldCollide (sampleEnv []) 0 1 restingBubbleWorld = some (true, r)
      ∧ ((r.mobj 1).momx, (r.mobj 1).momy, (r.mobj 1).momz, (r.mobj 1).angle, (r.mobj 1).threshold)
          = (0, 0, -(23 * 65536), 0, 10)
      ∧ K_BubbleShieldCollide (sampleEnv []) 0 1 r = some (true, r)) := by
  refine ⟨?_, ?_, ?_⟩
  · obtain ⟨r, l, hres, -, -, -, hrefl, hagain, -⟩ :=
      bubble_bounce (sampleEnv []) 0 1 bubbleWorld (by decide) (by decide) (by decide)
        (fun _ _ _ => rfl)
    obtain ⟨-, hr, -⟩ := hrefl (by decide)
    have hr2 := hr (by decide)
    refine ⟨r, hres, ?_, ?_, hagain⟩
    · rw [hr2]
      decide
    · rw [hr2]
      decide
  · obtain ⟨r, l, hres, -, -, -, hrefl, hagain, -⟩ :=
      bubble_bounce (sampleEnv []) 0 1 fastBubbleWorld (by decide) (by decide) (by decide)
        (fun _ _ _ => rfl)
    obtain ⟨-, hr, -⟩ := hrefl (by decide)
    have hr2 := hr (by decide)
    refine ⟨r, hres, ?_, hagain⟩
    rw [hr2]
    decide
  · obtain ⟨r, l, hres, -, -, -, hrefl, hagain, -⟩ :=
      bubble_bounce (sampleEnv []) 0 1 restingBubbleWorld (by decide) (by decide) (by decide)
        (fun _ _ _ => rfl)
    obtain ⟨-, hr, -⟩ := hrefl (by decide)
    have hr2 := hr (by decide)
    refine ⟨r, hres, ?_, hagain⟩
    rw [hr2]
    decide

/-! ### The order of the two leading guards -/

theorem K_BananaBallhogCollide_deadFirst_eq (E : Env) (t1 t2 : Nat) (w : World) :
    K_BananaBallhogCollide_deadFirst E t1 t2 w = K_BananaBallhogCollide E t1 t2 w := by
  unfold K_BananaBallhogCollide_deadFirst
  by_cases hdead : (w.mobj t1).health ≤ 0 ∨ (w.mobj t2).health ≤ 0
  · rw [if_pos hdead]
    unfold K_BananaBallhogCollide
    split_ifs <;> rfl
  · rw [if_neg hdead]
    split_ifs with hown
    · unfold K_BananaBallhogCollide
      rw [if_pos hown]
    · rfl

theorem K_MineCollide_deadFirst_eq (E : Env) (t1 t2 : Nat) (w : World) :
    K_MineCollide_deadFirst E t1 t2 w = K_MineCollide E t1 t2 w := by
  unfold K_MineCollide_deadFirst
  by_cases hdead : (w.mobj t1).health ≤ 0 ∨ (w.mobj t2).health ≤ 0
  · rw [if_pos hdead]
    unfold K_MineCollide
    split_ifs <;> rfl
  · rw [if_neg hdead]
    split_ifs with hown
    · unfold K_MineCollide
      rw [if_pos hown]
    · rfl

theorem K_LandMineCollide_deadFirst_eq (E : Env) (t1 t2 : Nat) (w : World) :
    K_LandMineCollide_deadFirst E t1 t2 w = K_LandMineCollide E t1 t2 w := by
  unfold K_LandMineCollide_deadFirst
  by_cases hdead : (w.mobj t1).health ≤ 0 ∨ (w.mobj t2).health ≤ 0
  · rw [if_pos hdead]
    unfold K_LandMineCollide
    split_ifs <;> rfl
  · rw [if_neg hdead]
    split_ifs with hown
    · unfold K_LandMineCollide
      rw [if_pos hown]
    · rfl

theorem K_DropTargetCollide_deadFirst_eq (E : Env) (t1 t2 : Nat) (w : World) :
    K_DropTargetCollide_deadFirst E t1 t2 w = K_DropTargetCollide E t1 t2 w := by
  unfold K_DropTargetCollide_deadFirst
  by_cases hdead : (w.mobj t1).health ≤ 0 ∨ (w.mobj t2).health ≤ 0
  · rw [if_pos hdead]
    unfold K_DropTargetCollide
    simp only []
    split_ifs <;> rfl
  · rw [if_neg hdead]
    split_ifs with hown
    · unfold K_DropTargetCollide
      simp only []
      rw [if_pos hown]
    · rfl

theorem K_EggItemCollide_deadFirst_eq (E : Env) (t1 t2 : Nat) (w : World) :
    K_EggItemCollide_deadFirst E t1 t2 w = K_EggItemCollide E t1 t2 w := by
  unfold K_EggItemCollide_deadFirst
  by_cases hbox : (w.mobj t2).type = mobjtype_t.MT_RANDOMITEM
      ∨ (w.mobj t2).type = mobjtype_t.MT_EGGMANITEM
  · rw [if_pos hbox]
  · rw [if_neg hbox]
    cases hp : (w.mobj t2).player with
    | none =>
      unfold K_EggItemCollide
      rw [if_neg hbox, hp]
    | some p2 =>
      simp only []
      by_cases hdead : (w.mobj t1).health ≤ 0 ∨ (w.mobj t2).health ≤ 0
      · rw [if_pos hdead]
        unfold K_EggItemCollide
        rw [if_neg hbox, hp]
        simp only []
        split_ifs <;> rfl
      · rw [if_neg hdead]
        split_ifs with hown
        · unfold K_EggItemCollide
          rw [if_neg hbox, hp]
          simp only []
          rw [if_pos hown]
        · rfl

/-- C24, refutation.  No pair state with a dead object makes one of the five
handlers differ from the handler with its dead-object guard evaluated before
its ownership guard.  On `deadOwnBananaWorld`, where an object is dead while
every ownership window is open, the five handlers and their reordered
variants all return `true` and leave the world as it is. -/
theorem guard_order_counterexample :
    (¬ ∃ (E : Env) (t1 t2 : Nat) (w : World),
        ((w.mobj t1).health ≤ 0 ∨ (w.mobj t2).health ≤ 0)
        ∧ (K_BananaBallhogCollide_deadFirst E t1 t2 w ≠ K_BananaBallhogCollide E t1 t2 w
          ∨ K_MineCollide_deadFirst E t1 t2 w ≠ K_MineCollide E t1 t2 w
          ∨ K_LandMineCollide_deadFirst E t1 t2 w ≠ K_LandMineCollide E t1 t2 w
          ∨ K_DropTargetCollide_deadFirst E t1 t2 w ≠ K_DropTargetCollide E t1 t2 w
          ∨ K_EggItemCollide_deadFirst E t1 t2 w ≠ K_EggItemCollide E t1 t2 w))
    ∧ ((deadOwnBananaWorld.mobj 0).health ≤ 0
      ∧ (deadOwnBananaWorld.mobj 0).target = some 1 ∧ (deadOwnBananaWorld.mobj 0).threshold > 0)
    ∧ K_BananaBallhogCollide (sampleEnv []) 0 1 deadOwnBananaWorld = (true, deadOwnBananaWorld)
    ∧ K_BananaBallhogCollide_deadFirst (sampleEnv []) 0 1 deadOwnBananaWorld
        = (true, deadOwnBananaWorld)
    ∧ K_MineCollide (sampleEnv []) 0 1 deadOwnBananaWorld = (true, deadOwnBananaWorld)
    ∧ K_MineCollide_deadFirst (sampleEnv []) 0 1 deadOwnBananaWorld = (true, deadOwnBananaWorld)
    ∧ K_LandMineCollide (sampleEnv []) 0 1 deadOwnBananaWorld = (true, deadOwnBananaWorld)
    ∧ K_LandMineCollide_deadFirst (sampleEnv []) 0 1 deadOwnBananaWorld
        = (true, deadOwnBananaWorld)
    ∧ K_DropTargetCollide (sampleEnv []) 0 1 deadOwnBananaWorld = some (true, deadOwnBananaWorld)
    ∧ K_DropTargetCollide_deadFirst (sampleEnv []) 0 1 deadOwnBananaWorld
        = some (true, deadOwnBananaWorld)
    ∧ K_EggItemCollide (sampleEnv []) 0 1 deadOwnBananaWorld = some (true, deadOwnBananaWorld)
    ∧ K_EggItemCollide_deadFirst (sampleEnv []) 0 1 deadOwnBananaWorld
        = some (true, deadOwnBananaWorld) := by
  refine ⟨?_, by decide, ?_, ?_, ?_, ?_, ?_, ?_, ?_, ?_, ?_, ?_⟩
  · rintro ⟨E, t1, t2, w, -, h | h | h | h | h⟩
    · exact h (K_BananaBallhogCollide_deadFirst_eq E t1 t2 w)
    · exact h (K_MineCollide_deadFirst_eq E t1 t2 w)
    · exact h (K_LandMineCollide_deadFirst_eq E t1 t2 w)
    · exact h (K_DropTargetCollide_deadFirst_eq E t1 t2 w)
    · exact h (K_EggItemCollide_deadFirst_eq E t1 t2 w)
  · unfold K_BananaBallhogCollide
    rw [if_pos (by decide)]
  · unfold K_BananaBallhogCollide_deadFirst
    rw [if_pos (by decide)]
  · unfold K_MineCollide
    rw [if_pos (by decide)]
  · unfold K_MineCollide_deadFirst
    rw [if_pos (by decide)]
  · unfold K_LandMineCollide
    rw [if_pos (by decide)]
  · unfold K_LandMineCollide_deadFirst
    rw [if_pos (by decide)]
  · unfold K_DropTargetCollide
    simp only []
    rw [if_pos (by decide)]
  · unfold K_DropTargetCollide_deadFirst
    rw [if_pos (by decide)]
  · unfold K_EggItemCollide
    rw [if_neg (by decide)]
    have hp : (deadOwnBananaWorld.mobj 1).player = some {} := by decide
    rw [hp]
    simp only []
    rw [if_pos (by decide)]
  · unfold K_EggItemCollide_deadFirst
    rw [if_neg (by decide)]
    have hp : (deadOwnBananaWorld.mobj 1).player = some {} := by decide
    rw [hp]
    simp only []
    rw [if_pos (by decide)]

/-- C24, amended.  For every pair state, each of `K_BananaBallhogCollide`,
`K_MineCollide`, `K_LandMineCollide`, `K_DropTargetCollide` and
`K_EggItemCollide` has the same outcome (return value, calls and fields) as
the handler with its dead-object guard evaluated before its ownership guard:
the two guards stand next to each other and both return `true` without any
effect.  In particular, with an object dead and past the push of
`K_EggItemCollide`, every one of them returns `true` and leaves the world as
it is, whether the ownership window is open or not. -/
theorem guard_order (E : Env) (t1 t2 : Nat) (w : World) :
    (K_BananaBallhogCollide_deadFirst E t1 t2 w = K_BananaBallhogCollide E t1 t2 w
      ∧ K_MineCollide_deadFirst E t1 t2 w = K_MineCollide E t1 t2 w
      ∧ K_LandMineCollide_deadFirst E t1 t2 w = K_LandMineCollide E t1 t2 w
      ∧ K_DropTargetCollide_deadFirst E t1 t2 w = K_DropTargetCollide E t1 t2 w
      ∧ K_EggItemCollide_deadFirst E t1 t2 w = K_EggItemCollide E t1 t2 w)
    ∧ (deadGuard t1 t2 w →
        K_BananaBallhogCollide E t1 t2 w = (true, w)
        ∧ K_MineCollide E t1 t2 w = (true, w)
        ∧ K_LandMineCollide E t1 t2 w = (true, w)
        ∧ K_DropTargetCollide E t1 t2 w = some (true, w)
        ∧ (¬ ((w.mobj t2).type = mobjtype_t.MT_RANDOMITEM
              ∨ (w.mobj t2).type = mobjtype_t.MT_EGGMANITEM) →
            K_EggItemCollide E t1 t2 w = some (true, w)))
    ∧ (ownershipGuard E t1 t2 w →
        K_BananaBallhogCollide E t1 t2 w = (true, w)
        ∧ K_MineCollide E t1 t2 w = (true, w)
        ∧ K_LandMineCollide E t1 t2 w = (true, w))
    ∧ (dropTargetOwnershipGuard t1 t2 w → K_DropTargetCollide E t1 t2 w = some (true, w))
    ∧ (eggOwnershipGuard t1 t2 w →
        ¬ ((w.mobj t2).type = mobjtype_t.MT_RANDOMITEM
            ∨ (w.mobj t2).type = mobjtype_t.MT_EGGMANITEM) →
        K_EggItemCollide E t1 t2 w = some (true, w)) := by
  refine ⟨⟨K_BananaBallhogCollide_deadFirst_eq E t1 t2 w, K_MineCollide_deadFirst_eq E t1 t2 w,
    K_LandMineCollide_deadFirst_eq E t1 t2 w, K_DropTargetCollide_deadFirst_eq E t1 t2 w,
    K_EggItemCollide_deadFirst_eq E t1 t2 w⟩, ?_, ?_, ?_, ?_⟩
  · intro hdead
    unfold deadGuard at hdead
    refine ⟨?_, ?_, ?_, ?_, ?_⟩
    · rw [← K_BananaBallhogCollide_deadFirst_eq]
      unfold K_BananaBallhogCollide_deadFirst
      rw [if_pos hdead]
    · rw [← K_MineCollide_deadFirst_eq]
      unfold K_MineCollide_deadFirst
      rw [if_pos hdead]
    · rw [← K_LandMineCollide_deadFirst_eq]
      unfold K_LandMineCollide_deadFirst
      rw [if_pos hdead]
    · rw [← K_DropTargetCollide_deadFirst_eq]
      unfold K_DropTargetCollide_deadFirst
      rw [if_pos hdead]
    · intro hbox
      rw [← K_EggItemCollide_deadFirst_eq]
      unfold K_EggItemCollide_deadFirst
      rw [if_neg hbox]
      cases (w.mobj t2).player with
      | none => rfl
      | some p => simp only []; rw [if_pos hdead]
  · intro hown
    unfold ownershipGuard at hown
    refine ⟨?_, ?_, ?_⟩
    · unfold K_BananaBallhogCollide
      rw [if_pos hown]
    · unfold K_MineCollide
      rw [if_pos hown]
    · unfold K_LandMineCollide
      rw [if_pos hown]
  · intro hown
    unfold dropTargetOwnershipGuard at hown
    unfold K_DropTargetCollide
    simp only []
    rw [if_pos hown]
  · intro hown hbox
    unfold eggOwnershipGuard at hown
    unfold K_EggItemCollide
    rw [if_neg hbox]
    cases (w.mobj t2).player with
    | none => rfl
    | some p => simp only []; rw [if_pos hown]

/-! ### Unreachable two-sided matches -/

/-- C25 (unreachable two-sided matches).  Outside the podium sequence, when
the power clash has not ended the touch (not both players are dominant):
the invincibility condition, the flame-dash condition and the size condition
each hold for at most one side; whenever the invincibility rule, the
flame-dash rule or the size rule fires, the side that receives the tumble,
the wipeout or the stumble is not dominant; and when both sides satisfy the
sneaker condition under `GTR_BUMPERS`, or neither does, or `GTR_BUMPERS` is
unset (and no earlier rule fires), the sneaker rule makes no call and the
handler falls through to the size rule and the ring sting
(`K_PvPTouchDamage_stumble`). -/
theorem unreachable_two_sided (E : Env) (t1 t2 : Nat) (w : World) (p1 p2 : player_t)
    (hpodium : E.K_PodiumSequence = false)
    (hp1 : (w.mobj t1).player = some p1) (hp2 : (w.mobj t2).player = some p2)
    (hnotboth : ¬ (dominant E (w.mobj t1) (w.mobj t2) p1 = true
      ∧ dominant E (w.mobj t2) (w.mobj t1) p2 = true)) :
    (¬ (p1.invincibilitytimer > 0 ∧ p2.invincibilitytimer > 0)
      ∧ ¬ ((p1.flamedash > 0 ∧ p1.itemtype = E.KITEM_FLAMESHIELD)
        ∧ (p2.flamedash > 0 ∧ p2.itemtype = E.KITEM_FLAMESHIELD))
      ∧ ¬ (E.K_IsBigger (w.mobj t1) (w.mobj t2) = true ∧ E.K_IsBigger (w.mobj t2) (w.mobj t1) = true))
    ∧ (p1.invincibilitytimer > 0 →
        K_PvPTouchDamage E t1 t2 w
            = some (true, w.emit E (Effect.P_DamageMobj t2 (some t1) (some t1) 1 E.DMG_TUMBLE))
          ∧ dominant E (w.mobj t2) (w.mobj t1) p2 = false)
    ∧ (p2.invincibilitytimer > 0 →
        K_PvPTouchDamage E t1 t2 w
            = some (true, w.emit E (Effect.P_DamageMobj t1 (some t2) (some t2) 1 E.DMG_TUMBLE))
          ∧ dominant E (w.mobj t1) (w.mobj t2) p1 = false)
    ∧ (¬ p1.invincibilitytimer > 0 → ¬ p2.invincibilitytimer > 0 →
        (p1.flamedash > 0 ∧ p1.itemtype = E.KITEM_FLAMESHIELD) →
        K_PvPTouchDamage E t1 t2 w
            = some (true, w.emit E (Effect.P_DamageMobj t2 (some t1) (some t1) 1
                (E.DMG_WIPEOUT ||| E.DMG_WOMBO)))
          ∧ dominant E (w.mobj t2) (w.mobj t1) p2 = false)
    ∧ (¬ p1.invincibilitytimer > 0 → ¬ p2.invincibilitytimer > 0 →
        (p2.flamedash > 0 ∧ p2.itemtype = E.KITEM_FLAMESHIELD) →
        K_PvPTouchDamage E t1 t2 w
            = some (true, w.emit E (Effect.P_DamageMobj t1 (some t2) (some t2) 1
                (E.DMG_WIPEOUT ||| E.DMG_WOMBO)))
          ∧ dominant E (w.mobj t1) (w.mobj t2) p1 = false)
    ∧ (E.K_IsBigger (w.mobj t1) (w.mobj t2) = true →
        dominant E (w.mobj t2) (w.mobj t1) p2 = false
          ∧ (K_PvPTouchDamage_stumble E t1 t2 p1 p2 w
              = some (true, w.emit E (Effect.K_StumblePlayer t2))))
    ∧ (E.K_IsBigger (w.mobj t2) (w.mobj t1) = true →
        dominant E (w.mobj t1) (w.mobj t2) p1 = false
          ∧ (K_PvPTouchDamage_stumble E t1 t2 p1 p2 w
              = some (true, w.emit E (Effect.K_StumblePlayer t1))))
    ∧ (¬ p1.invincibilitytimer > 0 → ¬ p2.invincibilitytimer > 0 →
        ¬ (p1.flamedash > 0 ∧ p1.itemtype = E.KITEM_FLAMESHIELD) →
        ¬ (p2.flamedash > 0 ∧ p2.itemtype = E.KITEM_FLAMESHIELD) →
        (E.gametyperules &&& E.GTR_BUMPERS = 0
          ∨ ((p1.sneakertimer > 0 ∧ E.P_PlayerInPain p1 = false ∧ p1.flashing = 0)
            ↔ (p2.sneakertimer > 0 ∧ E.P_PlayerInPain p2 = false ∧ p2.flashing = 0))) →
        K_PvPTouchDamage E t1 t2 w = K_PvPTouchDamage_stumble E t1 t2 p1 p2 w) := by
  have hdom1 : dominant E (w.mobj t1) (w.mobj t2) p1 = true →
      dominant E (w.mobj t2) (w.mobj t1) p2 = false := by
    intro h
    cases h2 : dominant E (w.mobj t2) (w.mobj t1) p2
    · rfl
    · exact absurd ⟨h, h2⟩ hnotboth
  have hdom2 : dominant E (w.mobj t2) (w.mobj t1) p2 = true →
      dominant E (w.mobj t1) (w.mobj t2) p1 = false := by
    intro h
    cases h1 : dominant E (w.mobj t1) (w.mobj t2) p1
    · rfl
    · exact absurd ⟨h1, h⟩ hnotboth
  have dinv : ∀ (m o : mobj_t) (p : player_t), p.invincibilitytimer > 0 → dominant E m o p = true := by
    intro m o p h
    simp [dominant, h]
  have dflame : ∀ (m o : mobj_t) (p : player_t),
      (p.flamedash > 0 ∧ p.itemtype = E.KITEM_FLAMESHIELD) → dominant E m o p = true := by
    intro m o p h
    simp [dominant, h.1, h.2]
  have dbig : ∀ (m o : mobj_t) (p : player_t), E.K_IsBigger m o = true → dominant E m o p = true := by
    intro m o p h
    simp [dominant, h]
  have ninv : ¬ (p1.invincibilitytimer > 0 ∧ p2.invincibilitytimer > 0) :=
    fun h => hnotboth ⟨dinv _ _ _ h.1, dinv _ _ _ h.2⟩
  have nflame : ¬ ((p1.flamedash > 0 ∧ p1.itemtype = E.KITEM_FLAMESHIELD)
      ∧ (p2.flamedash > 0 ∧ p2.itemtype = E.KITEM_FLAMESHIELD)) :=
    fun h => hnotboth ⟨dflame _ _ _ h.1, dflame _ _ _ h.2⟩
  have nbig : ¬ (E.K_IsBigger (w.mobj t1) (w.mobj t2) = true
      ∧ E.K_IsBigger (w.mobj t2) (w.mobj t1) = true) :=
    fun h => hnotboth ⟨dbig _ _ _ h.1, dbig _ _ _ h.2⟩
  have hrules := K_PvPTouchDamage_rules E t1 t2 w p1 p2 hpodium hp1 hp2
  rw [if_neg hnotboth] at hrules
  refine ⟨⟨ninv, nflame, nbig⟩, ?_, ?_, ?_, ?_, ?_, ?_, ?_⟩
  · intro h1
    have h2 : ¬ p2.invincibilitytimer > 0 := fun h => ninv ⟨h1, h⟩
    refine ⟨?_, hdom1 (dinv _ _ _ h1)⟩
    rw [hrules]
    simp [pvpChainReference, oneSided, h1, h2]
  · intro h2
    have h1 : ¬ p1.invincibilitytimer > 0 := fun h => ninv ⟨h, h2⟩
    refine ⟨?_, hdom2 (dinv _ _ _ h2)⟩
    rw [hrules]
    simp [pvpChainReference, oneSided, h1, h2]
  · intro h1 h2 f1
    have f2 : ¬ (p2.flamedash > 0 ∧ p2.itemtype = E.KITEM_FLAMESHIELD) := fun h => nflame ⟨f1, h⟩
    refine ⟨?_, hdom1 (dflame _ _ _ f1)⟩
    rw [hrules]
    have e1 : (decide (p1.flamedash > 0) && decide (p1.itemtype = E.KITEM_FLAMESHIELD)) = true := by
      simp [f1.1, f1.2]
    have e2 : (decide (p2.flamedash > 0) && decide (p2.itemtype = E.KITEM_FLAMESHIELD)) = false := by
      rw [Bool.eq_false_iff]
      intro h
      apply f2
      simpa using h
    simp only [pvpChainReference, oneSided, h1, h2, e1, e2, decide_False, Bool.false_eq_true,
      and_self, false_and, and_false, if_false, if_true, and_true]
  · intro h1 h2 f2
    have f1 : ¬ (p1.flamedash > 0 ∧ p1.itemtype = E.KITEM_FLAMESHIELD) := fun h => nflame ⟨h, f2⟩
    refine ⟨?_, hdom2 (dflame _ _ _ f2)⟩
    rw [hrules]
    have e2 : (decide (p2.flamedash > 0) && decide (p2.itemtype = E.KITEM_FLAMESHIELD)) = true := by
      simp [f2.1, f2.2]
    have e1 : (decide (p1.flamedash > 0) && decide (p1.itemtype = E.KITEM_FLAMESHIELD)) = false := by
      rw [Bool.eq_false_iff]
      intro h
      apply f1
      simpa using h
    simp only [pvpChainReference, oneSided, h1, h2, e1, e2, decide_False, Bool.false_eq_true,
      and_self, false_and, and_false, if_false, if_true, and_true]
  · intro b1
    have b2 : E.K_IsBigger (w.mobj t2) (w.mobj t1) = false := by
      cases h : E.K_IsBigger (w.mobj t2) (w.mobj t1)
      · rfl
      · exact absurd ⟨b1, h⟩ nbig
    refine ⟨hdom1 (dbig _ _ _ b1), ?_⟩
    unfold K_PvPTouchDamage_stumble
    simp [b1, b2]
  · intro b2
    have b1 : E.K_IsBigger (w.mobj t1) (w.mobj t2) = false := by
      cases h : E.K_IsBigger (w.mobj t1) (w.mobj t2)
      · rfl
      · exact absurd ⟨h, b2⟩ nbig
    refine ⟨hdom2 (dbig _ _ _ b2), ?_⟩
    unfold K_PvPTouchDamage_stumble
    simp [b1, b2]
  · intro h1 h2 f1 f2 hsn
    unfold K_PvPTouchDamage
    simp only [hpodium, hp1, hp2, Bool.false_eq_true, if_false, beq_true]
    have hd : ¬ (((E.K_IsBigger (w.mobj t1) (w.mobj t2) || decide (p1.invincibilitytimer > 0)
          || (decide (p1.flamedash > 0) && decide (p1.itemtype = E.KITEM_FLAMESHIELD))
          || (decide (p1.curshield = E.KSHIELD_TOP) && !E.K_IsHoldingDownTop p1)) = true)
        ∧ ((E.K_IsBigger (w.mobj t2) (w.mobj t1) || decide (p2.invincibilitytimer > 0)
          || (decide (p2.flamedash > 0) && decide (p2.itemtype = E.KITEM_FLAMESHIELD))
          || (decide (p2.curshield = E.KSHIELD_TOP) && !E.K_IsHoldingDownTop p2)) = true)) := by
      unfold dominant at hnotboth
      exact hnotboth
    rw [if_neg hd]
    have e1 : (decide (p1.flamedash > 0) && decide (p1.itemtype = E.KITEM_FLAMESHIELD)) = false := by
      rw [Bool.eq_false_iff]
      intro h
      apply f1
      simpa using h
    have e2 : (decide (p2.flamedash > 0) && decide (p2.itemtype = E.KITEM_FLAMESHIELD)) = false := by
      rw [Bool.eq_false_iff]
      intro h
      apply f2
      simpa using h
    simp only [h1, h2, e1, e2, decide_False, Bool.false_eq_true, and_self, false_and, and_false,
      if_false]
    rcases hsn with hg | hiff
    · rw [if_neg (by simpa using hg)]
    · have hc : (decide (p1.sneakertimer > 0) && !E.P_PlayerInPain p1 && decide (p1.flashing = 0))
          = (decide (p2.sneakertimer > 0) && !E.P_PlayerInPain p2 && decide (p2.flashing = 0)) := by
        rw [Bool.eq_iff_iff]
        simpa [and_assoc] using hiff
      by_cases hg : E.gametyperules &&& E.GTR_BUMPERS ≠ 0
      · rw [if_pos hg, hc]
        cases (decide (p2.sneakertimer > 0) && !E.P_PlayerInPain p2 && decide (p2.flashing = 0)) <;>
          simp
      · rw [if_neg hg]

/-- Two boosting players of `sneakersWorld` touch in battle: both satisfy the
sneaker condition, the sneaker rule makes no call, and the handler goes on to
the ring sting, which stings the first player. -/
theorem unreachable_two_sided_witness :
    K_PvPTouchDamage battleEnv 0 1 sneakersWorld
        = K_PvPTouchDamage_stumble battleEnv 0 1 { sneakertimer := 5, rings := 0 }
            { sneakertimer := 5, rings := 5 } sneakersWorld
    ∧ (K_PvPTouchDamage battleEnv 0 1 sneakersWorld).map (fun r => (r.1, r.2.trace))
        = some (true, [Effect.P_PlayerRingBurst 1 1,
            Effect.P_DamageMobj 0 (some 1) (some 1) 1 (4 ||| 0x40000000),
            Effect.P_PlayerRingBurst 0 1]) :=
  ⟨(unreachable_two_sided battleEnv 0 1 sneakersWorld { sneakertimer := 5, rings := 0 }
      { sneakertimer := 5, rings := 5 } (by decide) (by decide) (by decide) (by decide)).2.2.2.2.2.2.2
      (by decide) (by decide) (by decide) (by decide)
      (Or.inr ⟨fun _ => by decide, fun _ => by decide⟩), by decide⟩

/-! ### The return value of the player-versus-player touch -/

/-- The ring sting, whenever it returns: it returns `true` exactly when one of
the calls it made is a hit. -/
theorem K_PvPTouchDamage_sting_hits (E : Env) (t1 t2 : Nat) (p1 p2 : player_t) (w : World)
    (r : Bool × World) (hr : K_PvPTouchDamage_sting E t1 t2 p1 p2 w = some r) :
    ∃ l, r.2.trace = w.trace ++ l ∧ (r.1 = true ↔ ∃ e ∈ l, e.isHit = true) := by
  unfold K_PvPTouchDamage_sting at hr
  simp only [decide_eq_true_eq] at hr
  by_cases a2 : E.K_GetShieldFromItem p2.itemtype = E.KSHIELD_NONE <;>
    by_cases a1 : E.K_GetShieldFromItem p1.itemtype = E.KSHIELD_NONE <;>
    by_cases r2 : p2.rings ≤ 0 <;>
    simp only [a1, a2, r2, if_true, if_false] at hr
  all_goals first
    | (split at hr
       · exact absurd hr (by simp)
       · rename_i stungT1 w1 hside
         split at hside
         · exact absurd hside (by simp)
         · rename_i q1 hq1
           simp only [Option.some.injEq, Prod.mk.injEq] at hside hr
           obtain ⟨rfl, rfl⟩ := hside
           obtain rfl := hr
           by_cases r1 : q1.rings ≤ 0 <;>
             simp [r1, World.emit, World.set, Effect.isHit])
    | (simp only [Option.some.injEq] at hr
       obtain rfl := hr
       simp [World.emit, World.set, Effect.isHit])


theorem pvpChainReference_isHit (E : Env) (t1 t2 : Nat) (m1 m2 : mobj_t) (p1 p2 : player_t)
    (e : Effect) (he : pvpChainReference E t1 t2 m1 m2 p1 p2 = some e) : e.isHit = true := by
  unfold pvpChainReference at he
  revert he
  cases oneSided (decide (p1.invincibilitytimer > 0)) (decide (p2.invincibilitytimer > 0)) t1 t2 with
  | some ab => intro he; obtain rfl := Option.some.inj he; rfl
  | none =>
    cases oneSided (decide (p1.flamedash > 0) && decide (p1.itemtype = E.KITEM_FLAMESHIELD))
      (decide (p2.flamedash > 0) && decide (p2.itemtype = E.KITEM_FLAMESHIELD)) t1 t2 with
    | some ab => intro he; obtain rfl := Option.some.inj he; rfl
    | none =>
      cases (if E.gametyperules &&& E.GTR_BUMPERS ≠ 0 then
        oneSided (decide (p1.sneakertimer > 0) && !E.P_PlayerInPain p1 && decide (p1.flashing = 0))
          (decide (p2.sneakertimer > 0) && !E.P_PlayerInPain p2 && decide (p2.flashing = 0)) t1 t2
        else none) with
      | some ab => intro he; obtain rfl := Option.some.inj he; rfl
      | none =>
        cases oneSided (E.K_IsBigger m1 m2) (E.K_IsBigger m2 m1) t1 t2 with
        | some ab => intro he; obtain rfl := Option.some.inj he; rfl
        | none => intro he; exact absurd he (by simp)

/-- C26 (return value of the player-versus-player touch).  Whenever
`K_PvPTouchDamage` returns, it returns `true` if and only if one of the calls
it made is a `P_DamageMobj` or a `K_StumblePlayer`.  In the podium sequence it
returns `false` and makes no call; on a power clash it returns `false` and the
only call is `K_DoPowerClash`; in the ring sting with no side stung it returns
`false` and its calls are ring bursts only.  For two distinct players whose
collaborators satisfy `RingsFrame`, the handler does return. -/
theorem pvp_return_value (E : Env) (t1 t2 : Nat) (w : World) (p1 p2 : player_t)
    (hp1 : (w.mobj t1).player = some p1) (hp2 : (w.mobj t2).player = some p2) :
    (∀ r, K_PvPTouchDamage E t1 t2 w = some r →
        ∃ l, r.2.trace = w.trace ++ l ∧ (r.1 = true ↔ ∃ e ∈ l, e.isHit = true))
    ∧ (E.K_PodiumSequence = true → K_PvPTouchDamage E t1 t2 w = some (false, w))
    ∧ (E.K_PodiumSequence = false →
        dominant E (w.mobj t1) (w.mobj t2) p1 = true ∧ dominant E (w.mobj t2) (w.mobj t1) p2 = true →
        K_PvPTouchDamage E t1 t2 w = some (false, w.emit E (Effect.K_DoPowerClash t1 t2)))
    ∧ (E.K_PodiumSequence = false → RingsFrame E → t1 ≠ t2 →
        ¬ (dominant E (w.mobj t1) (w.mobj t2) p1 = true
          ∧ dominant E (w.mobj t2) (w.mobj t1) p2 = true) →
        pvpChainReference E t1 t2 (w.mobj t1) (w.mobj t2) p1 p2 = none →
        isStung E p1 = false → isStung E p2 = false →
        K_PvPTouchDamage E t1 t2 w
            = some (false, emitAll E (stingCalls E t2 t1 p2 ++ stingCalls E t1 t2 p1) w)
          ∧ ∀ e ∈ stingCalls E t2 t1 p2 ++ stingCalls E t1 t2 p1, ∃ s, e = Effect.P_PlayerRingBurst s 1)
    ∧ (RingsFrame E → t1 ≠ t2 → ∃ r, K_PvPTouchDamage E t1 t2 w = some r) := by
  have hpod : E.K_PodiumSequence = true → K_PvPTouchDamage E t1 t2 w = some (false, w) := by
    intro h
    unfold K_PvPTouchDamage
    rw [if_pos h]
  have hsting : RingsFrame E → t1 ≠ t2 → K_PvPTouchDamage_sting E t1 t2 p1 p2 w
      = some (isStung E p1 || isStung E p2,
          clearDamageHitlag E (noHitlagSide E t1 t2 p1 p2)
            (emitAll E (stingCalls E t2 t1 p2 ++ stingCalls E t1 t2 p1) w)) := by
    intro hframe hne
    have hq := stingCalls_rings E hframe t2 t1 p2 w hne
    rw [hp1] at hq
    exact K_PvPTouchDamage_sting_eq E t1 t2 p1 p2 w hq
  refine ⟨?_, hpod, ?_, ?_, ?_⟩
  · intro r hr
    cases hpodium : E.K_PodiumSequence with
    | true =>
      rw [hpod hpodium] at hr
      obtain rfl := Option.some.inj hr
      exact ⟨[], by simp, by simp⟩
    | false =>
      rw [K_PvPTouchDamage_rules E t1 t2 w p1 p2 hpodium hp1 hp2] at hr
      by_cases hdom : dominant E (w.mobj t1) (w.mobj t2) p1 = true
          ∧ dominant E (w.mobj t2) (w.mobj t1) p2 = true
      · rw [if_pos hdom] at hr
        obtain rfl := Option.some.inj hr
        exact ⟨[Effect.K_DoPowerClash t1 t2], rfl, by simp [Effect.isHit]⟩
      · rw [if_neg hdom] at hr
        cases href : pvpChainReference E t1 t2 (w.mobj t1) (w.mobj t2) p1 p2 with
        | none =>
          rw [href] at hr
          exact K_PvPTouchDamage_sting_hits E t1 t2 p1 p2 w r hr
        | some e =>
          rw [href] at hr
          obtain rfl := Option.some.inj hr
          refine ⟨[e], rfl, ?_⟩
          have := pvpChainReference_isHit E t1 t2 _ _ p1 p2 e href
          simp [this]
  · intro hpodium hdom
    rw [K_PvPTouchDamage_rules E t1 t2 w p1 p2 hpodium hp1 hp2, if_pos hdom]
  · intro hpodium hframe hne hdom href hs1 hs2
    constructor
    · rw [K_PvPTouchDamage_rules E t1 t2 w p1 p2 hpodium hp1 hp2, if_neg hdom, href]
      simp only []
      rw [hsting hframe hne, hs1, hs2]
      simp [noHitlagSide, hs1, hs2, clearDamageHitlag]
    · intro e he
      unfold isStung at hs1 hs2
      unfold stingCalls at he
      by_cases a1 : E.K_GetShieldFromItem p1.itemtype = E.KSHIELD_NONE <;>
        by_cases a2 : E.K_GetShieldFromItem p2.itemtype = E.KSHIELD_NONE <;>
        simp [a1, a2] at hs1 hs2 he
      · have h1 : ¬ p1.rings ≤ 0 := by omega
        have h2 : ¬ p2.rings ≤ 0 := by omega
        simp [h1, h2] at he
        rcases he with rfl | rfl
        · exact ⟨t2, rfl⟩
        · exact ⟨t1, rfl⟩
      · have h1 : ¬ p1.rings ≤ 0 := by omega
        simp [h1] at he
        exact ⟨t1, he⟩
      · have h2 : ¬ p2.rings ≤ 0 := by omega
        simp [h2] at he
        exact ⟨t2, he⟩
  · intro hframe hne
    cases hpodium : E.K_PodiumSequence with
    | true => exact ⟨_, hpod hpodium⟩
    | false =>
      rw [K_PvPTouchDamage_rules E t1 t2 w p1 p2 hpodium hp1 hp2]
      by_cases hdom : dominant E (w.mobj t1) (w.mobj t2) p1 = true
          ∧ dominant E (w.mobj t2) (w.mobj t1) p2 = true
      · rw [if_pos hdom]
        exact ⟨_, rfl⟩
      · rw [if_neg hdom]
        cases href : pvpChainReference E t1 t2 (w.mobj t1) (w.mobj t2) p1 p2 with
        | none => exact ⟨_, hsting hframe hne⟩
        | some e => exact ⟨_, rfl⟩

/-- The touch of `stingWorld`: the first player is stung, the handler returns
`true`, and a `P_DamageMobj` is among its calls. -/
theorem pvp_return_value_witness :
    ∃ r l, K_PvPTouchDamage (sampleEnv []) 0 1 stingWorld = some r
      ∧ r.2.trace = stingWorld.trace ++ l ∧ (r.1 = true ↔ ∃ e ∈ l, e.isHit = true) := by
  obtain ⟨hiff, -, -, -, hret⟩ := pvp_return_value (sampleEnv []) 0 1 stingWorld { rings := 0 }
    { rings := 5 } (by decide) (by decide)
  obtain ⟨r, hr⟩ := hret (sampleEnv_ringsFrame []) (by decide)
  obtain ⟨l, hl, hl2⟩ := hiff r hr
  exact ⟨r, l, hr, hl, hl2⟩

end KCollide

namespace srb2

/-! ## Theorems on `StaticVec` -/

theorem StaticVec.store_ok {T : Type} {Limit : Nat} (v : StaticVec T Limit) (i : Nat) (x : T)
    (hi : i < Limit) :
    v.store i x = Outcome.ok { v with arr_ := fun j => if j.val = i then x else v.arr_ j } := by
  unfold StaticVec.store
  rw [if_pos hi]

theorem StaticVec.empty_valid {T : Type} {Limit : Nat} [Inhabited T] :
    (StaticVec.empty : StaticVec T Limit).valid :=
  ⟨Nat.zero_le _, fun _ _ => rfl⟩

/-- `push_back` on a vector that is not full keeps the invariant. -/
theorem StaticVec.push_back_valid {T : Type} {Limit : Nat} [Inhabited T] (v : StaticVec T Limit)
    (x : T) (hv : v.valid) (hroom : v.size_ < Limit) :
    ∃ r, v.push_back x = Outcome.ok r ∧ r.valid ∧ r.size_ = v.size_ + 1 := by
  unfold StaticVec.push_back
  rw [StaticVec.store_ok v _ x hroom]
  refine ⟨_, rfl, ⟨hroom, ?_⟩, rfl⟩
  intro i hi
  simp only at hi ⊢
  rw [if_neg (by omega)]
  exact hv.2 i (by omega)

/-- `pop_back` on a vector that is not empty keeps the invariant. -/
theorem StaticVec.pop_back_valid {T : Type} {Limit : Nat} [Inhabited T] (v : StaticVec T Limit)
    (hv : v.valid) (hne : 0 < v.size_) :
    ∃ r, v.pop_back = Outcome.ok r ∧ r.valid ∧ r.size_ = v.size_ - 1 := by
  unfold StaticVec.pop_back
  rw [if_neg (by omega), StaticVec.store_ok _ _ _ (by have := hv.1; omega)]
  refine ⟨_, rfl, ⟨by have := hv.1; simp only; omega, ?_⟩, rfl⟩
  intro i hi
  simp only at hi ⊢
  by_cases h : i.val = v.size_ - 1
  · rw [if_pos h]
  · rw [if_neg h]
    exact hv.2 i (by omega)

/-- `clear` yields a vector that satisfies the invariant. -/
theorem StaticVec.clear_valid {T : Type} {Limit : Nat} [Inhabited T] (v : StaticVec T Limit) :
    v.clear.valid ∧ v.clear.size_ = 0 :=
  ⟨⟨Nat.zero_le _, fun _ _ => rfl⟩, rfl⟩

theorem StaticVec.popLoop_valid {T : Type} {Limit : Nat} [Inhabited T] (size : Nat) :
    ∀ (n : Nat) (v : StaticVec T Limit), v.valid → v.size_ = size + n →
      ∃ r, whileLoop (fun v : StaticVec T Limit => decide (v.size_ > size)) StaticVec.pop_back n v
          = Outcome.ok r ∧ r.valid ∧ r.size_ = size := by
  intro n
  induction n with
  | zero =>
    intro v hv hs
    refine ⟨v, ?_, hv, by omega⟩
    unfold whileLoop
    rw [if_neg (by simp; omega)]
  | succ n ih =>
    intro v hv hs
    obtain ⟨r, hr, hrv, hrs⟩ := StaticVec.pop_back_valid v hv (by omega)
    obtain ⟨r2, hr2, hr2v, hr2s⟩ := ih r hrv (by omega)
    refine ⟨r2, ?_, hr2v, hr2s⟩
    unfold whileLoop
    rw [if_pos (by simp; omega), hr]
    exact hr2

theorem StaticVec.pushLoop_valid {T : Type} {Limit : Nat} [Inhabited T] (size : Nat) (x : T)
    (hsize : size ≤ Limit) :
    ∀ (n : Nat) (v : StaticVec T Limit), v.valid → v.size_ + n = size →
      ∃ r, whileLoop (fun v : StaticVec T Limit => decide (v.size_ < size))
            (fun v => v.push_back x) n v = Outcome.ok r ∧ r.valid ∧ r.size_ = size := by
  intro n
  induction n with
  | zero =>
    intro v hv hs
    refine ⟨v, ?_, hv, by omega⟩
    unfold whileLoop
    rw [if_neg (by simp; omega)]
  | succ n ih =>
    intro v hv hs
    obtain ⟨r, hr, hrv, hrs⟩ := StaticVec.push_back_valid v x hv (by omega)
    obtain ⟨r2, hr2, hr2v, hr2s⟩ := ih r hrv (by omega)
    refine ⟨r2, ?_, hr2v, hr2s⟩
    unfold whileLoop
    rw [if_pos (by simp; omega)]
    simp only [hr]
    exact hr2

/-- `resize` keeps the invariant: it throws, leaving the vector as it is,
when `size >= Limit`, and otherwise returns a valid vector of `size` elements. -/
theorem StaticVec.resize_valid {T : Type} {Limit : Nat} [Inhabited T] (v : StaticVec T Limit)
    (size : Nat) (x : T) (hv : v.valid) :
    (Limit ≤ size → v.resize size x = Outcome.length_error)
    ∧ (size < Limit → ∃ r, v.resize size x = Outcome.ok r ∧ r.valid ∧ r.size_ = size) := by
  constructor
  · intro h
    unfold StaticVec.resize
    rw [if_pos h]
  · intro h
    unfold StaticVec.resize
    rw [if_neg (by omega)]
    by_cases h1 : size = v.size_
    · rw [if_pos h1]
      exact ⟨v, rfl, hv, h1.symm⟩
    · rw [if_neg h1]
      by_cases h2 : size < v.size_
      · rw [if_pos h2]
        exact StaticVec.popLoop_valid size _ v hv (by omega)
      · rw [if_neg h2]
        exact StaticVec.pushLoop_valid size x (by omega) _ v hv (by omega)

/-- The clearing loop of the assignment operators, entered with `i < Limit`:
it writes `T()` to the slots `1..i` and to no other slot. -/
theorem StaticVec.resetLoop_ok {T : Type} {Limit : Nat} [Inhabited T] :
    ∀ (i : Nat) (v : StaticVec T Limit), i < Limit →
      ∃ r, StaticVec.resetLoop i v = Outcome.ok r ∧ r.size_ = v.size_
        ∧ ∀ j : Fin Limit, r.arr_ j = if 1 ≤ j.val ∧ j.val ≤ i then default else v.arr_ j := by
  intro i
  induction i with
  | zero =>
    intro v _
    refine ⟨v, rfl, rfl, ?_⟩
    intro j
    rw [if_neg (by omega)]
  | succ i ih =>
    intro v hi
    obtain ⟨r, hr, hrs, hra⟩ := ih
      { v with arr_ := fun j => if j.val = i + 1 then default else v.arr_ j } (by omega)
    refine ⟨r, ?_, hrs, ?_⟩
    · unfold StaticVec.resetLoop
      rw [StaticVec.store_ok v _ _ hi]
      exact hr
    · intro j
      rw [hra j]
      by_cases h1 : 1 ≤ j.val ∧ j.val ≤ i
      · rw [if_pos h1, if_pos (by omega)]
      · rw [if_neg h1]
        by_cases h2 : j.val = i + 1
        · simp only [h2, if_true]
          rw [if_pos (by omega)]
        · simp only [h2, if_false]
          rw [if_neg (by omega)]

/-- The clearing loop entered with `i >= Limit` and `i > 0` starts with the
write `arr_[i]`, outside the array. -/
theorem StaticVec.resetLoop_undefined {T : Type} {Limit : Nat} [Inhabited T] (i : Nat)
    (v : StaticVec T Limit) (hpos : 0 < i) (hi : Limit ≤ i) :
    StaticVec.resetLoop i v = Outcome.undefined := by
  cases i with
  | zero => omega
  | succ i =>
    unfold StaticVec.resetLoop StaticVec.store
    rw [if_neg (by omega)]
    rfl

theorem StaticVec.copyLoop_ok {T : Type} {Limit : Nat} (rhs : StaticVec T Limit) :
    ∀ (l : List Nat) (v : StaticVec T Limit), (∀ i ∈ l, i < Limit) →
      ∃ r, StaticVec.copyLoop rhs l v = Outcome.ok r ∧ r.size_ = v.size_
        ∧ ∀ j : Fin Limit, r.arr_ j = if j.val ∈ l then rhs.arr_ j else v.arr_ j := by
  intro l
  induction l with
  | nil =>
    intro v _
    exact ⟨v, rfl, rfl, fun j => by simp⟩
  | cons i rest ih =>
    intro v hl
    have hi : i < Limit := hl i (List.mem_cons_self _ _)
    obtain ⟨r, hr, hrs, hra⟩ := ih
      { v with arr_ := fun j => if j.val = i then rhs.arr_ ⟨i, hi⟩ else v.arr_ j }
      (fun k hk => hl k (List.mem_cons_of_mem _ hk))
    refine ⟨r, ?_, hrs, ?_⟩
    · unfold StaticVec.copyLoop StaticVec.load
      rw [dif_pos hi]
      simp only [Outcome.bind]
      rw [StaticVec.store_ok v _ _ hi]
      exact hr
    · intro j
      rw [hra j]
      by_cases h1 : j.val ∈ rest
      · rw [if_pos h1, if_pos (List.mem_cons_of_mem _ h1)]
      · rw [if_neg h1]
        by_cases h2 : j.val = i
        · simp only [h2, if_true]
          rw [if_pos (List.mem_cons_self _ _)]
          congr 1
          exact Fin.ext h2.symm
        · simp only [h2, if_false]
          rw [if_neg]
          intro hmem
          rcases List.mem_cons.1 hmem with h | h
          · exact h2 h
          · exact h1 h

/-- Copy assignment onto a valid vector that is not full, from a valid
vector: it returns, the result has the size of `rhs`, its slots below that
size are the slots of `rhs`, its slots `1..` above are `T()`, and slot `0` is
left as it was when `rhs` is empty.  So the result satisfies the invariant
exactly when `rhs` is not empty or slot `0` of `lhs` held `T()`. -/
theorem StaticVec.assign_spec {T : Type} {Limit : Nat} [Inhabited T] (lhs rhs : StaticVec T Limit)
    (hl : lhs.valid) (hr : rhs.valid) (hroom : lhs.size_ < Limit) :
    ∃ r, lhs.assign rhs = Outcome.ok r ∧ r.size_ = rhs.size_
      ∧ (∀ j : Fin Limit, r.arr_ j
          = if j.val < rhs.size_ then rhs.arr_ j
            else if 1 ≤ j.val then default else lhs.arr_ j)
      ∧ (r.valid ↔ (rhs.size_ ≠ 0 ∨ ∀ j : Fin Limit, j.val = 0 → lhs.arr_ j = default)) := by
  obtain ⟨v1, h1, h1s, h1a⟩ := StaticVec.resetLoop_ok lhs.size_ lhs hroom
  obtain ⟨r, h2, h2s, h2a⟩ := StaticVec.copyLoop_ok rhs (List.range rhs.size_)
    { v1 with size_ := rhs.size_ } (fun i hi => by have := hr.1; simp at hi; omega)
  have harr : ∀ j : Fin Limit, r.arr_ j
      = if j.val < rhs.size_ then rhs.arr_ j
        else if 1 ≤ j.val then default else lhs.arr_ j := by
    intro j
    rw [h2a j]
    by_cases hj : j.val < rhs.size_
    · rw [if_pos (by simpa using hj), if_pos hj]
    · rw [if_neg (by simpa using hj), if_neg hj]
      simp only
      rw [h1a j]
      by_cases hj1 : 1 ≤ j.val
      · rw [if_pos hj1]
        by_cases hj2 : j.val ≤ lhs.size_
        · rw [if_pos ⟨hj1, hj2⟩]
        · rw [if_neg (fun h => hj2 h.2)]
          exact hl.2 j (by omega)
      · rw [if_neg (fun h => hj1 h.1), if_neg hj1]
  refine ⟨r, ?_, h2s, harr, ?_⟩
  · unfold StaticVec.assign
    rw [h1]
    exact h2
  · constructor
    · intro hv
      by_cases h0 : rhs.size_ = 0
      · right
        intro j hj
        have := hv.2 j (by rw [h2s]; simp only; omega)
        rw [harr j, if_neg (by omega), if_neg (by omega)] at this
        exact this
      · exact Or.inl h0
    · intro hcase
      refine ⟨by rw [h2s]; exact hr.1, ?_⟩
      intro j hj
      rw [h2s] at hj
      simp only at hj
      rw [harr j, if_neg (by omega)]
      by_cases hj1 : 1 ≤ j.val
      · rw [if_pos hj1]
      · rw [if_neg hj1]
        rcases hcase with h | h
        · omega
        · exact h j (by omega)

/-- Copy assignment onto a full vector (`size_ == Limit`, `Limit > 0`): the
clearing loop starts with the write `arr_[Limit]`, outside the array. -/
theorem StaticVec.assign_full {T : Type} {Limit : Nat} [Inhabited T] (lhs rhs : StaticVec T Limit)
    (hpos : 0 < Limit) (hfull : lhs.size_ = Limit) :
    lhs.assign rhs = Outcome.undefined := by
  unfold StaticVec.assign
  rw [StaticVec.resetLoop_undefined lhs.size_ lhs (by omega) (by omega)]
  rfl

/-- Move assignment onto a valid vector that is not full, from a valid
vector: `*this` ends as after copy assignment, and `rhs` ends empty and
valid. -/
theorem StaticVec.moveAssign_spec {T : Type} {Limit : Nat} [Inhabited T]
    (lhs rhs : StaticVec T Limit) (hl : lhs.valid) (hr : rhs.valid) (hroom : lhs.size_ < Limit) :
    ∃ r s, lhs.moveAssign rhs = Outcome.ok (r, s) ∧ lhs.assign rhs = Outcome.ok r
      ∧ s.valid ∧ s.size_ = 0 := by
  obtain ⟨r, hres, -, -, -⟩ := StaticVec.assign_spec lhs rhs hl hr hroom
  obtain ⟨s, hs, hsv, hss⟩ := StaticVec.popLoop_valid 0 rhs.size_ rhs hr (by omega)
  refine ⟨r, s, ?_, hres, hsv, hss⟩
  unfold StaticVec.assign at hres
  unfold StaticVec.moveAssign
  cases h1 : StaticVec.resetLoop lhs.size_ lhs with
  | ok v1 =>
    rw [h1] at hres
    simp only [Outcome.bind] at hres ⊢
    rw [hres]
    simp only [Outcome.bind]
    rw [hs]
  | length_error => rw [h1] at hres; exact absurd hres (by simp [Outcome.bind])
  | undefined => rw [h1] at hres; exact absurd hres (by simp [Outcome.bind])
  | fuel => rw [h1] at hres; exact absurd hres (by simp [Outcome.bind])

/-- Move assignment onto a full vector (`size_ == Limit`, `Limit > 0`): the
clearing loop starts with the write `arr_[Limit]`, outside the array. -/
theorem StaticVec.moveAssign_full {T : Type} {Limit : Nat} [Inhabited T]
    (lhs rhs : StaticVec T Limit) (hpos : 0 < Limit) (hfull : lhs.size_ = Limit) :
    lhs.moveAssign rhs = Outcome.undefined := by
  unfold StaticVec.moveAssign
  rw [StaticVec.resetLoop_undefined lhs.size_ lhs (by omega) (by omega)]
  rfl

theorem StaticVec.ofList_valid {T : Type} {Limit : Nat} [Inhabited T] (xs : List T)
    (hlen : xs.length ≤ Limit) : (StaticVec.ofList xs : StaticVec T Limit).valid := by
  refine ⟨hlen, ?_⟩
  intro i hi
  exact List.getD_eq_default _ _ hi

/-- C27, the code at the failing inputs.  `StaticVec<unsigned, 3>`: the vector
holding `[7]` and the empty vector both satisfy the invariant.  Assigning the
empty vector onto `[7]` (by copy or by move) returns a vector of size `0`
whose slot `0` still holds `7`: the invariant is broken.  Assigning onto the
full vector `[1, 2, 3]` writes `arr_[3]`, outside the indices `0..2`. -/
theorem static_vec_assign_breaks_invariant :
    ((StaticVec.ofList [7] : StaticVec Nat 3).valid ∧ (StaticVec.empty : StaticVec Nat 3).valid
      ∧ (StaticVec.ofList [1, 2, 3] : StaticVec Nat 3).valid
      ∧ (StaticVec.ofList [5] : StaticVec Nat 3).valid)
    ∧ ((StaticVec.ofList [7] : StaticVec Nat 3).assign StaticVec.empty).map StaticVec.dump
        = Outcome.ok (0, [7, 0, 0])
    ∧ (∀ r, (StaticVec.ofList [7] : StaticVec Nat 3).assign StaticVec.empty = Outcome.ok r →
        ¬ r.valid)
    ∧ ((StaticVec.ofList [7] : StaticVec Nat 3).moveAssign StaticVec.empty).map
          (fun p => (p.1.dump, p.2.dump))
        = Outcome.ok ((0, [7, 0, 0]), (0, [0, 0, 0]))
    ∧ (StaticVec.ofList [1, 2, 3] : StaticVec Nat 3).assign (StaticVec.ofList [5])
        = Outcome.undefined
    ∧ (StaticVec.ofList [1, 2, 3] : StaticVec Nat 3).moveAssign (StaticVec.ofList [5])
        = Outcome.undefined := by
  refine ⟨⟨StaticVec.ofList_valid _ (by decide), StaticVec.empty_valid,
    StaticVec.ofList_valid _ (by decide), StaticVec.ofList_valid _ (by decide)⟩,
    by decide, ?_, by decide, StaticVec.assign_full _ _ (by decide) rfl,
    StaticVec.moveAssign_full _ _ (by decide) rfl⟩
  intro r hr hv
  obtain ⟨r2, hr2, -, -, hiff⟩ := StaticVec.assign_spec (StaticVec.ofList [7] : StaticVec Nat 3)
    StaticVec.empty (StaticVec.ofList_valid _ (by decide)) StaticVec.empty_valid (by decide)
  rw [hr] at hr2
  obtain rfl := Outcome.ok.inj hr2
  rcases hiff.1 hv with h | h
  · exact h rfl
  · exact absurd (h ⟨0, by decide⟩ rfl) (by decide)

end srb2
